import Mathlib

set_option maxHeartbeats 2000000

/-- Python-style scalar values appearing in module parameters and SDK
payload dictionaries: strings, integers, and Python None. -/
inductive PyVal where
  | str (s : String)
  | int (n : Int)
  | none
deriving DecidableEq

/-- A Python dictionary with string keys, modelled as an association list.
Keys are unique in any dictionary produced by the code, as in Python. -/
abbrev Dict := List (String × PyVal)

/-- Key lookup in a dictionary (first matching key). -/
def dlookup (d : Dict) (k : String) : Option PyVal :=
  Option.map (fun kv => kv.2) (List.find? (fun kv => kv.1 == k) d)

/-- Python truthiness of a scalar value. -/
def PyVal.truthy : PyVal → Bool
  | PyVal.str s => !(s == "")
  | PyVal.int n => !(n == 0)
  | PyVal.none => false

/-- Convert an optional module parameter of string type to its Python value. -/
def optStr : Option String → PyVal
  | Option.some s => PyVal.str s
  | Option.none => PyVal.none

/-- Convert an optional module parameter of int type to its Python value. -/
def optInt : Option Int → PyVal
  | Option.some n => PyVal.int n
  | Option.none => PyVal.none

/-- Python str() of a value, as used by str.format in error messages. -/
def pyRepr : PyVal → String
  | PyVal.str s => s
  | PyVal.int n => toString n
  | PyVal.none => "None"

/-- Python str() of the optional remote_system_address parameter. -/
def optAddrRepr : Option String → String
  | Option.some s => s
  | Option.none => "None"

/-- Python truthiness of an optional dictionary (None and empty dict are falsy). -/
def odTruthy : Option Dict → Bool
  | Option.some d => !d.isEmpty
  | Option.none => false

/-- Python `v.strip() == ''` on a string value (only ever applied to
strings): the string strips to empty exactly when every character is
whitespace. -/
def pyStripEmpty : PyVal → Bool
  | PyVal.str s => s.data.all (fun c => c.isWhitespace)
  | _ => false

/-- Python `rep_rule_name is None or rep_rule_name.strip() == ''`. -/
def invalidRuleName : PyVal → Bool
  | PyVal.none => true
  | v => pyStripEmpty v

/-- Python dict assignment `d[k] = v`: replace an existing key in place
or append the new key at the end. -/
def dictSet (d : Dict) (k : String) (v : PyVal) : Dict :=
  if (dlookup d k).isSome then
    List.map (fun kv => if kv.1 == k then (kv.1, v) else kv) d
  else d ++ [(k, v)]

/-- The shape of an exception raised by the vendor SDK or by Python itself:
whether it is a utils.PowerStoreException, whether its err_code is
PowerStoreException.HTTP_ERR, its status_code and its str() form. -/
structure PSError where
  isPS : Bool
  isHTTP : Bool
  statusCode : String
  msg : String
deriving DecidableEq

/-- The 404 test performed in get_replication_rule_details:
isinstance PowerStoreException, err_code == HTTP_ERR, status_code == "404". -/
def is404 (e : PSError) : Bool := e.isPS && e.isHTTP && (e.statusCode == "404")

/-- One call to the vendor SDK / backend array. -/
inductive Call where
  | clusterList
  | remoteSystemByName (name addr : PyVal)
  | remoteSystemDetails (rsid : PyVal)
  | ruleByName (name : PyVal)
  | ruleDetails (rid : PyVal)
  | createRule (name rpo rsid alert : PyVal)
  | modifyRule (rid name rpo rsid alert : PyVal)
  | deleteRule (rid : PyVal)
deriving DecidableEq

/-- Backend calls that mutate array state. -/
def mutatingCall : Call → Bool
  | Call.createRule _ _ _ _ => true
  | Call.modifyRule _ _ _ _ _ => true
  | Call.deleteRule _ => true
  | _ => false

/-- Replication rule lookup calls. -/
def ruleLookupCall : Call → Bool
  | Call.ruleByName _ => true
  | Call.ruleDetails _ => true
  | _ => false

/-- Remote system lookup calls. -/
def remoteLookupCall : Call → Bool
  | Call.remoteSystemByName _ _ => true
  | Call.remoteSystemDetails _ => true
  | _ => false

/-- Result of running a fragment of the module: normal value, a
module.fail_json termination, or a raised Python exception. -/
inductive MStep (α : Type) where
  | ok (a : α)
  | fail (msg : String)
  | exn (e : PSError)
deriving DecidableEq

/-- The vendor SDK consumed by the module, as an opaque collaborator over
backend state σ. Every method can raise (Except.error). name_or_id is
utils.name_or_id, classifying a token as a NAME (true) or an ID (false). -/
structure Backend (σ : Type) where
  get_cluster_list : σ → Except PSError (List Dict) × σ
  get_replication_rule_by_name : PyVal → σ → Except PSError (List Dict) × σ
  get_replication_rule_details : PyVal → σ → Except PSError (Option Dict) × σ
  create_replication_rule : PyVal → PyVal → PyVal → PyVal → σ → Except PSError Dict × σ
  modify_replication_rule : PyVal → PyVal → PyVal → PyVal → PyVal → σ → Except PSError Dict × σ
  delete_replication_rule : PyVal → σ → Except PSError PyVal × σ
  get_remote_system_by_name : PyVal → PyVal → σ → Except PSError (List Dict) × σ
  get_remote_system_details : PyVal → σ → Except PSError (Option Dict) × σ
  name_or_id : σ → PyVal → Bool

/-- Program monad for the module: backend state in, (step result, backend
state out, list of backend calls emitted). -/
def PM (σ : Type) (α : Type) : Type := σ → MStep α × σ × List Call

def PM.pure {σ α : Type} (a : α) : PM σ α := fun s => (MStep.ok a, s, [])

def PM.bind {σ α β : Type} (x : PM σ α) (f : α → PM σ β) : PM σ β := fun s =>
  match x s with
  | (MStep.ok a, s1, t1) =>
    match f a s1 with
    | (r, s2, t2) => (r, s2, t1 ++ t2)
  | (MStep.fail m, s1, t1) => (MStep.fail m, s1, t1)
  | (MStep.exn e, s1, t1) => (MStep.exn e, s1, t1)

instance : Monad (PM σ) where
  pure := PM.pure
  bind := PM.bind

/-- module.fail_json: terminates the invocation with an error message.
It raises SystemExit, which `except Exception` does not catch. -/
def failJson {σ α : Type} (msg : String) : PM σ α := fun s => (MStep.fail msg, s, [])

/-- Raise a Python exception. -/
def raiseE {σ α : Type} (e : PSError) : PM σ α := fun s => (MStep.exn e, s, [])

/-- Read the current backend state (used only for utils.name_or_id). -/
def getState {σ : Type} : PM σ σ := fun s => (MStep.ok s, s, [])

/-- Run one SDK call: record it in the call trace and raise on SDK error. -/
def sdkCall {σ α : Type} (c : Call) (f : σ → Except PSError α × σ) : PM σ α := fun s =>
  match f s with
  | (Except.ok a, s1) => (MStep.ok a, s1, [c])
  | (Except.error e, s1) => (MStep.exn e, s1, [c])

/-- A Python try / except Exception block: catches raised exceptions but
not fail_json terminations. -/
def tryE {σ α : Type} (body : PM σ α) (handler : PSError → PM σ α) : PM σ α := fun s =>
  match body s with
  | (MStep.exn e, s1, t1) =>
    match handler e s1 with
    | (r, s2, t2) => (r, s2, t1 ++ t2)
  | r => r

def keyError (k : String) : PSError := PSError.mk false false "" ("KeyError: " ++ k)

def typeError : PSError := PSError.mk false false "" "TypeError: NoneType is not subscriptable"

/-- Python `d[k]` on a dictionary: KeyError when the key is missing. -/
def pyIndex {σ : Type} (d : Dict) (k : String) : PM σ PyVal := fun s =>
  match dlookup d k with
  | Option.some v => (MStep.ok v, s, [])
  | Option.none => (MStep.exn (keyError k), s, [])

/-- Python `d[k]` where `d` may be Python None (TypeError on None). -/
def pyIndexOpt {σ : Type} (d : Option Dict) (k : String) : PM σ PyVal :=
  match d with
  | Option.some dd => pyIndex dd k
  | Option.none => raiseE typeError

/-- modify_replication_rule_required from replicationrule.py: modification
is required when some key of the current rule object also appears in the
passed arguments with a non-None value different from the current value. -/
def modify_replication_rule_required (rep_rule_details : Dict) (passed_args : Dict) : Bool :=
  List.any rep_rule_details (fun kv =>
    match dlookup passed_args kv.1 with
    | Option.some pv =>
      if pv = PyVal.none then false
      else if kv.2 = pv then false else true
    | Option.none => false)

/-- PowerstoreReplicationRule.get_clusters. -/
def get_clusters_m {σ : Type} (B : Backend σ) : PM σ (List Dict) :=
  tryE (sdkCall Call.clusterList B.get_cluster_list)
    (fun e => failJson ("Failed to get the clusters with error " ++ e.msg))

/-- PowerstoreReplicationRule.get_replication_rule_details: lookup by name
or by id, translating a 404 backend error into an empty (None) result and
any other backend error into a fail_json wrapped with context. -/
def get_replication_rule_details_m {σ : Type} (B : Backend σ) (cluster_name : String)
    (rep_rule_name rep_rule_id : PyVal) : PM σ (Option Dict) :=
  tryE
    (if rep_rule_name.truthy then do
      let resp ← sdkCall (Call.ruleByName rep_rule_name)
        (B.get_replication_rule_by_name rep_rule_name)
      if resp.isEmpty then
        pure Option.none
      else do
        let rid ← pyIndex (resp.headD []) "id"
        sdkCall (Call.ruleDetails rid) (B.get_replication_rule_details rid)
    else
      sdkCall (Call.ruleDetails rep_rule_id) (B.get_replication_rule_details rep_rule_id))
    (fun e =>
      if is404 e then pure Option.none
      else failJson ("Get details of replication rule name: " ++ pyRepr rep_rule_name ++
        " or ID " ++ pyRepr rep_rule_id ++ " on array name : " ++ cluster_name ++
        " failed with error : " ++ e.msg ++ " "))

def rsAmbiguousMsg : String :=
  "There are more than one instance with the same remote system name. Please enter the remote_system_address to uniquely fetch the remote system instance."

def rsNotFoundMsg (n : PyVal) (addr : Option String) : String :=
  "Remote system with name " ++ pyRepr n ++ " and address " ++ optAddrRepr addr ++
  " not found. Please enter a valid remote system."

/-- PowerstoreReplicationRule.get_remote_system_details: resolve a remote
system given a token that may be a name or an id, with an optional
disambiguating management address. -/
def get_remote_system_details_m {σ : Type} (B : Backend σ) (remote_system : PyVal)
    (remote_system_address : Option String) : PM σ (Option Dict) :=
  tryE
    (do
      let st ← getState
      let rsName := if remote_system = PyVal.none then PyVal.none
        else if B.name_or_id st remote_system then remote_system else PyVal.none
      let rsId := if remote_system = PyVal.none then PyVal.none
        else if B.name_or_id st remote_system then PyVal.none else remote_system
      if rsName.truthy then do
        let resp ← sdkCall (Call.remoteSystemByName rsName PyVal.none)
          (B.get_remote_system_by_name rsName PyVal.none)
        if resp.length == 1 then
          pure (Option.some (resp.headD []))
        else if resp.length > 1 then
          if !(optStr remote_system_address).truthy then
            failJson rsAmbiguousMsg
          else do
            let resp2 ← sdkCall (Call.remoteSystemByName rsName (optStr remote_system_address))
              (B.get_remote_system_by_name rsName (optStr remote_system_address))
            if resp2.length == 1 then
              pure (Option.some (resp2.headD []))
            else
              failJson (rsNotFoundMsg rsName remote_system_address)
        else
          failJson (rsNotFoundMsg rsName remote_system_address)
      else if rsId.truthy then
        sdkCall (Call.remoteSystemDetails rsId) (B.get_remote_system_details rsId)
      else
        pure Option.none)
    (fun e => failJson ("Failed to get the remote system with error " ++ e.msg))

def rpoRequiredMsg : String := "To create a replication rule rpo is required"

/-- PowerstoreReplicationRule.create_replication_rule: requires rpo, issues
the create call, then re-fetches the created rule by its id. -/
def create_replication_rule_m {σ : Type} (B : Backend σ) (cn cg : String)
    (rep_rule_name rpo remote_system_id alert_threshold : PyVal) : PM σ (Option Dict) :=
  tryE
    (if !rpo.truthy then
      failJson rpoRequiredMsg
    else do
      let resp ← sdkCall (Call.createRule rep_rule_name rpo remote_system_id alert_threshold)
        (B.create_replication_rule rep_rule_name rpo remote_system_id alert_threshold)
      let rid := (dlookup resp "id").getD PyVal.none
      sdkCall (Call.ruleDetails rid) (B.get_replication_rule_details rid))
    (fun e => failJson ("create replication rule on PowerStore array name: " ++ cn ++
      " , global id : " ++ cg ++ " failed with error " ++ e.msg))

/-- PowerstoreReplicationRule.modify_replication_rule. -/
def modify_replication_rule_m {σ : Type} (B : Backend σ) (cn cg : String)
    (rep_rule_id new_name rpo remote_system_id alert_threshold : PyVal) : PM σ Dict :=
  tryE
    (sdkCall (Call.modifyRule rep_rule_id new_name rpo remote_system_id alert_threshold)
      (B.modify_replication_rule rep_rule_id new_name rpo remote_system_id alert_threshold))
    (fun e => failJson ("Modify replication rule id: " ++ pyRepr rep_rule_id ++
      " on PowerStore array name: " ++ cn ++ ", global id:" ++ cg ++
      " failed with error " ++ e.msg))

/-- PowerstoreReplicationRule.delete_replication_rule. -/
def delete_replication_rule_m {σ : Type} (B : Backend σ) (cn cg : String)
    (rep_rule_id : PyVal) : PM σ Bool :=
  tryE
    (do
      let _ ← sdkCall (Call.deleteRule rep_rule_id) (B.delete_replication_rule rep_rule_id)
      pure true)
    (fun e => failJson ("Delete replication rule id " ++ pyRepr rep_rule_id ++
      " for PowerStore array name : " ++ cn ++ " , global id : " ++ cg ++
      " failed with error " ++ e.msg ++ " "))

/-- PowerstoreReplicationRule.show_output: re-fetch the rule by id, resolve
its remote_system_id to the remote system name, and attach that name as
remote_system_name. -/
def show_output_m {σ : Type} (B : Backend σ) (cn : String) (rep_rule_id : PyVal)
    (remote_system_address : Option String) : PM σ Dict := do
  let det ← get_replication_rule_details_m B cn PyVal.none rep_rule_id
  match det with
  | Option.none => raiseE typeError
  | Option.some d => do
    let remSysId ← pyIndex d "remote_system_id"
    let rsd ← get_remote_system_details_m B remSysId remote_system_address
    match rsd with
    | Option.none => raiseE typeError
    | Option.some rd => do
      let nm ← pyIndex rd "name"
      pure (dictSet d "remote_system_name" nm)

/-- Module parameters (the declarative input surface). -/
structure Params where
  replication_rule_id : Option String
  replication_rule_name : Option String
  new_name : Option String
  rpo : Option String
  alert_threshold : Option Int
  remote_system : Option String
  remote_system_address : Option String
  state : String
deriving DecidableEq

/-- What exit_json reports. -/
structure ModuleResult where
  changed : Bool
  replication_rule_details : Option Dict
deriving DecidableEq

def noClusterMsg : String := "Unable to find any active cluster on this array"
def createNeedsNameMsg : String :=
  "To create a replication rule name is required. replication_rule_id is passed."
def invalidNameMsg : String :=
  "Invalid rep_rule_name provided. Please enter a valid replication rule name."
def createNeedsRemoteMsg : String := "To create a replication rule remote_system is required."
def newNameAtCreateMsg : String :=
  "new_name parameter passed. Renaming a replication rule is invalid during creation."

/-- The output-projection tail of perform_module_operation (source lines
511 to 516): when the state is present and a rule object is at hand,
replace it by show_output's re-fetched and enriched object, then report. -/
def perform_out_m {σ : Type} (B : Backend σ) (p : Params) (cn : String)
    (rep_rule_id2 : PyVal) (changed3 : Bool) (rrd3 : Option Dict) : PM σ ModuleResult := do
  let rrd4 ←
    if p.state == "present" && odTruthy rrd3 then do
      let d ← show_output_m B cn rep_rule_id2 p.remote_system_address
      pure (Option.some d)
    else
      pure rrd3
  pure (ModuleResult.mk changed3 rrd4)

/-- The part of PowerstoreReplicationRule.perform_module_operation that
follows the cluster lookup, remote-system resolution and rule fetch:
create / delete / modify decision and output projection (source lines
458 to 516). Split out as a named function so that the reconciliation
step can be reasoned about separately; `perform_module_operation_m`
below glues the two halves together exactly as in the source. -/
def perform_act_m {σ : Type} (B : Backend σ) (p : Params) (cn cg : String)
    (remote_system_id : PyVal) (rrd0 : Option Dict)
    (rep_rule_id1 rep_rule_name1 : PyVal) : PM σ ModuleResult := do
  let new_name := optStr p.new_name
  let rpo := optStr p.rpo
  let alert_threshold := optInt p.alert_threshold
  let remote_system := optStr p.remote_system
  let cre ←
      if !(odTruthy rrd0) && p.state == "present" then
        if rep_rule_id1.truthy then
          failJson createNeedsNameMsg
        else if invalidRuleName rep_rule_name1 then
          failJson invalidNameMsg
        else if !remote_system.truthy then
          failJson createNeedsRemoteMsg
        else if !(new_name = PyVal.none) then
          failJson newNameAtCreateMsg
        else do
          let det ← create_replication_rule_m B cn cg rep_rule_name1 rpo
            remote_system_id alert_threshold
          let rid ← pyIndexOpt det "id"
          pure (Option.some (det, rid))
      else
        pure (Option.none : Option (Option Dict × PyVal))
    let changed1 : Bool := cre.isSome
    let rrd1 : Option Dict := match cre with
      | Option.some dr => dr.1
      | Option.none => rrd0
    let rep_rule_id2 : PyVal := match cre with
      | Option.some dr => dr.2
      | Option.none => rep_rule_id1
    let dele ←
      if odTruthy rrd1 && p.state == "absent" then do
        let b ← delete_replication_rule_m B cn cg rep_rule_id2
        pure (Option.some b)
      else
        pure (Option.none : Option Bool)
    let changed2 : Bool := match dele with
      | Option.some b => b
      | Option.none => changed1
    let rrd2 : Option Dict := match dele with
      | Option.some _ => Option.none
      | Option.none => rrd1
    let modr ←
      if odTruthy rrd2 && p.state == "present" then do
        let namev ← if new_name = PyVal.none then pyIndexOpt rrd2 "name" else pure new_name
        let args : Dict := [("name", namev), ("rpo", rpo),
                            ("remote_system_id", remote_system_id),
                            ("alert_threshold", alert_threshold)]
        if modify_replication_rule_required (rrd2.getD []) args then do
          let resp ← modify_replication_rule_m B cn cg rep_rule_id2 new_name rpo
            remote_system_id alert_threshold
          pure (Option.some resp)
        else
          pure (Option.none : Option Dict)
      else
        pure (Option.none : Option Dict)
    let changed3 : Bool := match modr with
      | Option.some _ => true
      | Option.none => changed2
    let rrd3 : Option Dict := match modr with
      | Option.some r => Option.some r
      | Option.none => rrd2
    perform_out_m B p cn rep_rule_id2 changed3 rrd3

/-- Lines 458 to 461 of perform_module_operation: adopt the fetched rule
object's id and name when the corresponding parameter was not supplied,
then hand over to the create / delete / modify / output part. -/
def perform_rest_m {σ : Type} (B : Backend σ) (p : Params) (cn cg : String)
    (remote_system_id : PyVal) (rrd0 : Option Dict) : PM σ ModuleResult := do
  let rep_rule_id0 := optStr p.replication_rule_id
  let rep_rule_name0 := optStr p.replication_rule_name
  let rep_rule_id1 ←
    if odTruthy rrd0 && !rep_rule_id0.truthy then pyIndexOpt rrd0 "id"
    else pure rep_rule_id0
  let rep_rule_name1 ←
    if odTruthy rrd0 && !rep_rule_name0.truthy then pyIndexOpt rrd0 "name"
    else pure rep_rule_name0
  perform_act_m B p cn cg remote_system_id rrd0 rep_rule_id1 rep_rule_name1

/-- PowerstoreReplicationRule.perform_module_operation: one full module
invocation against the backend. -/
def perform_module_operation_m {σ : Type} (B : Backend σ) (p : Params) : PM σ ModuleResult := do
  let rep_rule_id0 := optStr p.replication_rule_id
  let rep_rule_name0 := optStr p.replication_rule_name
  let remote_system := optStr p.remote_system
  let clusters ← get_clusters_m B
  if clusters.isEmpty then
    failJson noClusterMsg
  else do
    let cnv ← pyIndex (clusters.headD []) "name"
    let cgv ← pyIndex (clusters.headD []) "id"
    let cn := pyRepr cnv
    let cg := pyRepr cgv
    let remote_system_id ←
      if remote_system.truthy then do
        let rsd ← get_remote_system_details_m B remote_system p.remote_system_address
        if odTruthy rsd then
          pyIndex (rsd.getD []) "id"
        else
          pure PyVal.none
      else
        pure PyVal.none
    let rrd0 ← get_replication_rule_details_m B cn rep_rule_name0 rep_rule_id0
    perform_rest_m B p cn cg remote_system_id rrd0

/-- Run one module invocation. -/
def runModule {σ : Type} (B : Backend σ) (p : Params) (s0 : σ) :
    MStep ModuleResult × σ × List Call :=
  perform_module_operation_m B p s0

def moduleOutcome {σ : Type} (B : Backend σ) (p : Params) (s0 : σ) : MStep ModuleResult :=
  (runModule B p s0).1

def moduleStore {σ : Type} (B : Backend σ) (p : Params) (s0 : σ) : σ :=
  (runModule B p s0).2.1

def moduleTrace {σ : Type} (B : Backend σ) (p : Params) (s0 : σ) : List Call :=
  (runModule B p s0).2.2

/-- Operational model of the PowerStore array state used to interpret the
opaque SDK calls: cluster list, replication rules, remote systems, plus the
name-or-id classifier used by utils.name_or_id. -/
structure Store where
  clusters : List Dict
  rules : List Dict
  remotes : List Dict
  nameLike : PyVal → Bool

def err404rule : PSError := PSError.mk true true "404" "replication rule not found"
def err404remote : PSError := PSError.mk true true "404" "remote system not found"

def idOfVal : PyVal → String
  | PyVal.str s => s
  | _ => "x"

/-- A rule id that differs from every id already present (it is strictly
longer than each of them). -/
def freshRuleId (rules : List Dict) : String :=
  List.foldl (fun acc r => acc ++ idOfVal ((dlookup r "id").getD PyVal.none)) "r_" rules

def mkRule (rid : String) (name rpo rsid alert : PyVal) : Dict :=
  [("id", PyVal.str rid), ("name", name), ("rpo", rpo),
   ("remote_system_id", rsid), ("alert_threshold", alert)]

def findRuleById (rules : List Dict) (v : PyVal) : Option Dict :=
  List.find? (fun r => decide (dlookup r "id" = Option.some v)) rules

def modifyArgsDict (name rpo rsid alert : PyVal) : Dict :=
  [("name", name), ("rpo", rpo), ("remote_system_id", rsid), ("alert_threshold", alert)]

/-- A PATCH-style partial update: set exactly the non-None fields. -/
def applyUpdates (r : Dict) (args : Dict) : Dict :=
  List.foldl (fun acc kv => if kv.2 = PyVal.none then acc else dictSet acc kv.1 kv.2) r args

/-- The SDK interpreted against a concrete array state: lookups filter the
state, lookup-by-id on a missing object raises a 404 PowerStoreException,
create stores the requested fields under a fresh id, modify applies the
non-None fields, delete removes the rule. -/
def storeBackend : Backend Store where
  get_cluster_list := fun s => (Except.ok s.clusters, s)
  get_replication_rule_by_name := fun n s =>
    (Except.ok (List.filter (fun r => decide (dlookup r "name" = Option.some n)) s.rules), s)
  get_replication_rule_details := fun v s =>
    match findRuleById s.rules v with
    | Option.some r => (Except.ok (Option.some r), s)
    | Option.none => (Except.error err404rule, s)
  create_replication_rule := fun name rpo rsid alert s =>
    let r := mkRule (freshRuleId s.rules) name rpo rsid alert
    (Except.ok r, Store.mk s.clusters (s.rules ++ [r]) s.remotes s.nameLike)
  modify_replication_rule := fun rid name rpo rsid alert s =>
    match findRuleById s.rules rid with
    | Option.some r =>
      (Except.ok (applyUpdates r (modifyArgsDict name rpo rsid alert)),
       Store.mk s.clusters
         (List.map (fun r2 =>
           if decide (dlookup r2 "id" = Option.some rid) then
             applyUpdates r2 (modifyArgsDict name rpo rsid alert)
           else r2) s.rules)
         s.remotes s.nameLike)
    | Option.none => (Except.error err404rule, s)
  delete_replication_rule := fun rid s =>
    match findRuleById s.rules rid with
    | Option.some _ =>
      (Except.ok PyVal.none,
       Store.mk s.clusters
         (List.filter (fun r => !(decide (dlookup r "id" = Option.some rid))) s.rules)
         s.remotes s.nameLike)
    | Option.none => (Except.error err404rule, s)
  get_remote_system_by_name := fun n addr s =>
    (Except.ok (List.filter (fun d =>
        decide (dlookup d "name" = Option.some n) &&
        (decide (addr = PyVal.none) ||
         decide (dlookup d "management_address" = Option.some addr))) s.remotes), s)
  get_remote_system_details := fun v s =>
    match List.find? (fun d => decide (dlookup d "id" = Option.some v)) s.remotes with
    | Option.some d => (Except.ok (Option.some d), s)
    | Option.none => (Except.error err404remote, s)
  name_or_id := fun s v => s.nameLike v

theorem PM.bind_eq {σ α β : Type} (x : PM σ α) (f : α → PM σ β) : x >>= f = PM.bind x f := rfl

theorem PM.pure_eq {σ α : Type} (a : α) : (Pure.pure a : PM σ α) = PM.pure a := rfl

theorem clusters_eq (s : Store) :
    get_clusters_m storeBackend s = (MStep.ok s.clusters, s, [Call.clusterList]) := rfl

theorem fetch_name_none (s : Store) (cn : String) (n i : PyVal)
    (hn : n.truthy = true)
    (hf : List.filter (fun r => decide (dlookup r "name" = Option.some n)) s.rules = []) :
    get_replication_rule_details_m storeBackend cn n i s =
      (MStep.ok Option.none, s, [Call.ruleByName n]) := by
  simp only [get_replication_rule_details_m, hn, if_true, tryE, sdkCall, storeBackend, hf,
    PM.bind_eq, PM.pure_eq, PM.bind, PM.pure, List.isEmpty_nil, List.append_nil]

theorem fetch_name_found (s : Store) (cn : String) (n i rid : PyVal) (r r2 : Dict) (rest : List Dict)
    (hn : n.truthy = true)
    (hf : List.filter (fun r => decide (dlookup r "name" = Option.some n)) s.rules = r :: rest)
    (hid : dlookup r "id" = Option.some rid)
    (hfind : findRuleById s.rules rid = Option.some r2) :
    get_replication_rule_details_m storeBackend cn n i s =
      (MStep.ok (Option.some r2), s, [Call.ruleByName n, Call.ruleDetails rid]) := by
  simp only [get_replication_rule_details_m, hn, if_true, tryE, sdkCall, storeBackend, hf,
    PM.bind_eq, PM.pure_eq, PM.bind, PM.pure, List.isEmpty_cons, List.headD_cons,
    pyIndex, hid, hfind, List.append_nil, if_false, Bool.false_eq_true, ite_false,
    List.nil_append, List.singleton_append]

theorem fetch_id_found (s : Store) (cn : String) (n i : PyVal) (r : Dict)
    (hn : n.truthy = false)
    (hfind : findRuleById s.rules i = Option.some r) :
    get_replication_rule_details_m storeBackend cn n i s =
      (MStep.ok (Option.some r), s, [Call.ruleDetails i]) := by
  simp only [get_replication_rule_details_m, hn, if_false, tryE, sdkCall, storeBackend, hfind,
    Bool.false_eq_true, ite_false]

theorem fetch_id_missing (s : Store) (cn : String) (n i : PyVal)
    (hn : n.truthy = false)
    (hfind : findRuleById s.rules i = Option.none) :
    get_replication_rule_details_m storeBackend cn n i s =
      (MStep.ok Option.none, s, [Call.ruleDetails i]) := by
  have h404 : is404 err404rule = true := rfl
  simp only [get_replication_rule_details_m, hn, if_false, tryE, sdkCall, storeBackend, hfind,
    Bool.false_eq_true, ite_false, h404, if_true, PM.pure_eq, PM.pure, List.append_nil]

def remotesNamed (s : Store) (n : PyVal) : List Dict :=
  List.filter (fun d => decide (dlookup d "name" = Option.some n)) s.remotes

def remotesNamedAddr (s : Store) (n a : PyVal) : List Dict :=
  List.filter (fun d => decide (dlookup d "name" = Option.some n) &&
    decide (dlookup d "management_address" = Option.some a)) s.remotes

def rulesNamed (s : Store) (n : PyVal) : List Dict :=
  List.filter (fun r => decide (dlookup r "name" = Option.some n)) s.rules

def findRemoteById (s : Store) (v : PyVal) : Option Dict :=
  List.find? (fun d => decide (dlookup d "id" = Option.some v)) s.remotes

theorem sb_name_or_id (s : Store) (v : PyVal) : storeBackend.name_or_id s v = s.nameLike v := rfl

theorem truthy_none : PyVal.none.truthy = false := rfl

theorem truthy_str (a : String) : (PyVal.str a).truthy = !(a == "") := rfl

theorem byName_unscoped (s : Store) (n : PyVal) :
    storeBackend.get_remote_system_by_name n PyVal.none s = (Except.ok (remotesNamed s n), s) := by
  show (Except.ok (List.filter _ s.remotes), s) = _
  have h : List.filter (fun d => decide (dlookup d "name" = Option.some n) &&
      (decide ((PyVal.none : PyVal) = PyVal.none) ||
       decide (dlookup d "management_address" = Option.some PyVal.none))) s.remotes =
      remotesNamed s n := by
    unfold remotesNamed
    apply List.filter_congr
    intro d _
    simp
  rw [h]

theorem byName_scoped (s : Store) (n : PyVal) (a : String) :
    storeBackend.get_remote_system_by_name n (PyVal.str a) s =
      (Except.ok (remotesNamedAddr s n (PyVal.str a)), s) := by
  show (Except.ok (List.filter _ s.remotes), s) = _
  have h : List.filter (fun d => decide (dlookup d "name" = Option.some n) &&
      (decide ((PyVal.str a : PyVal) = PyVal.none) ||
       decide (dlookup d "management_address" = Option.some (PyVal.str a)))) s.remotes =
      remotesNamedAddr s n (PyVal.str a) := by
    unfold remotesNamedAddr
    apply List.filter_congr
    intro d _
    simp
  rw [h]

theorem resolve_skip (s : Store) (addr : Option String) :
    get_remote_system_details_m storeBackend PyVal.none addr s = (MStep.ok Option.none, s, []) := rfl

theorem resolve_id_found (s : Store) (rs : PyVal) (addr : Option String) (d : Dict)
    (hne : rs ≠ PyVal.none) (hcls : s.nameLike rs = false) (htr : rs.truthy = true)
    (hfind : findRemoteById s rs = Option.some d) :
    get_remote_system_details_m storeBackend rs addr s =
      (MStep.ok (Option.some d), s, [Call.remoteSystemDetails rs]) := by
  have hrd : storeBackend.get_remote_system_details rs s = (Except.ok (Option.some d), s) := by
    show (match findRemoteById s rs with
      | Option.some d => (Except.ok (Option.some d), s)
      | Option.none => (Except.error err404remote, s)) = _
    rw [hfind]
  simp [get_remote_system_details_m, tryE, getState, PM.bind_eq, PM.bind, PM.pure_eq,
    PM.pure, sdkCall, sb_name_or_id, hne, hcls, htr, hrd, truthy_none]

theorem resolve_id_missing (s : Store) (rs : PyVal) (addr : Option String)
    (hne : rs ≠ PyVal.none) (hcls : s.nameLike rs = false) (htr : rs.truthy = true)
    (hfind : findRemoteById s rs = Option.none) :
    get_remote_system_details_m storeBackend rs addr s =
      (MStep.fail ("Failed to get the remote system with error " ++ err404remote.msg), s,
        [Call.remoteSystemDetails rs]) := by
  have hrd : storeBackend.get_remote_system_details rs s = (Except.error err404remote, s) := by
    show (match findRemoteById s rs with
      | Option.some d => (Except.ok (Option.some d), s)
      | Option.none => (Except.error err404remote, s)) = _
    rw [hfind]
  simp [get_remote_system_details_m, tryE, getState, PM.bind_eq, PM.bind, PM.pure_eq,
    PM.pure, sdkCall, sb_name_or_id, hne, hcls, htr, hrd, truthy_none, failJson]

theorem resolve_name_unique (s : Store) (rs : PyVal) (addr : Option String) (d : Dict)
    (hne : rs ≠ PyVal.none) (hcls : s.nameLike rs = true) (htr : rs.truthy = true)
    (hf : remotesNamed s rs = [d]) :
    get_remote_system_details_m storeBackend rs addr s =
      (MStep.ok (Option.some d), s, [Call.remoteSystemByName rs PyVal.none]) := by
  simp [get_remote_system_details_m, tryE, getState, PM.bind_eq, PM.bind, PM.pure_eq,
    PM.pure, sdkCall, sb_name_or_id, hne, hcls, htr, byName_unscoped, hf]

theorem resolve_name_zero (s : Store) (rs : PyVal) (addr : Option String)
    (hne : rs ≠ PyVal.none) (hcls : s.nameLike rs = true) (htr : rs.truthy = true)
    (hf : remotesNamed s rs = []) :
    get_remote_system_details_m storeBackend rs addr s =
      (MStep.fail (rsNotFoundMsg rs addr), s, [Call.remoteSystemByName rs PyVal.none]) := by
  simp [get_remote_system_details_m, tryE, getState, PM.bind_eq, PM.bind, PM.pure_eq,
    PM.pure, sdkCall, sb_name_or_id, hne, hcls, htr, byName_unscoped, hf, failJson]

theorem resolve_name_ambig_noaddr (s : Store) (rs : PyVal) (d1 d2 : Dict) (rest : List Dict)
    (hne : rs ≠ PyVal.none) (hcls : s.nameLike rs = true) (htr : rs.truthy = true)
    (hf : remotesNamed s rs = d1 :: d2 :: rest) :
    get_remote_system_details_m storeBackend rs Option.none s =
      (MStep.fail rsAmbiguousMsg, s, [Call.remoteSystemByName rs PyVal.none]) := by
  simp [get_remote_system_details_m, tryE, getState, PM.bind_eq, PM.bind, PM.pure_eq,
    PM.pure, sdkCall, sb_name_or_id, hne, hcls, htr, byName_unscoped, hf, failJson,
    optStr, truthy_none]

theorem resolve_name_ambig_addr_one (s : Store) (rs : PyVal) (a : String) (d1 d2 d : Dict)
    (rest : List Dict)
    (hne : rs ≠ PyVal.none) (hcls : s.nameLike rs = true) (htr : rs.truthy = true)
    (ha : ¬(a = ""))
    (hf : remotesNamed s rs = d1 :: d2 :: rest)
    (hf2 : remotesNamedAddr s rs (PyVal.str a) = [d]) :
    get_remote_system_details_m storeBackend rs (Option.some a) s =
      (MStep.ok (Option.some d), s,
       [Call.remoteSystemByName rs PyVal.none, Call.remoteSystemByName rs (PyVal.str a)]) := by
  simp [get_remote_system_details_m, tryE, getState, PM.bind_eq, PM.bind, PM.pure_eq,
    PM.pure, sdkCall, sb_name_or_id, hne, hcls, htr, byName_unscoped, byName_scoped, hf, hf2,
    failJson, optStr, truthy_str, ha]

theorem resolve_name_ambig_addr_bad (s : Store) (rs : PyVal) (a : String) (d1 d2 : Dict)
    (rest rest2 : List Dict)
    (hne : rs ≠ PyVal.none) (hcls : s.nameLike rs = true) (htr : rs.truthy = true)
    (ha : ¬(a = ""))
    (hf : remotesNamed s rs = d1 :: d2 :: rest)
    (hf2 : remotesNamedAddr s rs (PyVal.str a) = rest2)
    (hlen : ¬(rest2.length = 1)) :
    get_remote_system_details_m storeBackend rs (Option.some a) s =
      (MStep.fail (rsNotFoundMsg rs (Option.some a)), s,
       [Call.remoteSystemByName rs PyVal.none, Call.remoteSystemByName rs (PyVal.str a)]) := by
  simp [get_remote_system_details_m, tryE, getState, PM.bind_eq, PM.bind, PM.pure_eq,
    PM.pure, sdkCall, sb_name_or_id, hne, hcls, htr, byName_unscoped, byName_scoped, hf, hf2,
    failJson, optStr, truthy_str, ha, hlen]

def gContrib (r : Dict) : String := idOfVal ((dlookup r "id").getD PyVal.none)

theorem freshRuleId_def (rules : List Dict) :
    freshRuleId rules = List.foldl (fun acc r => acc ++ gContrib r) "r_" rules := rfl

theorem fold_len_le (l : List Dict) (acc : String) :
    acc.length ≤ (List.foldl (fun a r => a ++ gContrib r) acc l).length := by
  induction l generalizing acc with
  | nil => simp [List.foldl]
  | cons hd tl ih =>
    simp only [List.foldl_cons]
    calc acc.length ≤ (acc ++ gContrib hd).length := by
          rw [String.length_append]; omega
      _ ≤ _ := ih (acc ++ gContrib hd)

theorem mem_contrib_le (l : List Dict) (r : Dict) (hr : r ∈ l) (acc : String) :
    acc.length + (gContrib r).length ≤
      (List.foldl (fun a x => a ++ gContrib x) acc l).length := by
  induction l generalizing acc with
  | nil => cases hr
  | cons hd tl ih =>
    simp only [List.foldl_cons]
    rcases List.mem_cons.mp hr with h | h
    · subst h
      have := fold_len_le tl (acc ++ gContrib r)
      rw [String.length_append] at this
      omega
    · have := ih h (acc ++ gContrib hd)
      rw [String.length_append] at this
      omega

theorem fresh_id_not_mem (rules : List Dict) (r : Dict) (hr : r ∈ rules) :
    ¬(dlookup r "id" = Option.some (PyVal.str (freshRuleId rules))) := by
  intro h
  have hg : gContrib r = freshRuleId rules := by
    unfold gContrib
    rw [h]
    rfl
  have h1 := mem_contrib_le rules r hr "r_"
  rw [hg, freshRuleId_def] at h1
  have h2 : ("r_" : String).length = 2 := rfl
  omega

theorem find_fresh (rules : List Dict) (nm rpo rsid al : PyVal) :
    findRuleById (rules ++ [mkRule (freshRuleId rules) nm rpo rsid al])
      (PyVal.str (freshRuleId rules)) =
      Option.some (mkRule (freshRuleId rules) nm rpo rsid al) := by
  unfold findRuleById
  rw [List.find?_append]
  have h1 : List.find? (fun r => decide (dlookup r "id" =
      Option.some (PyVal.str (freshRuleId rules)))) rules = Option.none := by
    apply List.find?_eq_none.mpr
    intro r hr
    simpa using fresh_id_not_mem rules r hr
  rw [h1]
  simp [mkRule, dlookup]

theorem create_eq (s : Store) (cn cg : String) (nm rpo rsid al : PyVal)
    (hrpo : rpo.truthy = true) :
    create_replication_rule_m storeBackend cn cg nm rpo rsid al s =
      (MStep.ok (Option.some (mkRule (freshRuleId s.rules) nm rpo rsid al)),
       Store.mk s.clusters (s.rules ++ [mkRule (freshRuleId s.rules) nm rpo rsid al])
         s.remotes s.nameLike,
       [Call.createRule nm rpo rsid al,
        Call.ruleDetails (PyVal.str (freshRuleId s.rules))]) := by
  have hcr : storeBackend.create_replication_rule nm rpo rsid al s =
      (Except.ok (mkRule (freshRuleId s.rules) nm rpo rsid al),
       Store.mk s.clusters (s.rules ++ [mkRule (freshRuleId s.rules) nm rpo rsid al])
         s.remotes s.nameLike) := rfl
  have hid : dlookup (mkRule (freshRuleId s.rules) nm rpo rsid al) "id" =
      Option.some (PyVal.str (freshRuleId s.rules)) := rfl
  have hrd : storeBackend.get_replication_rule_details (PyVal.str (freshRuleId s.rules))
      (Store.mk s.clusters (s.rules ++ [mkRule (freshRuleId s.rules) nm rpo rsid al])
        s.remotes s.nameLike) =
      (Except.ok (Option.some (mkRule (freshRuleId s.rules) nm rpo rsid al)),
       Store.mk s.clusters (s.rules ++ [mkRule (freshRuleId s.rules) nm rpo rsid al])
         s.remotes s.nameLike) := by
    show (match findRuleById (s.rules ++ [mkRule (freshRuleId s.rules) nm rpo rsid al])
        (PyVal.str (freshRuleId s.rules)) with
      | Option.some r => (Except.ok (Option.some r), _)
      | Option.none => (Except.error err404rule, _)) = _
    rw [find_fresh]
  simp [create_replication_rule_m, tryE, sdkCall, PM.bind_eq, PM.bind, PM.pure_eq, PM.pure,
    hrpo, hcr, hid, hrd]

def updRules (s : Store) (rid nm rpo rsid al : PyVal) : List Dict :=
  List.map (fun r2 =>
    if decide (dlookup r2 "id" = Option.some rid) then
      applyUpdates r2 (modifyArgsDict nm rpo rsid al)
    else r2) s.rules

theorem modify_found (s : Store) (cn cg : String) (rid nm rpo rsid al : PyVal) (r : Dict)
    (hfind : findRuleById s.rules rid = Option.some r) :
    modify_replication_rule_m storeBackend cn cg rid nm rpo rsid al s =
      (MStep.ok (applyUpdates r (modifyArgsDict nm rpo rsid al)),
       Store.mk s.clusters (updRules s rid nm rpo rsid al) s.remotes s.nameLike,
       [Call.modifyRule rid nm rpo rsid al]) := by
  have hm : storeBackend.modify_replication_rule rid nm rpo rsid al s =
      (Except.ok (applyUpdates r (modifyArgsDict nm rpo rsid al)),
       Store.mk s.clusters (updRules s rid nm rpo rsid al) s.remotes s.nameLike) := by
    show (match findRuleById s.rules rid with
      | Option.some r => _
      | Option.none => (Except.error err404rule, s)) = _
    rw [hfind]
    rfl
  simp [modify_replication_rule_m, tryE, sdkCall, hm]

def delRules (s : Store) (rid : PyVal) : List Dict :=
  List.filter (fun r => !(decide (dlookup r "id" = Option.some rid))) s.rules

theorem delete_found (s : Store) (cn cg : String) (rid : PyVal) (r : Dict)
    (hfind : findRuleById s.rules rid = Option.some r) :
    delete_replication_rule_m storeBackend cn cg rid s =
      (MStep.ok true, Store.mk s.clusters (delRules s rid) s.remotes s.nameLike,
       [Call.deleteRule rid]) := by
  have hm : storeBackend.delete_replication_rule rid s =
      (Except.ok PyVal.none,
       Store.mk s.clusters (delRules s rid) s.remotes s.nameLike) := by
    show (match findRuleById s.rules rid with
      | Option.some r => _
      | Option.none => (Except.error err404rule, s)) = _
    rw [hfind]
    rfl
  simp [delete_replication_rule_m, tryE, sdkCall, PM.bind_eq, PM.bind, PM.pure_eq, PM.pure, hm]

theorem show_output_eq (s : Store) (cn : String) (rid rsid nmv : PyVal) (d rd : Dict)
    (addr : Option String)
    (hfind : findRuleById s.rules rid = Option.some d)
    (hrs : dlookup d "remote_system_id" = Option.some rsid)
    (hne : rsid ≠ PyVal.none) (hcls : s.nameLike rsid = false) (htr : rsid.truthy = true)
    (hrfind : findRemoteById s rsid = Option.some rd)
    (hnm : dlookup rd "name" = Option.some nmv) :
    show_output_m storeBackend cn rid addr s =
      (MStep.ok (dictSet d "remote_system_name" nmv), s,
       [Call.ruleDetails rid, Call.remoteSystemDetails rsid]) := by
  have h1 := fetch_id_found s cn PyVal.none rid d rfl hfind
  have h2 := resolve_id_found s rsid addr rd hne hcls htr hrfind
  simp [show_output_m, PM.bind_eq, PM.bind, PM.pure_eq, PM.pure, h1, h2, pyIndex, hrs, hnm]

theorem present_ne_absent : (("present" : String) == "absent") = false := rfl
theorem absent_eq : (("absent" : String) == "absent") = true := rfl
theorem present_eq : (("present" : String) == "present") = true := rfl
theorem absent_ne_present : (("absent" : String) == "present") = false := rfl

theorem rest_absent_noop (p : Params) (s : Store) (cn cg : String) (rsid : PyVal)
    (rrd0 : Option Dict)
    (hst : p.state = "absent")
    (hfal : odTruthy rrd0 = false) :
    perform_rest_m storeBackend p cn cg rsid rrd0 s =
      (MStep.ok (ModuleResult.mk false rrd0), s, []) := by
  simp [perform_rest_m, perform_act_m, perform_out_m, PM.bind_eq, PM.bind, PM.pure_eq, PM.pure, hst, hfal,
    absent_ne_present, absent_eq]

set_option maxHeartbeats 2000000

theorem rest_noop (p : Params) (s : Store) (cn cg : String) (rsid : PyVal) (d d2 rd : Dict)
    (didv dnmv ridv rsid2 nmv : PyVal)
    (hst : p.state = "present")
    (hdne : d.isEmpty = false)
    (hdid : dlookup d "id" = Option.some didv)
    (hdnm : dlookup d "name" = Option.some dnmv)
    (hrid : ridv = (if (optStr p.replication_rule_id).truthy = true
      then optStr p.replication_rule_id else didv))
    (hmod : modify_replication_rule_required d
      (modifyArgsDict (if optStr p.new_name = PyVal.none then dnmv else optStr p.new_name)
        (optStr p.rpo) rsid (optInt p.alert_threshold)) = false)
    (hfind2 : findRuleById s.rules ridv = Option.some d2)
    (hrs2 : dlookup d2 "remote_system_id" = Option.some rsid2)
    (hne2 : rsid2 ≠ PyVal.none) (hcls2 : s.nameLike rsid2 = false) (htr2 : rsid2.truthy = true)
    (hrfind2 : findRemoteById s rsid2 = Option.some rd)
    (hnm2 : dlookup rd "name" = Option.some nmv) :
    perform_rest_m storeBackend p cn cg rsid (Option.some d) s =
      (MStep.ok (ModuleResult.mk false (Option.some (dictSet d2 "remote_system_name" nmv))), s,
       [Call.ruleDetails ridv, Call.remoteSystemDetails rsid2]) := by
  have hso := show_output_eq s cn ridv rsid2 nmv d2 rd p.remote_system_address hfind2 hrs2
    hne2 hcls2 htr2 hrfind2 hnm2
  have hd1 : odTruthy (Option.some d) = true := by simp [odTruthy, hdne]
  have hdnil : ¬(d = []) := by
    intro h
    rw [h] at hdne
    exact absurd hdne (by simp)
  unfold perform_rest_m perform_act_m perform_out_m
  cases hidt : (optStr p.replication_rule_id).truthy <;>
    cases hnmt : (optStr p.replication_rule_name).truthy <;>
    simp only [hidt, Bool.false_eq_true, Bool.true_eq_false, eq_self_iff_true, if_true,
      if_false, ite_true, ite_false] at hrid <;>
    subst hrid <;>
    by_cases hnn : optStr p.new_name = PyVal.none <;>
    simp only [hnn, Bool.false_eq_true, Bool.true_eq_false, eq_self_iff_true, if_true,
      if_false, ite_true, ite_false, modifyArgsDict] at hmod <;>
    simp only [PM.bind_eq, PM.pure_eq, PM.bind, PM.pure, pyIndexOpt, pyIndex, hdid, hdnm,
      hd1, hst, present_eq, present_ne_absent, Bool.true_and, Bool.and_true, Bool.false_and,
      Bool.and_false, Bool.not_true, Bool.not_false, if_true, if_false, ite_true, ite_false,
      hnn, hmod, hso, Bool.and_self, List.append_nil, List.nil_append,
      Option.isSome] <;>
    simp [PM.bind, PM.pure, pyIndexOpt, pyIndex, hdid, hdnm, hmod, hso, odTruthy,
      hst, hnn, hdnil]

theorem create_no_modify (f : String) (nm rpo rsid al : PyVal) :
    modify_replication_rule_required (mkRule f nm rpo rsid al)
      (modifyArgsDict nm rpo rsid al) = false := by
  simp [modify_replication_rule_required, mkRule, modifyArgsDict, dlookup]

theorem create_rpo_missing {σ : Type} (B : Backend σ) (cn cg : String)
    (nm rpo rsid al : PyVal) (s : σ)
    (hrpo : rpo.truthy = false) :
    create_replication_rule_m B cn cg nm rpo rsid al s = (MStep.fail rpoRequiredMsg, s, []) := by
  simp [create_replication_rule_m, tryE, failJson, hrpo]

theorem rest_delete (p : Params) (s : Store) (cn cg : String) (rsid : PyVal) (d r : Dict)
    (didv dnmv ridv : PyVal)
    (hst : p.state = "absent")
    (hdne : d.isEmpty = false)
    (hdid : dlookup d "id" = Option.some didv)
    (hdnm : dlookup d "name" = Option.some dnmv)
    (hrid : ridv = (if (optStr p.replication_rule_id).truthy = true
      then optStr p.replication_rule_id else didv))
    (hfindm : findRuleById s.rules ridv = Option.some r) :
    perform_rest_m storeBackend p cn cg rsid (Option.some d) s =
      (MStep.ok (ModuleResult.mk true Option.none),
       Store.mk s.clusters (delRules s ridv) s.remotes s.nameLike,
       [Call.deleteRule ridv]) := by
  have hd1 : odTruthy (Option.some d) = true := by simp [odTruthy, hdne]
  have hdnil : ¬(d = []) := by
    intro h
    rw [h] at hdne
    exact absurd hdne (by simp)
  unfold perform_rest_m perform_act_m perform_out_m
  cases hidt : (optStr p.replication_rule_id).truthy <;>
    cases hnmt : (optStr p.replication_rule_name).truthy <;>
    simp only [hidt, Bool.false_eq_true, Bool.true_eq_false, eq_self_iff_true, if_true,
      if_false, ite_true, ite_false] at hrid <;>
    subst hrid <;>
    simp only [PM.bind_eq, PM.pure_eq, PM.bind, PM.pure, pyIndexOpt, pyIndex, hdid, hdnm,
      hd1, hst, absent_eq, absent_ne_present, Bool.true_and, Bool.and_true, Bool.false_and,
      Bool.and_false, Bool.not_true, Bool.not_false, if_true, if_false, ite_true, ite_false,
      delete_found s cn cg _ r hfindm, Bool.and_self, List.append_nil, List.nil_append] <;>
    simp [PM.bind, PM.pure, pyIndex, pyIndexOpt, hdid, hdnm, odTruthy, hst, hdnil, delete_found s cn cg _ r hfindm]

theorem dictSet_ne_nil (d : Dict) (k : String) (v : PyVal) (h : ¬(d = [])) :
    ¬(dictSet d k v = []) := by
  unfold dictSet
  by_cases hc : (dlookup d k).isSome <;> simp [hc, h]

theorem applyUpdates_ne_nil (args : Dict) (r : Dict) (h : ¬(r = [])) :
    ¬(applyUpdates r args = []) := by
  induction args generalizing r with
  | nil => simpa [applyUpdates]
  | cons hd tl ih =>
    simp only [applyUpdates, List.foldl_cons]
    by_cases hc : hd.2 = PyVal.none
    · simp only [hc, if_true, ite_true]
      exact ih r h
    · simp only [hc, if_false, ite_false]
      exact ih (dictSet r hd.1 hd.2) (dictSet_ne_nil r hd.1 hd.2 h)

theorem rest_modify (p : Params) (s s1 : Store) (cn cg : String) (rsid : PyVal)
    (d rm d2 rd : Dict) (didv dnmv ridv rsid2 nmv : PyVal)
    (hst : p.state = "present")
    (hdne : d.isEmpty = false)
    (hdid : dlookup d "id" = Option.some didv)
    (hdnm : dlookup d "name" = Option.some dnmv)
    (hrid : ridv = (if (optStr p.replication_rule_id).truthy = true
      then optStr p.replication_rule_id else didv))
    (hmod : modify_replication_rule_required d
      (modifyArgsDict (if optStr p.new_name = PyVal.none then dnmv else optStr p.new_name)
        (optStr p.rpo) rsid (optInt p.alert_threshold)) = true)
    (hfindm : findRuleById s.rules ridv = Option.some rm)
    (hrm : ¬(rm = []))
    (hs1 : s1 = Store.mk s.clusters
      (updRules s ridv (optStr p.new_name) (optStr p.rpo) rsid (optInt p.alert_threshold))
      s.remotes s.nameLike)
    (hfind2 : findRuleById s1.rules ridv = Option.some d2)
    (hrs2 : dlookup d2 "remote_system_id" = Option.some rsid2)
    (hne2 : rsid2 ≠ PyVal.none) (hcls2 : s1.nameLike rsid2 = false) (htr2 : rsid2.truthy = true)
    (hrfind2 : findRemoteById s1 rsid2 = Option.some rd)
    (hnm2 : dlookup rd "name" = Option.some nmv) :
    perform_rest_m storeBackend p cn cg rsid (Option.some d) s =
      (MStep.ok (ModuleResult.mk true (Option.some (dictSet d2 "remote_system_name" nmv))), s1,
       [Call.modifyRule ridv (optStr p.new_name) (optStr p.rpo) rsid (optInt p.alert_threshold),
        Call.ruleDetails ridv, Call.remoteSystemDetails rsid2]) := by
  have hso := show_output_eq s1 cn ridv rsid2 nmv d2 rd p.remote_system_address hfind2 hrs2
    hne2 hcls2 htr2 hrfind2 hnm2
  have hmf := modify_found s cn cg ridv (optStr p.new_name) (optStr p.rpo) rsid
    (optInt p.alert_threshold) rm hfindm
  rw [← hs1] at hmf
  have hd1 : odTruthy (Option.some d) = true := by simp [odTruthy, hdne]
  have hdnil : ¬(d = []) := by
    intro h
    rw [h] at hdne
    exact absurd hdne (by simp)
  unfold perform_rest_m perform_act_m perform_out_m
  cases hidt : (optStr p.replication_rule_id).truthy <;>
    cases hnmt : (optStr p.replication_rule_name).truthy <;>
    simp only [hidt, Bool.false_eq_true, Bool.true_eq_false, eq_self_iff_true, if_true,
      if_false, ite_true, ite_false] at hrid <;>
    subst hrid <;>
    by_cases hnn : optStr p.new_name = PyVal.none <;>
    (try simp only [hnn] at hmf) <;>
    simp only [hnn, Bool.false_eq_true, Bool.true_eq_false, eq_self_iff_true, if_true,
      if_false, ite_true, ite_false, modifyArgsDict] at hmod <;>
    simp only [PM.bind_eq, PM.pure_eq, PM.bind, PM.pure, pyIndexOpt, pyIndex, hdid, hdnm,
      hd1, hst, present_eq, present_ne_absent, Bool.true_and, Bool.and_true, Bool.false_and,
      Bool.and_false, Bool.not_true, Bool.not_false, if_true, if_false, ite_true, ite_false,
      hnn, hmod, hmf, hso, Bool.and_self, List.append_nil, List.nil_append] <;>
    simp [PM.bind, PM.pure, pyIndexOpt, pyIndex, hdid, hdnm, hmod, hmf, hso, odTruthy,
      hst, hnn, hdnil, applyUpdates_ne_nil _ rm hrm]

theorem rest_create (p : Params) (s : Store) (cn cg : String) (rsid : PyVal)
    (rrd0 : Option Dict) (rd : Dict) (nmv : PyVal)
    (hst : p.state = "present")
    (hfal : odTruthy rrd0 = false)
    (hidf : (optStr p.replication_rule_id).truthy = false)
    (hnmok : invalidRuleName (optStr p.replication_rule_name) = false)
    (hrem : (optStr p.remote_system).truthy = true)
    (hnn : optStr p.new_name = PyVal.none)
    (hrpo : (optStr p.rpo).truthy = true)
    (hne : rsid ≠ PyVal.none) (hcls : s.nameLike rsid = false) (htr : rsid.truthy = true)
    (hrfind : findRemoteById s rsid = Option.some rd)
    (hnm : dlookup rd "name" = Option.some nmv) :
    perform_rest_m storeBackend p cn cg rsid rrd0 s =
      (MStep.ok (ModuleResult.mk true (Option.some
        (dictSet (mkRule (freshRuleId s.rules) (optStr p.replication_rule_name)
          (optStr p.rpo) rsid (optInt p.alert_threshold)) "remote_system_name" nmv))),
       Store.mk s.clusters
         (s.rules ++ [mkRule (freshRuleId s.rules) (optStr p.replication_rule_name)
           (optStr p.rpo) rsid (optInt p.alert_threshold)]) s.remotes s.nameLike,
       [Call.createRule (optStr p.replication_rule_name) (optStr p.rpo) rsid
          (optInt p.alert_threshold),
        Call.ruleDetails (PyVal.str (freshRuleId s.rules)),
        Call.ruleDetails (PyVal.str (freshRuleId s.rules)),
        Call.remoteSystemDetails rsid]) := by
  have hce := create_eq s cn cg (optStr p.replication_rule_name) (optStr p.rpo) rsid
    (optInt p.alert_threshold) hrpo
  set rnew := mkRule (freshRuleId s.rules) (optStr p.replication_rule_name)
    (optStr p.rpo) rsid (optInt p.alert_threshold) with hrnew
  set s1 := Store.mk s.clusters (s.rules ++ [rnew]) s.remotes s.nameLike with hs1
  have hfind2 : findRuleById s1.rules (PyVal.str (freshRuleId s.rules)) = Option.some rnew :=
    find_fresh s.rules _ _ _ _
  have hrs2 : dlookup rnew "remote_system_id" = Option.some rsid := rfl
  have hrfind2 : findRemoteById s1 rsid = Option.some rd := hrfind
  have hso := show_output_eq s1 cn (PyVal.str (freshRuleId s.rules)) rsid nmv rnew rd
    p.remote_system_address hfind2 hrs2 hne hcls htr hrfind2 hnm
  have hidm : dlookup rnew "id" = Option.some (PyVal.str (freshRuleId s.rules)) := rfl
  have hnmm : dlookup rnew "name" = Option.some (optStr p.replication_rule_name) := rfl
  have hnomod := create_no_modify (freshRuleId s.rules) (optStr p.replication_rule_name)
    (optStr p.rpo) rsid (optInt p.alert_threshold)
  rw [← hrnew] at hnomod
  simp only [modifyArgsDict] at hnomod
  have hrn : ¬(rnew = []) := by rw [hrnew]; simp [mkRule]
  unfold perform_rest_m perform_act_m perform_out_m
  simp only [PM.bind_eq, PM.pure_eq, PM.bind, PM.pure, pyIndexOpt, pyIndex, hfal, hst,
    present_eq, present_ne_absent, Bool.true_and, Bool.and_true, Bool.false_and,
    Bool.and_false, Bool.not_true, Bool.not_false, if_true, if_false, ite_true, ite_false,
    hidf, hnmok, hrem, hnn, hrpo, hce, hidm, hnmm, hso, hnomod, Bool.and_self,
    List.append_nil, List.nil_append, modifyArgsDict]
  simp [PM.bind, PM.pure, odTruthy, hrn, hso, hnomod, modifyArgsDict, hst, pyIndex,
    pyIndexOpt, hidm, hnmm, hidf, hnmok, hrem, hnn, hrpo, hce, hfal]

theorem rest_create_fail (p : Params) (s : Store) (cn cg : String) (rsid : PyVal)
    (rrd0 : Option Dict) (msg : String)
    (hst : p.state = "present")
    (hfal : odTruthy rrd0 = false)
    (hcase :
      ((optStr p.replication_rule_id).truthy = true ∧ msg = createNeedsNameMsg) ∨
      ((optStr p.replication_rule_id).truthy = false ∧
        invalidRuleName (optStr p.replication_rule_name) = true ∧ msg = invalidNameMsg) ∨
      ((optStr p.replication_rule_id).truthy = false ∧
        invalidRuleName (optStr p.replication_rule_name) = false ∧
        (optStr p.remote_system).truthy = false ∧ msg = createNeedsRemoteMsg) ∨
      ((optStr p.replication_rule_id).truthy = false ∧
        invalidRuleName (optStr p.replication_rule_name) = false ∧
        (optStr p.remote_system).truthy = true ∧
        ¬(optStr p.new_name = PyVal.none) ∧ msg = newNameAtCreateMsg) ∨
      ((optStr p.replication_rule_id).truthy = false ∧
        invalidRuleName (optStr p.replication_rule_name) = false ∧
        (optStr p.remote_system).truthy = true ∧
        optStr p.new_name = PyVal.none ∧
        (optStr p.rpo).truthy = false ∧ msg = rpoRequiredMsg)) :
    perform_rest_m storeBackend p cn cg rsid rrd0 s = (MStep.fail msg, s, []) := by
  unfold perform_rest_m perform_act_m perform_out_m
  rcases hcase with ⟨h1, hm⟩ | ⟨h1, h2, hm⟩ | ⟨h1, h2, h3, hm⟩ | ⟨h1, h2, h3, h4, hm⟩ |
    ⟨h1, h2, h3, h4, h5, hm⟩ <;> subst hm
  · simp [PM.bind_eq, PM.pure_eq, PM.bind, PM.pure, failJson, hst, hfal, h1,
      present_eq, present_ne_absent]
  · simp [PM.bind_eq, PM.pure_eq, PM.bind, PM.pure, failJson, hst, hfal, h1, h2,
      present_eq, present_ne_absent]
  · simp [PM.bind_eq, PM.pure_eq, PM.bind, PM.pure, failJson, hst, hfal, h1, h2, h3,
      present_eq, present_ne_absent]
  · simp [PM.bind_eq, PM.pure_eq, PM.bind, PM.pure, failJson, hst, hfal, h1, h2, h3, h4,
      present_eq, present_ne_absent]
  · simp [PM.bind_eq, PM.pure_eq, PM.bind, PM.pure, failJson, hst, hfal, h1, h2, h3, h4, h5,
      present_eq, present_ne_absent, create_rpo_missing]

/-- The resolution stage of perform_module_operation either skips (falsy
remote_system parameter) or succeeds with some resolved id value. -/
def ResolveOK (p : Params) (s : Store) (rsid : PyVal) (trRS : List Call) : Prop :=
  ((optStr p.remote_system).truthy = false ∧ rsid = PyVal.none ∧ trRS = []) ∨
  ((optStr p.remote_system).truthy = true ∧
    ∃ rsd, get_remote_system_details_m storeBackend (optStr p.remote_system)
        p.remote_system_address s = (MStep.ok rsd, s, trRS) ∧
      ((odTruthy rsd = false ∧ rsid = PyVal.none) ∨
       (∃ dd, rsd = Option.some dd ∧ dd.isEmpty = false ∧
         dlookup dd "id" = Option.some rsid)))

theorem run_prefix (p : Params) (s : Store) (c0 : Dict) (crest : List Dict) (cnv cgv : PyVal)
    (rsid : PyVal) (trRS : List Call) (rrd0 : Option Dict) (trF : List Call)
    (hcl : s.clusters = c0 :: crest)
    (hcn : dlookup c0 "name" = Option.some cnv)
    (hcg : dlookup c0 "id" = Option.some cgv)
    (hres : ResolveOK p s rsid trRS)
    (hfetch : get_replication_rule_details_m storeBackend (pyRepr cnv)
      (optStr p.replication_rule_name) (optStr p.replication_rule_id) s =
      (MStep.ok rrd0, s, trF)) :
    runModule storeBackend p s =
      ((perform_rest_m storeBackend p (pyRepr cnv) (pyRepr cgv) rsid rrd0 s).1,
       (perform_rest_m storeBackend p (pyRepr cnv) (pyRepr cgv) rsid rrd0 s).2.1,
       Call.clusterList :: (trRS ++ (trF ++
         (perform_rest_m storeBackend p (pyRepr cnv) (pyRepr cgv) rsid rrd0 s).2.2))) := by
  have hc : get_clusters_m storeBackend s = (MStep.ok s.clusters, s, [Call.clusterList]) := rfl
  unfold runModule perform_module_operation_m
  rcases hres with ⟨hrt, hrs, htr⟩ | ⟨hrt, rsd, hok, hsub⟩
  · subst hrs
    subst htr
    simp [PM.bind_eq, PM.pure_eq, PM.bind, PM.pure, hc, hcl, pyIndex, hcn, hcg, hrt, hfetch]
  · rcases hsub with ⟨hfall, hrs⟩ | ⟨dd, hdd, hddne, hddid⟩
    · subst hrs
      simp [PM.bind_eq, PM.pure_eq, PM.bind, PM.pure, hc, hcl, pyIndex, hcn, hcg, hrt,
        hok, hfall, hfetch]
    · subst hdd
      have hodt : odTruthy (Option.some dd) = true := by simp [odTruthy, hddne]
      simp [PM.bind_eq, PM.pure_eq, PM.bind, PM.pure, hc, hcl, pyIndex, hcn, hcg, hrt,
        hok, hodt, hddid, hfetch]

/-- C10: when the backend cluster list is empty the module fails with the
no-active-cluster message right after the cluster lookup: the whole trace is
the single cluster-list call, so no remote-system lookup, rule lookup or
mutating call is ever attempted. -/
theorem C10_thm {σ : Type} (B : Backend σ) (p : Params) (s0 s1 : σ)
    (h : B.get_cluster_list s0 = (Except.ok [], s1)) :
    moduleOutcome B p s0 = MStep.fail noClusterMsg ∧ moduleTrace B p s0 = [Call.clusterList] := by
  have hc : get_clusters_m B s0 = (MStep.ok ([] : List Dict), s1, [Call.clusterList]) := by
    unfold get_clusters_m tryE sdkCall
    rw [h]
  have key : runModule B p s0 = (MStep.fail noClusterMsg, s1, [Call.clusterList]) := by
    unfold runModule perform_module_operation_m
    simp only [PM.bind_eq, PM.pure_eq, PM.bind, hc, List.isEmpty_nil, if_true, failJson,
      List.append_nil]
  exact ⟨by unfold moduleOutcome; rw [key], by unfold moduleTrace; rw [key]⟩

def errB : PSError := PSError.mk false false "" "backend unreachable"

/-- A backend whose cluster list is empty (everything else errors). -/
def emptyClusterBackend : Backend Unit where
  get_cluster_list := fun s => (Except.ok [], s)
  get_replication_rule_by_name := fun _ s => (Except.error errB, s)
  get_replication_rule_details := fun _ s => (Except.error errB, s)
  create_replication_rule := fun _ _ _ _ s => (Except.error errB, s)
  modify_replication_rule := fun _ _ _ _ _ s => (Except.error errB, s)
  delete_replication_rule := fun _ s => (Except.error errB, s)
  get_remote_system_by_name := fun _ _ s => (Except.error errB, s)
  get_remote_system_details := fun _ s => (Except.error errB, s)
  name_or_id := fun _ _ => true

def pC10 : Params :=
  Params.mk Option.none (Option.some "sample_rule") Option.none (Option.some "One_Hour")
    Option.none (Option.some "RS1") Option.none "present"

/-- Witness for C10 at a concrete backend whose cluster list is empty. -/
theorem C10_witness :
    moduleOutcome emptyClusterBackend pC10 () = MStep.fail noClusterMsg ∧
    moduleTrace emptyClusterBackend pC10 () = [Call.clusterList] :=
  C10_thm emptyClusterBackend pC10 () () rfl

/-- C4: a rule lookup by id whose backend call raises an error is translated
to an empty (None) result when the error is a 404 PowerStoreException, and
otherwise becomes a fatal fail_json whose message wraps the rule name, rule
id, cluster name and the underlying error text. -/
theorem C4_thm {σ : Type} (B : Backend σ) (cn : String) (rname rid : PyVal) (s s1 : σ)
    (e : PSError)
    (hn : rname.truthy = false)
    (herr : B.get_replication_rule_details rid s = (Except.error e, s1)) :
    (is404 e = true →
      get_replication_rule_details_m B cn rname rid s =
        (MStep.ok Option.none, s1, [Call.ruleDetails rid])) ∧
    (is404 e = false →
      get_replication_rule_details_m B cn rname rid s =
        (MStep.fail ("Get details of replication rule name: " ++ pyRepr rname ++ " or ID " ++
          pyRepr rid ++ " on array name : " ++ cn ++ " failed with error : " ++ e.msg ++ " "),
         s1, [Call.ruleDetails rid])) := by
  constructor <;> intro h404 <;>
    simp [get_replication_rule_details_m, tryE, sdkCall, hn, herr, h404, failJson,
      PM.pure_eq, PM.pure]

def err500 : PSError := PSError.mk true true "500" "internal server error"

/-- A backend whose rule lookup by id raises a 404 PowerStoreException. -/
def notFoundBackend : Backend Unit where
  get_cluster_list := fun s => (Except.ok [], s)
  get_replication_rule_by_name := fun _ s => (Except.ok [], s)
  get_replication_rule_details := fun _ s => (Except.error err404rule, s)
  create_replication_rule := fun _ _ _ _ s => (Except.error errB, s)
  modify_replication_rule := fun _ _ _ _ _ s => (Except.error errB, s)
  delete_replication_rule := fun _ s => (Except.error errB, s)
  get_remote_system_by_name := fun _ _ s => (Except.ok [], s)
  get_remote_system_details := fun _ s => (Except.error errB, s)
  name_or_id := fun _ _ => true

/-- A backend whose rule lookup by id raises a 500 PowerStoreException. -/
def serverErrBackend : Backend Unit where
  get_cluster_list := fun s => (Except.ok [], s)
  get_replication_rule_by_name := fun _ s => (Except.ok [], s)
  get_replication_rule_details := fun _ s => (Except.error err500, s)
  create_replication_rule := fun _ _ _ _ s => (Except.error errB, s)
  modify_replication_rule := fun _ _ _ _ _ s => (Except.error errB, s)
  delete_replication_rule := fun _ s => (Except.error errB, s)
  get_remote_system_by_name := fun _ _ s => (Except.ok [], s)
  get_remote_system_details := fun _ s => (Except.error errB, s)
  name_or_id := fun _ _ => true

/-- Witness for C4 at a 404-raising and a 500-raising backend. -/
theorem C4_witness :
    get_replication_rule_details_m notFoundBackend "cl" PyVal.none (PyVal.str "42") () =
      (MStep.ok Option.none, (), [Call.ruleDetails (PyVal.str "42")]) ∧
    get_replication_rule_details_m serverErrBackend "cl" PyVal.none (PyVal.str "42") () =
      (MStep.fail ("Get details of replication rule name: None or ID 42 on array name : cl" ++
        " failed with error : internal server error "), (), [Call.ruleDetails (PyVal.str "42")]) :=
  ⟨(C4_thm notFoundBackend "cl" PyVal.none (PyVal.str "42") () () err404rule rfl rfl).1 rfl,
   (C4_thm serverErrBackend "cl" PyVal.none (PyVal.str "42") () () err500 rfl rfl).2 rfl⟩

/-- C9: the reported replication_rule_details object is obtained by
re-fetching the rule by id and attaching the resolved remote system name:
show_output returns the re-fetched dict with remote_system_name set, and
create_replication_rule returns the re-fetch result rather than the create
call response. -/
theorem C9_thm :
    (∀ (σ : Type) (B : Backend σ) (cn : String) (rid rsid nmv : PyVal) (d rd : Dict)
      (s s1 s2 : σ) (addr : Option String),
      B.get_replication_rule_details rid s = (Except.ok (Option.some d), s1) →
      dlookup d "remote_system_id" = Option.some rsid →
      rsid ≠ PyVal.none → B.name_or_id s1 rsid = false → rsid.truthy = true →
      B.get_remote_system_details rsid s1 = (Except.ok (Option.some rd), s2) →
      dlookup rd "name" = Option.some nmv →
      show_output_m B cn rid addr s =
        (MStep.ok (dictSet d "remote_system_name" nmv), s2,
         [Call.ruleDetails rid, Call.remoteSystemDetails rsid])) ∧
    (∀ (σ : Type) (B : Backend σ) (cn cg : String) (nm rpo rsidc al : PyVal) (resp : Dict)
      (det : Option Dict) (s3 s4 s5 : σ),
      rpo.truthy = true →
      B.create_replication_rule nm rpo rsidc al s3 = (Except.ok resp, s4) →
      B.get_replication_rule_details ((dlookup resp "id").getD PyVal.none) s4 =
        (Except.ok det, s5) →
      create_replication_rule_m B cn cg nm rpo rsidc al s3 =
        (MStep.ok det, s5,
         [Call.createRule nm rpo rsidc al,
          Call.ruleDetails ((dlookup resp "id").getD PyVal.none)])) := by
  constructor
  · intro σ B cn rid rsid nmv d rd s s1 s2 addr hfetch hrsid hne hcls htr hdet hnm
    simp [show_output_m, get_replication_rule_details_m, get_remote_system_details_m,
      tryE, sdkCall, getState, PM.bind_eq, PM.bind, PM.pure_eq, PM.pure, pyIndex,
      truthy_none, hfetch, hrsid, hne, hcls, htr, hdet, hnm]
  · intro σ B cn cg nm rpo rsidc al resp det s3 s4 s5 hrpo hcr hdetail
    simp [create_replication_rule_m, tryE, sdkCall, PM.bind_eq, PM.bind, PM.pure_eq,
      PM.pure, hrpo, hcr, hdetail]

def c9Rule : Dict := [("id", PyVal.str "1"), ("name", PyVal.str "A"),
  ("rpo", PyVal.str "One_Hour"), ("remote_system_id", PyVal.str "rs1"),
  ("alert_threshold", PyVal.int 60)]
def c9Remote : Dict := [("id", PyVal.str "rs1"), ("name", PyVal.str "RS")]

def c9Backend : Backend Unit where
  get_cluster_list := fun s => (Except.ok [], s)
  get_replication_rule_by_name := fun _ s => (Except.ok [], s)
  get_replication_rule_details := fun _ s => (Except.ok (Option.some c9Rule), s)
  create_replication_rule := fun _ _ _ _ s => (Except.ok [("id", PyVal.str "1")], s)
  modify_replication_rule := fun _ _ _ _ _ s => (Except.error errB, s)
  delete_replication_rule := fun _ s => (Except.error errB, s)
  get_remote_system_by_name := fun _ _ s => (Except.ok [], s)
  get_remote_system_details := fun _ s => (Except.ok (Option.some c9Remote), s)
  name_or_id := fun _ _ => false

/-- Witness for C9 at a concrete backend. -/
theorem C9_witness :
    show_output_m c9Backend "cl" (PyVal.str "1") Option.none () =
      (MStep.ok (dictSet c9Rule "remote_system_name" (PyVal.str "RS")), (),
       [Call.ruleDetails (PyVal.str "1"), Call.remoteSystemDetails (PyVal.str "rs1")]) ∧
    create_replication_rule_m c9Backend "cl" "cg" (PyVal.str "A") (PyVal.str "One_Hour")
        (PyVal.str "rs1") PyVal.none () =
      (MStep.ok (Option.some c9Rule), (),
       [Call.createRule (PyVal.str "A") (PyVal.str "One_Hour") (PyVal.str "rs1") PyVal.none,
        Call.ruleDetails (PyVal.str "1")]) :=
  ⟨C9_thm.1 Unit c9Backend "cl" (PyVal.str "1") (PyVal.str "rs1") (PyVal.str "RS") c9Rule
      c9Remote () () () Option.none rfl rfl (by decide) rfl rfl rfl rfl,
   C9_thm.2 Unit c9Backend "cl" "cg" (PyVal.str "A") (PyVal.str "One_Hour") (PyVal.str "rs1")
      PyVal.none [("id", PyVal.str "1")] (Option.some c9Rule) () () () rfl rfl rfl⟩

/-- C8: remote-system resolution by name: exactly one match resolves to it;
more than one match without an address fails with the ambiguity message;
zero matches fail with the not-found message; with an address the lookup is
repeated scoped by the address and must return exactly one match, else it
fails with the not-found-with-name-and-address message. -/
theorem C8_thm {σ : Type} (B : Backend σ) (rs : PyVal) (addr : Option String) (s s1 : σ)
    (L : List Dict)
    (hne : rs ≠ PyVal.none) (hcls : B.name_or_id s rs = true) (htr : rs.truthy = true)
    (hL : B.get_remote_system_by_name rs PyVal.none s = (Except.ok L, s1)) :
    (∀ d, L = [d] →
      get_remote_system_details_m B rs addr s =
        (MStep.ok (Option.some d), s1, [Call.remoteSystemByName rs PyVal.none])) ∧
    (1 < L.length → (optStr addr).truthy = false →
      get_remote_system_details_m B rs addr s =
        (MStep.fail rsAmbiguousMsg, s1, [Call.remoteSystemByName rs PyVal.none])) ∧
    (L = [] →
      get_remote_system_details_m B rs addr s =
        (MStep.fail (rsNotFoundMsg rs addr), s1, [Call.remoteSystemByName rs PyVal.none])) ∧
    (∀ L2 s2, 1 < L.length → (optStr addr).truthy = true →
      B.get_remote_system_by_name rs (optStr addr) s1 = (Except.ok L2, s2) →
      ((∀ d2, L2 = [d2] →
        get_remote_system_details_m B rs addr s =
          (MStep.ok (Option.some d2), s2,
           [Call.remoteSystemByName rs PyVal.none,
            Call.remoteSystemByName rs (optStr addr)])) ∧
       (¬(L2.length = 1) →
        get_remote_system_details_m B rs addr s =
          (MStep.fail (rsNotFoundMsg rs addr), s2,
           [Call.remoteSystemByName rs PyVal.none,
            Call.remoteSystemByName rs (optStr addr)])))) := by
  refine ⟨?_, ?_, ?_, ?_⟩
  · intro d hd
    subst hd
    simp [get_remote_system_details_m, tryE, getState, PM.bind_eq, PM.bind, PM.pure_eq,
      PM.pure, sdkCall, hne, hcls, htr, hL]
  · intro hlen haddr
    have hlen1 : ¬(L.length = 1) := by omega
    simp [get_remote_system_details_m, tryE, getState, PM.bind_eq, PM.bind, PM.pure_eq,
      PM.pure, sdkCall, hne, hcls, htr, hL, hlen, hlen1, haddr, failJson]
  · intro hd
    subst hd
    simp [get_remote_system_details_m, tryE, getState, PM.bind_eq, PM.bind, PM.pure_eq,
      PM.pure, sdkCall, hne, hcls, htr, hL, failJson]
  · intro L2 s2 hlen haddr hL2
    have hlen1 : ¬(L.length = 1) := by omega
    constructor
    · intro d2 hd2
      subst hd2
      simp [get_remote_system_details_m, tryE, getState, PM.bind_eq, PM.bind, PM.pure_eq,
        PM.pure, sdkCall, hne, hcls, htr, hL, hlen, hlen1, haddr, hL2]
    · intro hlen2
      simp [get_remote_system_details_m, tryE, getState, PM.bind_eq, PM.bind, PM.pure_eq,
        PM.pure, sdkCall, hne, hcls, htr, hL, hlen, hlen1, haddr, hL2, hlen2, failJson]

def c8r1 : Dict := [("id", PyVal.str "rs1"), ("name", PyVal.str "RS1"),
  ("management_address", PyVal.str "10.0.0.1")]
def c8r2 : Dict := [("id", PyVal.str "rs2"), ("name", PyVal.str "RS1"),
  ("management_address", PyVal.str "10.0.0.2")]

def c8Backend : Backend Unit where
  get_cluster_list := fun s => (Except.ok [], s)
  get_replication_rule_by_name := fun _ s => (Except.ok [], s)
  get_replication_rule_details := fun _ s => (Except.error err404rule, s)
  create_replication_rule := fun _ _ _ _ s => (Except.error errB, s)
  modify_replication_rule := fun _ _ _ _ _ s => (Except.error errB, s)
  delete_replication_rule := fun _ s => (Except.error errB, s)
  get_remote_system_by_name := fun _ a s =>
    (Except.ok (if a = PyVal.none then [c8r1, c8r2] else [c8r1]), s)
  get_remote_system_details := fun _ s => (Except.error errB, s)
  name_or_id := fun _ _ => true

/-- Witness for C8 with two remote systems sharing a name. -/
theorem C8_witness :
    get_remote_system_details_m c8Backend (PyVal.str "RS1") Option.none () =
      (MStep.fail rsAmbiguousMsg, (),
       [Call.remoteSystemByName (PyVal.str "RS1") PyVal.none]) ∧
    get_remote_system_details_m c8Backend (PyVal.str "RS1") (Option.some "10.0.0.1") () =
      (MStep.ok (Option.some c8r1), (),
       [Call.remoteSystemByName (PyVal.str "RS1") PyVal.none,
        Call.remoteSystemByName (PyVal.str "RS1") (PyVal.str "10.0.0.1")]) :=
  ⟨(C8_thm c8Backend (PyVal.str "RS1") Option.none () () [c8r1, c8r2]
      (by decide) rfl rfl rfl).2.1 (by decide) rfl,
   ((C8_thm c8Backend (PyVal.str "RS1") (Option.some "10.0.0.1") () () [c8r1, c8r2]
      (by decide) rfl rfl rfl).2.2.2 [c8r1] () (by decide) rfl rfl).1 c8r1 rfl⟩

/-- The spec wording for the reconciliation diff: some key of the current
object also appears in the desired set with a non-null value different
from the current value. -/
def SpecModifyNeeded (cur des : Dict) : Prop :=
  ∃ kv, kv ∈ cur ∧ ∃ pv, dlookup des kv.1 = Option.some pv ∧ pv ≠ PyVal.none ∧ kv.2 ≠ pv

/-- The reconciliation diff decision agrees with its specification
wording. -/
theorem modify_required_iff (cur des : Dict) :
    modify_replication_rule_required cur des = true ↔ SpecModifyNeeded cur des := by
  unfold modify_replication_rule_required SpecModifyNeeded
  rw [List.any_eq_true]
  constructor
  · rintro ⟨kv, hmem, hp⟩
    refine ⟨kv, hmem, ?_⟩
    rcases h : dlookup des kv.1 with _ | pv
    · rw [h] at hp
      simp at hp
    · rw [h] at hp
      by_cases h1 : pv = PyVal.none
      · simp [h1] at hp
      · by_cases h2 : kv.2 = pv
        · simp [h1, h2] at hp
        · exact ⟨pv, rfl, h1, h2⟩
  · rintro ⟨kv, hmem, pv, hl, h1, h2⟩
    exact ⟨kv, hmem, by simp [hl, h1, h2]⟩

def exCluster : Dict := [("name", PyVal.str "cluster0"), ("id", PyVal.str "cg0")]
def exRule : Dict := [("id", PyVal.str "1"), ("name", PyVal.str "A"),
  ("rpo", PyVal.str "One_Hour"), ("remote_system_id", PyVal.str "rs1"),
  ("alert_threshold", PyVal.int 60)]
def exRemote : Dict := [("id", PyVal.str "rs1"), ("name", PyVal.str "RS1"),
  ("management_address", PyVal.str "10.0.0.1")]
def exStore : Store := Store.mk [exCluster] [exRule] [exRemote]
  (fun v => decide (v = PyVal.str "RS1"))
def exNoopParams : Params := Params.mk Option.none (Option.some "A") Option.none
  (Option.some "One_Hour") (Option.some 60) (Option.some "RS1") Option.none "present"

/-- C1 counterexample: a no-op reconciliation (no field differs) reports
changed=false and issues no mutating call, but the reported object is not
the current object verbatim: it is re-fetched and carries the derived
remote_system_name key. -/
theorem C1_counterexample :
    modify_replication_rule_required exRule
      (modifyArgsDict (PyVal.str "A") (PyVal.str "One_Hour") (PyVal.str "rs1")
        (PyVal.int 60)) = false ∧
    moduleOutcome storeBackend exNoopParams exStore =
      MStep.ok (ModuleResult.mk false
        (Option.some (exRule ++ [("remote_system_name", PyVal.str "RS1")]))) ∧
    (∀ c ∈ moduleTrace storeBackend exNoopParams exStore, mutatingCall c = false) ∧
    ¬(exRule ++ [("remote_system_name", PyVal.str "RS1")] = exRule) := by
  refine ⟨by decide, by decide, by decide, by decide⟩

/-- C1 (amended): the reconciler decides a modify is needed exactly when
some key of the current object appears in the desired set with a non-null
different value; when no such key exists the run reports changed=false and
issues no mutating call, and the reported object is the re-fetched rule
enriched with remote_system_name. -/
theorem C1_thm :
    (∀ cur des, modify_replication_rule_required cur des = true ↔ SpecModifyNeeded cur des) ∧
    (∀ (p : Params) (s : Store) (c0 : Dict) (crest : List Dict) (cnv cgv rsid : PyVal)
      (trRS : List Call) (d d2 rd : Dict) (trF : List Call)
      (didv dnmv ridv rsid2 nmv : PyVal),
      p.state = "present" →
      s.clusters = c0 :: crest →
      dlookup c0 "name" = Option.some cnv →
      dlookup c0 "id" = Option.some cgv →
      ResolveOK p s rsid trRS →
      (∀ c ∈ trRS, mutatingCall c = false) →
      get_replication_rule_details_m storeBackend (pyRepr cnv)
        (optStr p.replication_rule_name) (optStr p.replication_rule_id) s =
        (MStep.ok (Option.some d), s, trF) →
      (∀ c ∈ trF, mutatingCall c = false) →
      d.isEmpty = false →
      dlookup d "id" = Option.some didv →
      dlookup d "name" = Option.some dnmv →
      ridv = (if (optStr p.replication_rule_id).truthy = true
        then optStr p.replication_rule_id else didv) →
      modify_replication_rule_required d
        (modifyArgsDict (if optStr p.new_name = PyVal.none then dnmv else optStr p.new_name)
          (optStr p.rpo) rsid (optInt p.alert_threshold)) = false →
      findRuleById s.rules ridv = Option.some d2 →
      dlookup d2 "remote_system_id" = Option.some rsid2 →
      rsid2 ≠ PyVal.none → s.nameLike rsid2 = false → rsid2.truthy = true →
      findRemoteById s rsid2 = Option.some rd →
      dlookup rd "name" = Option.some nmv →
      (moduleOutcome storeBackend p s =
        MStep.ok (ModuleResult.mk false
          (Option.some (dictSet d2 "remote_system_name" nmv))) ∧
       (∀ c ∈ moduleTrace storeBackend p s, mutatingCall c = false))) := by
  constructor
  · exact modify_required_iff
  · intro p s c0 crest cnv cgv rsid trRS d d2 rd trF didv dnmv ridv rsid2 nmv
      hst hcl hcn hcg hres htrRS hfetch htrF hdne hdid hdnm hrid hmod hfind2 hrs2 hne2
      hcls2 htr2 hrfind2 hnm2
    have hrest := rest_noop p s (pyRepr cnv) (pyRepr cgv) rsid d d2 rd didv dnmv ridv rsid2
      nmv hst hdne hdid hdnm hrid hmod hfind2 hrs2 hne2 hcls2 htr2 hrfind2 hnm2
    have hpre := run_prefix p s c0 crest cnv cgv rsid trRS (Option.some d) trF hcl hcn hcg
      hres hfetch
    constructor
    · unfold moduleOutcome
      rw [hpre, hrest]
    · unfold moduleTrace
      rw [hpre, hrest]
      intro c hc
      simp only [List.mem_cons, List.mem_append] at hc
      rcases hc with h | h
      · subst h
        rfl
      · rcases h with h | h
        · exact htrRS c h
        · rcases h with h | h
          · exact htrF c h
          · simp at h
            rcases h with h | h <;> subst h <;> rfl

/-- Witness for C1 at a concrete store in which no field differs. -/
theorem C1_witness :
    moduleOutcome storeBackend exNoopParams exStore =
      MStep.ok (ModuleResult.mk false
        (Option.some (dictSet exRule "remote_system_name" (PyVal.str "RS1")))) ∧
    (∀ c ∈ moduleTrace storeBackend exNoopParams exStore, mutatingCall c = false) :=
  C1_thm.2 exNoopParams exStore exCluster [] (PyVal.str "cluster0") (PyVal.str "cg0")
    (PyVal.str "rs1") [Call.remoteSystemByName (PyVal.str "RS1") PyVal.none]
    exRule exRule exRemote [Call.ruleByName (PyVal.str "A"), Call.ruleDetails (PyVal.str "1")]
    (PyVal.str "1") (PyVal.str "A") (PyVal.str "1") (PyVal.str "rs1") (PyVal.str "RS1")
    rfl rfl rfl rfl
    (Or.inr ⟨rfl, Option.some exRemote, rfl,
      Or.inr ⟨exRemote, rfl, rfl, rfl⟩⟩)
    (by decide) rfl (by decide) rfl rfl rfl (by decide) (by decide) rfl rfl (by decide)
    rfl rfl rfl rfl

/-- C3: with state=absent and a rule lookup returning an empty result, the
invocation succeeds with changed=false and performs no mutating call. -/
theorem C3_thm (p : Params) (s : Store) (c0 : Dict) (crest : List Dict) (cnv cgv rsid : PyVal)
    (trRS : List Call) (rrd0 : Option Dict) (trF : List Call)
    (hst : p.state = "absent")
    (hcl : s.clusters = c0 :: crest)
    (hcn : dlookup c0 "name" = Option.some cnv)
    (hcg : dlookup c0 "id" = Option.some cgv)
    (hres : ResolveOK p s rsid trRS)
    (htrRS : ∀ c ∈ trRS, mutatingCall c = false)
    (hfetch : get_replication_rule_details_m storeBackend (pyRepr cnv)
      (optStr p.replication_rule_name) (optStr p.replication_rule_id) s =
      (MStep.ok rrd0, s, trF))
    (htrF : ∀ c ∈ trF, mutatingCall c = false)
    (hfal : odTruthy rrd0 = false) :
    moduleOutcome storeBackend p s = MStep.ok (ModuleResult.mk false rrd0) ∧
    (∀ c ∈ moduleTrace storeBackend p s, mutatingCall c = false) := by
  have hrest := rest_absent_noop p s (pyRepr cnv) (pyRepr cgv) rsid rrd0 hst hfal
  have hpre := run_prefix p s c0 crest cnv cgv rsid trRS rrd0 trF hcl hcn hcg hres hfetch
  constructor
  · unfold moduleOutcome
    rw [hpre, hrest]
  · unfold moduleTrace
    rw [hpre, hrest]
    intro c hc
    simp only [List.append_nil] at hc
    rcases List.mem_cons.mp hc with h | h
    · subst h
      rfl
    · rcases List.mem_append.mp h with h | h
      · exact htrRS c h
      · exact htrF c h

def exAbsentParams : Params := Params.mk Option.none (Option.some "Z") Option.none
  Option.none Option.none Option.none Option.none "absent"

/-- Witness for C3 on a store without the requested rule. -/
theorem C3_witness :
    moduleOutcome storeBackend exAbsentParams exStore =
      MStep.ok (ModuleResult.mk false Option.none) ∧
    (∀ c ∈ moduleTrace storeBackend exAbsentParams exStore, mutatingCall c = false) :=
  C3_thm exAbsentParams exStore exCluster [] (PyVal.str "cluster0") (PyVal.str "cg0")
    PyVal.none [] Option.none [Call.ruleByName (PyVal.str "Z")]
    rfl rfl rfl rfl (Or.inl ⟨rfl, rfl, rfl⟩) (by decide) rfl (by decide) rfl

def exWsParams : Params := Params.mk Option.none (Option.some " ") Option.none
  (Option.some "One_Hour") Option.none (Option.some "RS1") Option.none "present"

/-- C6 counterexample: an invocation failing input validation (whitespace
name at creation) has already performed backend calls before the failure:
the cluster lookup and the rule lookup appear in its trace. -/
theorem C6_counterexample :
    moduleOutcome storeBackend exWsParams exStore = MStep.fail invalidNameMsg ∧
    Call.clusterList ∈ moduleTrace storeBackend exWsParams exStore ∧
    Call.ruleByName (PyVal.str " ") ∈ moduleTrace storeBackend exWsParams exStore := by
  refine ⟨by decide, by decide, by decide⟩

/-- C6 (amended): every input-validation failure of the create path
(id passed, empty or whitespace name, missing remote_system, rename at
creation, missing rpo) is reported as a fatal failure, and no backend
mutating call is attempted; lookups do precede the failure. -/
theorem C6_thm (p : Params) (s : Store) (c0 : Dict) (crest : List Dict) (cnv cgv rsid : PyVal)
    (trRS : List Call) (rrd0 : Option Dict) (trF : List Call) (msg : String)
    (hst : p.state = "present")
    (hcl : s.clusters = c0 :: crest)
    (hcn : dlookup c0 "name" = Option.some cnv)
    (hcg : dlookup c0 "id" = Option.some cgv)
    (hres : ResolveOK p s rsid trRS)
    (htrRS : ∀ c ∈ trRS, mutatingCall c = false)
    (hfetch : get_replication_rule_details_m storeBackend (pyRepr cnv)
      (optStr p.replication_rule_name) (optStr p.replication_rule_id) s =
      (MStep.ok rrd0, s, trF))
    (htrF : ∀ c ∈ trF, mutatingCall c = false)
    (hfal : odTruthy rrd0 = false)
    (hcase :
      ((optStr p.replication_rule_id).truthy = true ∧ msg = createNeedsNameMsg) ∨
      ((optStr p.replication_rule_id).truthy = false ∧
        invalidRuleName (optStr p.replication_rule_name) = true ∧ msg = invalidNameMsg) ∨
      ((optStr p.replication_rule_id).truthy = false ∧
        invalidRuleName (optStr p.replication_rule_name) = false ∧
        (optStr p.remote_system).truthy = false ∧ msg = createNeedsRemoteMsg) ∨
      ((optStr p.replication_rule_id).truthy = false ∧
        invalidRuleName (optStr p.replication_rule_name) = false ∧
        (optStr p.remote_system).truthy = true ∧
        ¬(optStr p.new_name = PyVal.none) ∧ msg = newNameAtCreateMsg) ∨
      ((optStr p.replication_rule_id).truthy = false ∧
        invalidRuleName (optStr p.replication_rule_name) = false ∧
        (optStr p.remote_system).truthy = true ∧
        optStr p.new_name = PyVal.none ∧
        (optStr p.rpo).truthy = false ∧ msg = rpoRequiredMsg)) :
    moduleOutcome storeBackend p s = MStep.fail msg ∧
    (∀ c ∈ moduleTrace storeBackend p s, mutatingCall c = false) := by
  have hrest := rest_create_fail p s (pyRepr cnv) (pyRepr cgv) rsid rrd0 msg hst hfal hcase
  have hpre := run_prefix p s c0 crest cnv cgv rsid trRS rrd0 trF hcl hcn hcg hres hfetch
  constructor
  · unfold moduleOutcome
    rw [hpre, hrest]
  · unfold moduleTrace
    rw [hpre, hrest]
    intro c hc
    simp only [List.append_nil] at hc
    rcases List.mem_cons.mp hc with h | h
    · subst h
      rfl
    · rcases List.mem_append.mp h with h | h
      · exact htrRS c h
      · exact htrF c h

/-- Witness for C6 with a whitespace-only rule name. -/
theorem C6_witness :
    moduleOutcome storeBackend exWsParams exStore = MStep.fail invalidNameMsg ∧
    (∀ c ∈ moduleTrace storeBackend exWsParams exStore, mutatingCall c = false) :=
  C6_thm exWsParams exStore exCluster [] (PyVal.str "cluster0") (PyVal.str "cg0")
    (PyVal.str "rs1") [Call.remoteSystemByName (PyVal.str "RS1") PyVal.none]
    Option.none [Call.ruleByName (PyVal.str " ")] invalidNameMsg
    rfl rfl rfl rfl
    (Or.inr ⟨rfl, Option.some exRemote, rfl, Or.inr ⟨exRemote, rfl, rfl, rfl⟩⟩)
    (by decide) rfl (by decide) rfl
    (Or.inr (Or.inl ⟨rfl, by decide, rfl⟩))

theorem run_prefix_resfail (p : Params) (s : Store) (c0 : Dict) (crest : List Dict)
    (cnv cgv : PyVal) (msg : String) (s2 : Store) (trRS : List Call)
    (hcl : s.clusters = c0 :: crest)
    (hcn : dlookup c0 "name" = Option.some cnv)
    (hcg : dlookup c0 "id" = Option.some cgv)
    (hrt : (optStr p.remote_system).truthy = true)
    (hres : get_remote_system_details_m storeBackend (optStr p.remote_system)
      p.remote_system_address s = (MStep.fail msg, s2, trRS)) :
    runModule storeBackend p s = (MStep.fail msg, s2, Call.clusterList :: trRS) := by
  have hc : get_clusters_m storeBackend s = (MStep.ok s.clusters, s, [Call.clusterList]) := rfl
  unfold runModule perform_module_operation_m
  simp [PM.bind_eq, PM.pure_eq, PM.bind, PM.pure, hc, hcl, pyIndex, hcn, hcg, hrt, hres]

/-- C7: on the create path (no current rule, state=present) the invocation
fails without issuing any create call unless a non-empty name is explicitly
provided, remote_system is provided and resolvable, rpo is provided and
new_name is absent: both an unresolvable remote system and each violated
create precondition produce a fatal failure with no create call. -/
theorem C7_thm :
    (∀ (p : Params) (s : Store) (c0 : Dict) (crest : List Dict) (cnv cgv : PyVal)
      (msg : String) (s2 : Store) (trRS : List Call),
      p.state = "present" →
      s.clusters = c0 :: crest →
      dlookup c0 "name" = Option.some cnv →
      dlookup c0 "id" = Option.some cgv →
      (optStr p.remote_system).truthy = true →
      get_remote_system_details_m storeBackend (optStr p.remote_system)
        p.remote_system_address s = (MStep.fail msg, s2, trRS) →
      (∀ c ∈ trRS, mutatingCall c = false) →
      (moduleOutcome storeBackend p s = MStep.fail msg ∧
       (∀ nm rpo rsid al : PyVal,
         ¬(Call.createRule nm rpo rsid al ∈ moduleTrace storeBackend p s)))) ∧
    (∀ (p : Params) (s : Store) (c0 : Dict) (crest : List Dict) (cnv cgv rsid : PyVal)
      (trRS : List Call) (rrd0 : Option Dict) (trF : List Call) (msg : String),
      p.state = "present" →
      s.clusters = c0 :: crest →
      dlookup c0 "name" = Option.some cnv →
      dlookup c0 "id" = Option.some cgv →
      ResolveOK p s rsid trRS →
      (∀ c ∈ trRS, mutatingCall c = false) →
      get_replication_rule_details_m storeBackend (pyRepr cnv)
        (optStr p.replication_rule_name) (optStr p.replication_rule_id) s =
        (MStep.ok rrd0, s, trF) →
      (∀ c ∈ trF, mutatingCall c = false) →
      odTruthy rrd0 = false →
      (((optStr p.replication_rule_id).truthy = true ∧ msg = createNeedsNameMsg) ∨
       ((optStr p.replication_rule_id).truthy = false ∧
         invalidRuleName (optStr p.replication_rule_name) = true ∧ msg = invalidNameMsg) ∨
       ((optStr p.replication_rule_id).truthy = false ∧
         invalidRuleName (optStr p.replication_rule_name) = false ∧
         (optStr p.remote_system).truthy = false ∧ msg = createNeedsRemoteMsg) ∨
       ((optStr p.replication_rule_id).truthy = false ∧
         invalidRuleName (optStr p.replication_rule_name) = false ∧
         (optStr p.remote_system).truthy = true ∧
         ¬(optStr p.new_name = PyVal.none) ∧ msg = newNameAtCreateMsg) ∨
       ((optStr p.replication_rule_id).truthy = false ∧
         invalidRuleName (optStr p.replication_rule_name) = false ∧
         (optStr p.remote_system).truthy = true ∧
         optStr p.new_name = PyVal.none ∧
         (optStr p.rpo).truthy = false ∧ msg = rpoRequiredMsg)) →
      (moduleOutcome storeBackend p s = MStep.fail msg ∧
       (∀ nm rpo rsid2 al : PyVal,
         ¬(Call.createRule nm rpo rsid2 al ∈ moduleTrace storeBackend p s)))) := by
  constructor
  · intro p s c0 crest cnv cgv msg s2 trRS hst hcl hcn hcg hrt hres htrRS
    have hkey := run_prefix_resfail p s c0 crest cnv cgv msg s2 trRS hcl hcn hcg hrt hres
    constructor
    · unfold moduleOutcome
      rw [hkey]
    · intro nm rpo rsid al hmem
      unfold moduleTrace at hmem
      rw [hkey] at hmem
      rcases List.mem_cons.mp hmem with h | h
      · cases h
      · have := htrRS _ h
        simp [mutatingCall] at this
  · intro p s c0 crest cnv cgv rsid trRS rrd0 trF msg hst hcl hcn hcg hres htrRS hfetch htrF
      hfal hcase
    have hrest := rest_create_fail p s (pyRepr cnv) (pyRepr cgv) rsid rrd0 msg hst hfal hcase
    have hpre := run_prefix p s c0 crest cnv cgv rsid trRS rrd0 trF hcl hcn hcg hres hfetch
    constructor
    · unfold moduleOutcome
      rw [hpre, hrest]
    · intro nm rpo rsid2 al hmem
      unfold moduleTrace at hmem
      rw [hpre, hrest] at hmem
      simp only [List.append_nil] at hmem
      rcases List.mem_cons.mp hmem with h | h
      · cases h
      · rcases List.mem_append.mp h with h | h
        · have := htrRS _ h
          simp [mutatingCall] at this
        · have := htrF _ h
          simp [mutatingCall] at this

def exNoRpoParams : Params := Params.mk Option.none (Option.some "NewRule") Option.none
  Option.none Option.none (Option.some "RS1") Option.none "present"

/-- Witness for C7 with rpo missing. -/
theorem C7_witness :
    moduleOutcome storeBackend exNoRpoParams exStore = MStep.fail rpoRequiredMsg ∧
    (∀ nm rpo rsid2 al : PyVal,
      ¬(Call.createRule nm rpo rsid2 al ∈ moduleTrace storeBackend exNoRpoParams exStore)) :=
  C7_thm.2 exNoRpoParams exStore exCluster [] (PyVal.str "cluster0") (PyVal.str "cg0")
    (PyVal.str "rs1") [Call.remoteSystemByName (PyVal.str "RS1") PyVal.none]
    Option.none [Call.ruleByName (PyVal.str "NewRule")] rpoRequiredMsg
    rfl rfl rfl rfl
    (Or.inr ⟨rfl, Option.some exRemote, rfl, Or.inr ⟨exRemote, rfl, rfl, rfl⟩⟩)
    (by decide) rfl (by decide) rfl
    (Or.inr (Or.inr (Or.inr (Or.inr ⟨rfl, by decide, rfl, rfl, rfl, rfl⟩))))

def exRenParams : Params := Params.mk Option.none (Option.some "A") (Option.some "B")
  (Option.some "One_Hour") (Option.some 60) (Option.some "RS1") Option.none "present"
def exRenamedRule : Dict := [("id", PyVal.str "1"), ("name", PyVal.str "B"),
  ("rpo", PyVal.str "One_Hour"), ("remote_system_id", PyVal.str "rs1"),
  ("alert_threshold", PyVal.int 60)]

/-- C2 counterexample: a state=present request carrying new_name succeeds
with changed=true on the first invocation (it renames the rule), but the
same request repeated against the unchanged backend fails with the
rename-at-creation error instead of reporting changed=false, because the
old name no longer matches any rule. -/
theorem C2_counterexample :
    moduleOutcome storeBackend exRenParams exStore =
      MStep.ok (ModuleResult.mk true
        (Option.some (exRenamedRule ++ [("remote_system_name", PyVal.str "RS1")]))) ∧
    moduleOutcome storeBackend exRenParams
        (moduleStore storeBackend exRenParams exStore) =
      MStep.fail newNameAtCreateMsg :=
  ⟨by decide, by decide⟩

theorem resolve_nottruthy (s : Store) (rs : PyVal) (addr : Option String)
    (hne : rs ≠ PyVal.none) (htr : rs.truthy = false) :
    get_remote_system_details_m storeBackend rs addr s = (MStep.ok Option.none, s, []) := by
  by_cases hcls : s.nameLike rs = true <;>
    simp [get_remote_system_details_m, tryE, getState, PM.bind_eq, PM.bind, PM.pure_eq,
      PM.pure, sb_name_or_id, hne, hcls, htr, truthy_none]

theorem resolve_name_ambig_noaddr2 (s : Store) (rs : PyVal) (addr : Option String)
    (d1 d2 : Dict) (rest : List Dict)
    (hne : rs ≠ PyVal.none) (hcls : s.nameLike rs = true) (htr : rs.truthy = true)
    (ha : (optStr addr).truthy = false)
    (hf : remotesNamed s rs = d1 :: d2 :: rest) :
    get_remote_system_details_m storeBackend rs addr s =
      (MStep.fail rsAmbiguousMsg, s, [Call.remoteSystemByName rs PyVal.none]) := by
  simp [get_remote_system_details_m, tryE, getState, PM.bind_eq, PM.bind, PM.pure_eq,
    PM.pure, sdkCall, sb_name_or_id, hne, hcls, htr, byName_unscoped, hf, failJson, ha]

theorem resolve_frame (rs : PyVal) (addr : Option String) (s : Store) :
    ∃ step ext, get_remote_system_details_m storeBackend rs addr s = (step, s, ext) ∧
      ∀ c ∈ ext, remoteLookupCall c = true := by
  by_cases h0 : rs = PyVal.none
  · subst h0
    exact ⟨MStep.ok Option.none, [], resolve_skip s addr, by simp⟩
  · by_cases h2 : rs.truthy = true
    · by_cases h1 : s.nameLike rs = true
      · rcases hL : remotesNamed s rs with _ | ⟨d, _ | ⟨d2, rest⟩⟩
        · exact ⟨_, _, resolve_name_zero s rs addr h0 h1 h2 hL, by simp [remoteLookupCall]⟩
        · exact ⟨_, _, resolve_name_unique s rs addr d h0 h1 h2 hL, by simp [remoteLookupCall]⟩
        · by_cases ha : (optStr addr).truthy = true
          · rcases addr with _ | a
            · simp [optStr, truthy_none] at ha
            · have hane : ¬(a = "") := by
                intro hh
                subst hh
                simp [optStr, truthy_str] at ha
              rcases hL2 : remotesNamedAddr s rs (PyVal.str a) with _ | ⟨e, _ | ⟨e2, rest2⟩⟩
              · exact ⟨_, _, resolve_name_ambig_addr_bad s rs a d d2 rest [] h0 h1 h2 hane
                  hL hL2 (by simp), by simp [remoteLookupCall]⟩
              · exact ⟨_, _, resolve_name_ambig_addr_one s rs a d d2 e rest h0 h1 h2 hane
                  hL hL2, by simp [remoteLookupCall]⟩
              · exact ⟨_, _, resolve_name_ambig_addr_bad s rs a d d2 rest (e :: e2 :: rest2)
                  h0 h1 h2 hane hL hL2 (by simp), by simp [remoteLookupCall]⟩
          · have ha2 : (optStr addr).truthy = false := by
              cases h : (optStr addr).truthy
              · rfl
              · exact absurd h ha
            exact ⟨_, _, resolve_name_ambig_noaddr2 s rs addr d d2 rest h0 h1 h2 ha2 hL,
              by simp [remoteLookupCall]⟩
      · have h1f : s.nameLike rs = false := by
          cases h : s.nameLike rs
          · rfl
          · exact absurd h h1
        rcases hfind : findRemoteById s rs with _ | d
        · exact ⟨_, _, resolve_id_missing s rs addr h0 h1f h2 hfind, by simp [remoteLookupCall]⟩
        · exact ⟨_, _, resolve_id_found s rs addr d h0 h1f h2 hfind, by simp [remoteLookupCall]⟩
    · have h2f : rs.truthy = false := by
        cases h : rs.truthy
        · rfl
        · exact absurd h h2
      exact ⟨_, _, resolve_nottruthy s rs addr h0 h2f, by simp⟩

theorem sb_ruleByName (n : PyVal) (s : Store) :
    storeBackend.get_replication_rule_by_name n s = (Except.ok (rulesNamed s n), s) := rfl

theorem fetch_name_keyerr (s : Store) (cn : String) (n i : PyVal) (r : Dict) (rest : List Dict)
    (hn : n.truthy = true)
    (hf : rulesNamed s n = r :: rest)
    (hid : dlookup r "id" = Option.none) :
    get_replication_rule_details_m storeBackend cn n i s =
      (MStep.fail ("Get details of replication rule name: " ++ pyRepr n ++ " or ID " ++
        pyRepr i ++ " on array name : " ++ cn ++ " failed with error : " ++
        (keyError "id").msg ++ " "), s, [Call.ruleByName n]) := by
  simp [get_replication_rule_details_m, hn, tryE, sdkCall, PM.bind_eq, PM.bind, PM.pure_eq,
    PM.pure, sb_ruleByName, hf, pyIndex, hid, is404, keyError, failJson]

theorem fetch_name_404 (s : Store) (cn : String) (n i rid : PyVal) (r : Dict) (rest : List Dict)
    (hn : n.truthy = true)
    (hf : rulesNamed s n = r :: rest)
    (hid : dlookup r "id" = Option.some rid)
    (hfind : findRuleById s.rules rid = Option.none) :
    get_replication_rule_details_m storeBackend cn n i s =
      (MStep.ok Option.none, s, [Call.ruleByName n, Call.ruleDetails rid]) := by
  have h404 : is404 err404rule = true := rfl
  have hrd : storeBackend.get_replication_rule_details rid s = (Except.error err404rule, s) := by
    show (match findRuleById s.rules rid with
      | Option.some r => (Except.ok (Option.some r), s)
      | Option.none => (Except.error err404rule, s)) = _
    rw [hfind]
  simp [get_replication_rule_details_m, hn, tryE, sdkCall, PM.bind_eq, PM.bind, PM.pure_eq,
    PM.pure, sb_ruleByName, hf, pyIndex, hid, hrd, h404]

theorem fetch_frame (cn : String) (n i : PyVal) (s : Store) :
    ∃ step ext, get_replication_rule_details_m storeBackend cn n i s = (step, s, ext) ∧
      ∀ c ∈ ext, ruleLookupCall c = true := by
  by_cases hn : n.truthy = true
  · rcases hL : rulesNamed s n with _ | ⟨r, rest⟩
    · exact ⟨_, _, fetch_name_none s cn n i hn hL, by simp [ruleLookupCall]⟩
    · rcases hid : dlookup r "id" with _ | rid
      · exact ⟨_, _, fetch_name_keyerr s cn n i r rest hn hL hid, by simp [ruleLookupCall]⟩
      · rcases hfind : findRuleById s.rules rid with _ | r2
        · exact ⟨_, _, fetch_name_404 s cn n i rid r rest hn hL hid hfind,
            by simp [ruleLookupCall]⟩
        · exact ⟨_, _, fetch_name_found s cn n i rid r r2 rest hn hL hid hfind,
            by simp [ruleLookupCall]⟩
  · have hnf : n.truthy = false := by
      cases h : n.truthy
      · rfl
      · exact absurd h hn
    rcases hfind : findRuleById s.rules i with _ | r
    · exact ⟨_, _, fetch_id_missing s cn n i hnf hfind, by simp [ruleLookupCall]⟩
    · exact ⟨_, _, fetch_id_found s cn n i r hnf hfind, by simp [ruleLookupCall]⟩

theorem nonmut_of_rule (c : Call) (h : ruleLookupCall c = true) : mutatingCall c = false := by
  cases c <;> simp_all [ruleLookupCall, mutatingCall]

theorem nonmut_of_remote (c : Call) (h : remoteLookupCall c = true) : mutatingCall c = false := by
  cases c <;> simp_all [remoteLookupCall, mutatingCall]

theorem show_frame (cn : String) (rid : PyVal) (addr : Option String) (s : Store) :
    ∃ step ext, show_output_m storeBackend cn rid addr s = (step, s, ext) ∧
      ∀ c ∈ ext, mutatingCall c = false := by
  obtain ⟨stepF, extF, hF, hFr⟩ := fetch_frame cn PyVal.none rid s
  have hFm : ∀ c ∈ extF, mutatingCall c = false := fun c hc => nonmut_of_rule c (hFr c hc)
  rcases stepF with det | msg | e
  · rcases det with _ | d
    · refine ⟨MStep.exn typeError, extF, ?_, hFm⟩
      simp [show_output_m, PM.bind_eq, PM.bind, hF, raiseE]
    · rcases hrs : dlookup d "remote_system_id" with _ | rsid
      · refine ⟨MStep.exn (keyError "remote_system_id"), extF, ?_, hFm⟩
        simp [show_output_m, PM.bind_eq, PM.bind, hF, pyIndex, hrs]
      · obtain ⟨stepR, extR, hR, hRr⟩ := resolve_frame rsid addr s
        have hRm : ∀ c ∈ extR, mutatingCall c = false :=
          fun c hc => nonmut_of_remote c (hRr c hc)
        have hFRm : ∀ c ∈ extF ++ extR, mutatingCall c = false := by
          intro c hc
          rcases List.mem_append.mp hc with h | h
          · exact hFm c h
          · exact hRm c h
        rcases stepR with rsd | msg | e
        · rcases rsd with _ | rd
          · refine ⟨MStep.exn typeError, extF ++ extR, ?_, hFRm⟩
            simp [show_output_m, PM.bind_eq, PM.bind, PM.pure_eq, PM.pure, hF, pyIndex,
              hrs, hR, raiseE]
          · rcases hnm : dlookup rd "name" with _ | nmv
            · refine ⟨MStep.exn (keyError "name"), extF ++ extR, ?_, hFRm⟩
              simp [show_output_m, PM.bind_eq, PM.bind, PM.pure_eq, PM.pure, hF, pyIndex,
                hrs, hR, hnm]
            · refine ⟨MStep.ok (dictSet d "remote_system_name" nmv), extF ++ extR, ?_, hFRm⟩
              simp [show_output_m, PM.bind_eq, PM.bind, PM.pure_eq, PM.pure, hF, pyIndex,
                hrs, hR, hnm]
        · refine ⟨MStep.fail msg, extF ++ extR, ?_, hFRm⟩
          simp [show_output_m, PM.bind_eq, PM.bind, PM.pure_eq, PM.pure, hF, pyIndex, hrs, hR]
        · refine ⟨MStep.exn e, extF ++ extR, ?_, hFRm⟩
          simp [show_output_m, PM.bind_eq, PM.bind, PM.pure_eq, PM.pure, hF, pyIndex, hrs, hR]
  · refine ⟨MStep.fail msg, extF, ?_, hFm⟩
    simp [show_output_m, PM.bind_eq, PM.bind, hF]
  · refine ⟨MStep.exn e, extF, ?_, hFm⟩
    simp [show_output_m, PM.bind_eq, PM.bind, hF]

theorem out_frame (p : Params) (cn : String) (ridv : PyVal) (chg : Bool)
    (rrd3 : Option Dict) (s : Store) :
    ∃ step ext, perform_out_m storeBackend p cn ridv chg rrd3 s = (step, s, ext) ∧
      ∀ x ∈ ext, mutatingCall x = false := by
  by_cases hcond : (p.state == "present" && odTruthy rrd3) = true
  · obtain ⟨stepS, extS, hS, hSm⟩ := show_frame cn ridv p.remote_system_address s
    rcases stepS with dd | msg | e
    · refine ⟨MStep.ok (ModuleResult.mk chg (Option.some dd)), extS, ?_, hSm⟩
      simp [perform_out_m, PM.bind_eq, PM.bind, PM.pure_eq, PM.pure, hcond, hS]
    · refine ⟨MStep.fail msg, extS, ?_, hSm⟩
      simp [perform_out_m, PM.bind_eq, PM.bind, PM.pure_eq, PM.pure, hcond, hS]
    · refine ⟨MStep.exn e, extS, ?_, hSm⟩
      simp [perform_out_m, PM.bind_eq, PM.bind, PM.pure_eq, PM.pure, hcond, hS]
  · have hcond2 : (p.state == "present" && odTruthy rrd3) = false := by
      cases h : (p.state == "present" && odTruthy rrd3)
      · rfl
      · exact absurd h hcond
    refine ⟨MStep.ok (ModuleResult.mk chg rrd3), [], ?_, by simp⟩
    simp [perform_out_m, PM.bind_eq, PM.bind, PM.pure_eq, PM.pure, hcond2]

theorem modify_missing (s : Store) (cn cg : String) (rid nm rpo rsid al : PyVal)
    (hfind : findRuleById s.rules rid = Option.none) :
    modify_replication_rule_m storeBackend cn cg rid nm rpo rsid al s =
      (MStep.fail ("Modify replication rule id: " ++ pyRepr rid ++
        " on PowerStore array name: " ++ cn ++ ", global id:" ++ cg ++
        " failed with error " ++ err404rule.msg), s, [Call.modifyRule rid nm rpo rsid al]) := by
  have hm : storeBackend.modify_replication_rule rid nm rpo rsid al s =
      (Except.error err404rule, s) := by
    show (match findRuleById s.rules rid with
      | Option.some r => _
      | Option.none => (Except.error err404rule, s)) = _
    rw [hfind]
  simp [modify_replication_rule_m, tryE, sdkCall, hm, failJson]

theorem delete_missing (s : Store) (cn cg : String) (rid : PyVal)
    (hfind : findRuleById s.rules rid = Option.none) :
    delete_replication_rule_m storeBackend cn cg rid s =
      (MStep.fail ("Delete replication rule id " ++ pyRepr rid ++
        " for PowerStore array name : " ++ cn ++ " , global id : " ++ cg ++
        " failed with error " ++ err404rule.msg ++ " "), s, [Call.deleteRule rid]) := by
  have hm : storeBackend.delete_replication_rule rid s = (Except.error err404rule, s) := by
    show (match findRuleById s.rules rid with
      | Option.some r => _
      | Option.none => (Except.error err404rule, s)) = _
    rw [hfind]
  simp [delete_replication_rule_m, tryE, sdkCall, PM.bind_eq, PM.bind, PM.pure_eq,
    PM.pure, hm, failJson]

theorem act_frame (p : Params) (cn cg : String) (rsid : PyVal) (rrd0 : Option Dict)
    (rid1 nm1 : PyVal) (s : Store) :
    ∃ step s2 m c,
      perform_act_m storeBackend p cn cg rsid rrd0 rid1 nm1 s = (step, s2, m ++ c) ∧
      (m = [] ∨ ∃ y, m = [y] ∧ mutatingCall y = true) ∧
      (∀ x ∈ c, mutatingCall x = false) := by
  by_cases hd : odTruthy rrd0 = true
  · by_cases habs : p.state = "absent"
    · have habsb : (p.state == "absent") = true := beq_iff_eq.mpr habs
      have hpresb : (p.state == "present") = false := by rw [habs]; rfl
      rcases hfindm : findRuleById s.rules rid1 with _ | r
      · refine ⟨MStep.fail ("Delete replication rule id " ++ pyRepr rid1 ++
          " for PowerStore array name : " ++ cn ++ " , global id : " ++ cg ++
          " failed with error " ++ err404rule.msg ++ " "), s,
          [Call.deleteRule rid1], [], ?_, Or.inr ⟨_, rfl, rfl⟩, by simp⟩
        simp [perform_act_m, PM.bind_eq, PM.bind, PM.pure_eq, PM.pure, hd, habsb, hpresb,
          delete_missing s cn cg rid1 hfindm]
      · obtain ⟨stepO, extO, hO, hOm⟩ := out_frame p cn rid1 true Option.none
          (Store.mk s.clusters (delRules s rid1) s.remotes s.nameLike)
        refine ⟨stepO, Store.mk s.clusters (delRules s rid1) s.remotes s.nameLike,
          [Call.deleteRule rid1], extO, ?_, Or.inr ⟨_, rfl, rfl⟩, hOm⟩
        have hodn : odTruthy Option.none = false := rfl
        simp [perform_act_m, PM.bind_eq, PM.bind, PM.pure_eq, PM.pure, hd, habsb, hpresb,
          delete_found s cn cg rid1 r hfindm, hodn, hO]
    · have habsb : (p.state == "absent") = false := beq_eq_false_iff_ne.mpr habs
      by_cases hpres : p.state = "present"
      · have hpresb : (p.state == "present") = true := beq_iff_eq.mpr hpres
        rcases rrd0 with _ | d
        · simp [odTruthy] at hd
        · by_cases hnn : optStr p.new_name = PyVal.none
          · rcases hdnm : dlookup d "name" with _ | dnmv
            · refine ⟨MStep.exn (keyError "name"), s, [], [], ?_, Or.inl rfl, by simp⟩
              simp [perform_act_m, PM.bind_eq, PM.bind, PM.pure_eq, PM.pure, pyIndexOpt,
                pyIndex, hd, habsb, hpresb, hnn, hdnm]
            · by_cases hmodb : modify_replication_rule_required d
                  [("name", dnmv), ("rpo", optStr p.rpo), ("remote_system_id", rsid),
                   ("alert_threshold", optInt p.alert_threshold)] = true
              · rcases hfindm : findRuleById s.rules rid1 with _ | rm
                · refine ⟨MStep.fail ("Modify replication rule id: " ++ pyRepr rid1 ++
                    " on PowerStore array name: " ++ cn ++ ", global id:" ++ cg ++
                    " failed with error " ++ err404rule.msg), s,
                    [Call.modifyRule rid1 PyVal.none (optStr p.rpo) rsid
                      (optInt p.alert_threshold)], [], ?_, Or.inr ⟨_, rfl, rfl⟩, by simp⟩
                  have hmm := modify_missing s cn cg rid1 PyVal.none (optStr p.rpo) rsid
                    (optInt p.alert_threshold) hfindm
                  simp [perform_act_m, PM.bind_eq, PM.bind, PM.pure_eq, PM.pure, pyIndexOpt,
                    pyIndex, hd, habsb, hpresb, hnn, hdnm, hmodb, hmm]
                · have hmf := modify_found s cn cg rid1 PyVal.none (optStr p.rpo) rsid
                    (optInt p.alert_threshold) rm hfindm
                  obtain ⟨stepO, extO, hO, hOm⟩ := out_frame p cn rid1 true
                    (Option.some (applyUpdates rm (modifyArgsDict PyVal.none (optStr p.rpo)
                      rsid (optInt p.alert_threshold))))
                    (Store.mk s.clusters (updRules s rid1 PyVal.none (optStr p.rpo) rsid
                      (optInt p.alert_threshold)) s.remotes s.nameLike)
                  refine ⟨stepO, Store.mk s.clusters (updRules s rid1 PyVal.none
                      (optStr p.rpo) rsid (optInt p.alert_threshold)) s.remotes s.nameLike,
                    [Call.modifyRule rid1 PyVal.none (optStr p.rpo) rsid
                      (optInt p.alert_threshold)], extO, ?_, Or.inr ⟨_, rfl, rfl⟩, hOm⟩
                  simp [perform_act_m, PM.bind_eq, PM.bind, PM.pure_eq, PM.pure, pyIndexOpt,
                    pyIndex, hd, habsb, hpresb, hnn, hdnm, hmodb, hmf, hO]
              · have hmodf : modify_replication_rule_required d
                    [("name", dnmv), ("rpo", optStr p.rpo), ("remote_system_id", rsid),
                     ("alert_threshold", optInt p.alert_threshold)] = false := by
                  cases h : modify_replication_rule_required d
                    [("name", dnmv), ("rpo", optStr p.rpo), ("remote_system_id", rsid),
                     ("alert_threshold", optInt p.alert_threshold)]
                  · rfl
                  · exact absurd h hmodb
                obtain ⟨stepO, extO, hO, hOm⟩ := out_frame p cn rid1 false
                  (Option.some d) s
                refine ⟨stepO, s, [], extO, ?_, Or.inl rfl, hOm⟩
                simp [perform_act_m, PM.bind_eq, PM.bind, PM.pure_eq, PM.pure, pyIndexOpt,
                  pyIndex, hd, habsb, hpresb, hnn, hdnm, hmodf, hO]
          · by_cases hmodb : modify_replication_rule_required d
                [("name", optStr p.new_name), ("rpo", optStr p.rpo),
                 ("remote_system_id", rsid),
                 ("alert_threshold", optInt p.alert_threshold)] = true
            · rcases hfindm : findRuleById s.rules rid1 with _ | rm
              · refine ⟨MStep.fail ("Modify replication rule id: " ++ pyRepr rid1 ++
                  " on PowerStore array name: " ++ cn ++ ", global id:" ++ cg ++
                  " failed with error " ++ err404rule.msg), s,
                  [Call.modifyRule rid1 (optStr p.new_name) (optStr p.rpo) rsid
                    (optInt p.alert_threshold)], [], ?_, Or.inr ⟨_, rfl, rfl⟩, by simp⟩
                have hmm := modify_missing s cn cg rid1 (optStr p.new_name) (optStr p.rpo)
                  rsid (optInt p.alert_threshold) hfindm
                simp [perform_act_m, PM.bind_eq, PM.bind, PM.pure_eq, PM.pure, pyIndexOpt,
                  pyIndex, hd, habsb, hpresb, hnn, hmodb, hmm]
              · have hmf := modify_found s cn cg rid1 (optStr p.new_name) (optStr p.rpo)
                  rsid (optInt p.alert_threshold) rm hfindm
                obtain ⟨stepO, extO, hO, hOm⟩ := out_frame p cn rid1 true
                  (Option.some (applyUpdates rm (modifyArgsDict (optStr p.new_name)
                    (optStr p.rpo) rsid (optInt p.alert_threshold))))
                  (Store.mk s.clusters (updRules s rid1 (optStr p.new_name) (optStr p.rpo)
                    rsid (optInt p.alert_threshold)) s.remotes s.nameLike)
                refine ⟨stepO, Store.mk s.clusters (updRules s rid1 (optStr p.new_name)
                    (optStr p.rpo) rsid (optInt p.alert_threshold)) s.remotes s.nameLike,
                  [Call.modifyRule rid1 (optStr p.new_name) (optStr p.rpo) rsid
                    (optInt p.alert_threshold)], extO, ?_, Or.inr ⟨_, rfl, rfl⟩, hOm⟩
                simp [perform_act_m, PM.bind_eq, PM.bind, PM.pure_eq, PM.pure, pyIndexOpt,
                  pyIndex, hd, habsb, hpresb, hnn, hmodb, hmf, hO]
            · have hmodf : modify_replication_rule_required d
                  [("name", optStr p.new_name), ("rpo", optStr p.rpo),
                   ("remote_system_id", rsid),
                   ("alert_threshold", optInt p.alert_threshold)] = false := by
                cases h : modify_replication_rule_required d
                  [("name", optStr p.new_name), ("rpo", optStr p.rpo),
                   ("remote_system_id", rsid),
                   ("alert_threshold", optInt p.alert_threshold)]
                · rfl
                · exact absurd h hmodb
              obtain ⟨stepO, extO, hO, hOm⟩ := out_frame p cn rid1 false (Option.some d) s
              refine ⟨stepO, s, [], extO, ?_, Or.inl rfl, hOm⟩
              simp [perform_act_m, PM.bind_eq, PM.bind, PM.pure_eq, PM.pure, pyIndexOpt,
                pyIndex, hd, habsb, hpresb, hnn, hmodf, hO]
      · have hpresb : (p.state == "present") = false := beq_eq_false_iff_ne.mpr hpres
        obtain ⟨stepO, extO, hO, hOm⟩ := out_frame p cn rid1 false rrd0 s
        refine ⟨stepO, s, [], extO, ?_, Or.inl rfl, hOm⟩
        simp [perform_act_m, PM.bind_eq, PM.bind, PM.pure_eq, PM.pure, hd, habsb, hpresb, hO]
  · have hdf : odTruthy rrd0 = false := by
      cases h : odTruthy rrd0
      · rfl
      · exact absurd h hd
    by_cases hpres : p.state = "present"
    · have hpresb : (p.state == "present") = true := beq_iff_eq.mpr hpres
      have habsb : (p.state == "absent") = false := by rw [hpres]; rfl
      by_cases hidt : rid1.truthy = true
      · refine ⟨MStep.fail createNeedsNameMsg, s, [], [], ?_, Or.inl rfl, by simp⟩
        simp [perform_act_m, perform_out_m, PM.bind_eq, PM.bind, PM.pure_eq, PM.pure,
          failJson, hdf, hpresb, habsb, hidt]
      · have hidf : rid1.truthy = false := by
          cases h : rid1.truthy
          · rfl
          · exact absurd h hidt
        by_cases hinv : invalidRuleName nm1 = true
        · refine ⟨MStep.fail invalidNameMsg, s, [], [], ?_, Or.inl rfl, by simp⟩
          simp [perform_act_m, perform_out_m, PM.bind_eq, PM.bind, PM.pure_eq, PM.pure,
            failJson, hdf, hpresb, habsb, hidf, hinv]
        · have hinvf : invalidRuleName nm1 = false := by
            cases h : invalidRuleName nm1
            · rfl
            · exact absurd h hinv
          by_cases hrem : (optStr p.remote_system).truthy = true
          · by_cases hnn : optStr p.new_name = PyVal.none
            · by_cases hrpo : (optStr p.rpo).truthy = true
              · obtain ⟨stepO, extO, hO, hOm⟩ := out_frame p cn
                  (PyVal.str (freshRuleId s.rules)) true
                  (Option.some (mkRule (freshRuleId s.rules) nm1
                    (optStr p.rpo) rsid (optInt p.alert_threshold)))
                  (Store.mk s.clusters
                    (s.rules ++ [mkRule (freshRuleId s.rules) nm1
                      (optStr p.rpo) rsid (optInt p.alert_threshold)]) s.remotes s.nameLike)
                refine ⟨stepO,
                  Store.mk s.clusters
                    (s.rules ++ [mkRule (freshRuleId s.rules) nm1
                      (optStr p.rpo) rsid (optInt p.alert_threshold)]) s.remotes s.nameLike,
                  [Call.createRule nm1 (optStr p.rpo) rsid (optInt p.alert_threshold)],
                  Call.ruleDetails (PyVal.str (freshRuleId s.rules)) :: extO, ?_,
                  Or.inr ⟨_, rfl, rfl⟩, ?_⟩
                · have hce := create_eq s cn cg nm1 (optStr p.rpo) rsid
                    (optInt p.alert_threshold) hrpo
                  have hidm : dlookup (mkRule (freshRuleId s.rules) nm1 (optStr p.rpo) rsid
                      (optInt p.alert_threshold)) "id" =
                      Option.some (PyVal.str (freshRuleId s.rules)) := rfl
                  have hnmm : dlookup (mkRule (freshRuleId s.rules) nm1 (optStr p.rpo) rsid
                      (optInt p.alert_threshold)) "name" = Option.some nm1 := rfl
                  have hnomod := create_no_modify (freshRuleId s.rules) nm1 (optStr p.rpo)
                    rsid (optInt p.alert_threshold)
                  simp only [modifyArgsDict] at hnomod
                  have hodt : odTruthy (Option.some (mkRule (freshRuleId s.rules) nm1
                      (optStr p.rpo) rsid (optInt p.alert_threshold))) = true := by
                    simp [odTruthy, mkRule]
                  simp [perform_act_m, PM.bind_eq, PM.bind, PM.pure_eq, PM.pure,
                    pyIndexOpt, pyIndex, hdf, hpresb, habsb, hidf, hinvf, hrem, hnn, hrpo,
                    hce, hidm, hnmm, hnomod, hodt, hO]
                · intro x hx
                  rcases List.mem_cons.mp hx with h | h
                  · subst h
                    rfl
                  · exact hOm x h
              · refine ⟨MStep.fail rpoRequiredMsg, s, [], [], ?_, Or.inl rfl, by simp⟩
                have hrpof : (optStr p.rpo).truthy = false := by
                  cases h : (optStr p.rpo).truthy
                  · rfl
                  · exact absurd h hrpo
                simp [perform_act_m, perform_out_m, PM.bind_eq, PM.bind, PM.pure_eq,
                  PM.pure, failJson, hdf, hpresb, habsb, hidf, hinvf, hrem, hnn,
                  create_rpo_missing _ cn cg _ _ rsid _ s hrpof]
            · refine ⟨MStep.fail newNameAtCreateMsg, s, [], [], ?_, Or.inl rfl, by simp⟩
              simp [perform_act_m, perform_out_m, PM.bind_eq, PM.bind, PM.pure_eq, PM.pure,
                failJson, hdf, hpresb, habsb, hidf, hinvf, hrem, hnn]
          · have hremf : (optStr p.remote_system).truthy = false := by
              cases h : (optStr p.remote_system).truthy
              · rfl
              · exact absurd h hrem
            refine ⟨MStep.fail createNeedsRemoteMsg, s, [], [], ?_, Or.inl rfl, by simp⟩
            simp [perform_act_m, perform_out_m, PM.bind_eq, PM.bind, PM.pure_eq, PM.pure,
              failJson, hdf, hpresb, habsb, hidf, hinvf, hremf]
    · have hpresb : (p.state == "present") = false := beq_eq_false_iff_ne.mpr hpres
      obtain ⟨stepO, extO, hO, hOm⟩ := out_frame p cn rid1 false rrd0 s
      refine ⟨stepO, s, [], extO, ?_, Or.inl rfl, hOm⟩
      simp [perform_act_m, PM.bind_eq, PM.bind, PM.pure_eq, PM.pure, hdf, hpresb, hO]

theorem rest_frame (p : Params) (cn cg : String) (rsid : PyVal) (rrd0 : Option Dict)
    (s : Store) :
    ∃ step s2 m c, perform_rest_m storeBackend p cn cg rsid rrd0 s = (step, s2, m ++ c) ∧
      (m = [] ∨ ∃ y, m = [y] ∧ mutatingCall y = true) ∧
      (∀ x ∈ c, mutatingCall x = false) := by
  by_cases hd : odTruthy rrd0 = true
  · rcases rrd0 with _ | d
    · simp [odTruthy] at hd
    · by_cases hidt : (optStr p.replication_rule_id).truthy = true
      · by_cases hnmt : (optStr p.replication_rule_name).truthy = true
        · obtain ⟨step, s2, m, c, heq, hm, hc⟩ := act_frame p cn cg rsid (Option.some d)
            (optStr p.replication_rule_id) (optStr p.replication_rule_name) s
          refine ⟨step, s2, m, c, ?_, hm, hc⟩
          simp [perform_rest_m, PM.bind_eq, PM.bind, PM.pure_eq, PM.pure, hd, hidt, hnmt,
            heq]
        · rcases hdnm : dlookup d "name" with _ | dnmv
          · refine ⟨MStep.exn (keyError "name"), s, [], [], ?_, Or.inl rfl, by simp⟩
            simp [perform_rest_m, PM.bind_eq, PM.bind, PM.pure_eq, PM.pure, pyIndexOpt,
              pyIndex, hd, hidt, hnmt, hdnm]
          · obtain ⟨step, s2, m, c, heq, hm, hc⟩ := act_frame p cn cg rsid (Option.some d)
              (optStr p.replication_rule_id) dnmv s
            refine ⟨step, s2, m, c, ?_, hm, hc⟩
            simp [perform_rest_m, PM.bind_eq, PM.bind, PM.pure_eq, PM.pure, pyIndexOpt,
              pyIndex, hd, hidt, hnmt, hdnm, heq]
      · rcases hdid : dlookup d "id" with _ | didv
        · refine ⟨MStep.exn (keyError "id"), s, [], [], ?_, Or.inl rfl, by simp⟩
          simp [perform_rest_m, PM.bind_eq, PM.bind, PM.pure_eq, PM.pure, pyIndexOpt,
            pyIndex, hd, hidt, hdid]
        · by_cases hnmt : (optStr p.replication_rule_name).truthy = true
          · obtain ⟨step, s2, m, c, heq, hm, hc⟩ := act_frame p cn cg rsid (Option.some d)
              didv (optStr p.replication_rule_name) s
            refine ⟨step, s2, m, c, ?_, hm, hc⟩
            simp [perform_rest_m, PM.bind_eq, PM.bind, PM.pure_eq, PM.pure, pyIndexOpt,
              pyIndex, hd, hidt, hnmt, hdid, heq]
          · rcases hdnm : dlookup d "name" with _ | dnmv
            · refine ⟨MStep.exn (keyError "name"), s, [], [], ?_, Or.inl rfl, by simp⟩
              simp [perform_rest_m, PM.bind_eq, PM.bind, PM.pure_eq, PM.pure, pyIndexOpt,
                pyIndex, hd, hidt, hnmt, hdid, hdnm]
            · obtain ⟨step, s2, m, c, heq, hm, hc⟩ := act_frame p cn cg rsid (Option.some d)
                didv dnmv s
              refine ⟨step, s2, m, c, ?_, hm, hc⟩
              simp [perform_rest_m, PM.bind_eq, PM.bind, PM.pure_eq, PM.pure, pyIndexOpt,
                pyIndex, hd, hidt, hnmt, hdid, hdnm, heq]
  · have hdf : odTruthy rrd0 = false := by
      cases h : odTruthy rrd0
      · rfl
      · exact absurd h hd
    obtain ⟨step, s2, m, c, heq, hm, hc⟩ := act_frame p cn cg rsid rrd0
      (optStr p.replication_rule_id) (optStr p.replication_rule_name) s
    refine ⟨step, s2, m, c, ?_, hm, hc⟩
    simp [perform_rest_m, PM.bind_eq, PM.bind, PM.pure_eq, PM.pure, hdf, heq]

/-- The claimed call discipline of one invocation: first the cluster
lookup, then remote-system lookups, then rule lookups, then at most one
mutating call, then only non-mutating re-fetch calls. -/
def TraceShape (t : List Call) : Prop :=
  ∃ a b m c, t = Call.clusterList :: (a ++ (b ++ (m ++ c))) ∧
    (∀ x ∈ a, remoteLookupCall x = true) ∧
    (∀ x ∈ b, ruleLookupCall x = true) ∧
    (m = [] ∨ ∃ y, m = [y] ∧ mutatingCall y = true) ∧
    (∀ x ∈ c, mutatingCall x = false)

/-- C5: every invocation against the operational backend emits its calls in
the order cluster lookup, remote-system lookups, rule lookups, at most one
mutating call, then only non-mutating re-fetch calls. -/
theorem C5_thm (p : Params) (s : Store) : TraceShape (moduleTrace storeBackend p s) := by
  unfold TraceShape moduleTrace runModule perform_module_operation_m
  have hc : get_clusters_m storeBackend s = (MStep.ok s.clusters, s, [Call.clusterList]) := rfl
  rcases hcl : s.clusters with _ | ⟨c0, crest⟩
  · refine ⟨[], [], [], [], ?_, by simp, by simp, Or.inl rfl, by simp⟩
    simp [PM.bind_eq, PM.bind, hc, hcl, failJson]
  · rcases hcn : dlookup c0 "name" with _ | cnv
    · refine ⟨[], [], [], [], ?_, by simp, by simp, Or.inl rfl, by simp⟩
      simp [PM.bind_eq, PM.bind, PM.pure_eq, PM.pure, hc, hcl, pyIndex, hcn]
    · rcases hcg : dlookup c0 "id" with _ | cgv
      · refine ⟨[], [], [], [], ?_, by simp, by simp, Or.inl rfl, by simp⟩
        simp [PM.bind_eq, PM.bind, PM.pure_eq, PM.pure, hc, hcl, pyIndex, hcn, hcg]
      · by_cases hrt : (optStr p.remote_system).truthy = true
        · obtain ⟨stepR, extR, hR, hRr⟩ := resolve_frame (optStr p.remote_system)
            p.remote_system_address s
          rcases stepR with rsd | msg | e
          · by_cases hodt : odTruthy rsd = true
            · rcases rsd with _ | dd
              · simp [odTruthy] at hodt
              · rcases hddid : dlookup dd "id" with _ | rsidv
                · refine ⟨extR, [], [], [], ?_, hRr, by simp, Or.inl rfl, by simp⟩
                  simp [PM.bind_eq, PM.bind, PM.pure_eq, PM.pure, hc, hcl, pyIndex, hcn,
                    hcg, hrt, hR, hodt, hddid]
                · obtain ⟨stepF, extF, hF, hFr⟩ := fetch_frame (pyRepr cnv)
                    (optStr p.replication_rule_name) (optStr p.replication_rule_id) s
                  rcases stepF with rrd0 | msg | e
                  · obtain ⟨stepRest, s2, m, c, hRest, hm, hcm⟩ := rest_frame p (pyRepr cnv)
                      (pyRepr cgv) rsidv rrd0 s
                    refine ⟨extR, extF, m, c, ?_, hRr, hFr, hm, hcm⟩
                    simp [PM.bind_eq, PM.bind, PM.pure_eq, PM.pure, hc, hcl, pyIndex, hcn,
                      hcg, hrt, hR, hodt, hddid, hF, hRest]
                  · refine ⟨extR, extF, [], [], ?_, hRr, hFr, Or.inl rfl, by simp⟩
                    simp [PM.bind_eq, PM.bind, PM.pure_eq, PM.pure, hc, hcl, pyIndex, hcn,
                      hcg, hrt, hR, hodt, hddid, hF]
                  · refine ⟨extR, extF, [], [], ?_, hRr, hFr, Or.inl rfl, by simp⟩
                    simp [PM.bind_eq, PM.bind, PM.pure_eq, PM.pure, hc, hcl, pyIndex, hcn,
                      hcg, hrt, hR, hodt, hddid, hF]
            · have hodtf : odTruthy rsd = false := by
                cases h : odTruthy rsd
                · rfl
                · exact absurd h hodt
              obtain ⟨stepF, extF, hF, hFr⟩ := fetch_frame (pyRepr cnv)
                (optStr p.replication_rule_name) (optStr p.replication_rule_id) s
              rcases stepF with rrd0 | msg | e
              · obtain ⟨stepRest, s2, m, c, hRest, hm, hcm⟩ := rest_frame p (pyRepr cnv)
                  (pyRepr cgv) PyVal.none rrd0 s
                refine ⟨extR, extF, m, c, ?_, hRr, hFr, hm, hcm⟩
                simp [PM.bind_eq, PM.bind, PM.pure_eq, PM.pure, hc, hcl, pyIndex, hcn,
                  hcg, hrt, hR, hodtf, hF, hRest]
              · refine ⟨extR, extF, [], [], ?_, hRr, hFr, Or.inl rfl, by simp⟩
                simp [PM.bind_eq, PM.bind, PM.pure_eq, PM.pure, hc, hcl, pyIndex, hcn,
                  hcg, hrt, hR, hodtf, hF]
              · refine ⟨extR, extF, [], [], ?_, hRr, hFr, Or.inl rfl, by simp⟩
                simp [PM.bind_eq, PM.bind, PM.pure_eq, PM.pure, hc, hcl, pyIndex, hcn,
                  hcg, hrt, hR, hodtf, hF]
          · refine ⟨extR, [], [], [], ?_, hRr, by simp, Or.inl rfl, by simp⟩
            simp [PM.bind_eq, PM.bind, PM.pure_eq, PM.pure, hc, hcl, pyIndex, hcn, hcg,
              hrt, hR]
          · refine ⟨extR, [], [], [], ?_, hRr, by simp, Or.inl rfl, by simp⟩
            simp [PM.bind_eq, PM.bind, PM.pure_eq, PM.pure, hc, hcl, pyIndex, hcn, hcg,
              hrt, hR]
        · have hrtf : (optStr p.remote_system).truthy = false := by
            cases h : (optStr p.remote_system).truthy
            · rfl
            · exact absurd h hrt
          obtain ⟨stepF, extF, hF, hFr⟩ := fetch_frame (pyRepr cnv)
            (optStr p.replication_rule_name) (optStr p.replication_rule_id) s
          rcases stepF with rrd0 | msg | e
          · obtain ⟨stepRest, s2, m, c, hRest, hm, hcm⟩ := rest_frame p (pyRepr cnv)
              (pyRepr cgv) PyVal.none rrd0 s
            refine ⟨[], extF, m, c, ?_, by simp, hFr, hm, hcm⟩
            simp [PM.bind_eq, PM.bind, PM.pure_eq, PM.pure, hc, hcl, pyIndex, hcn, hcg,
              hrtf, hF, hRest]
          · refine ⟨[], extF, [], [], ?_, by simp, hFr, Or.inl rfl, by simp⟩
            simp [PM.bind_eq, PM.bind, PM.pure_eq, PM.pure, hc, hcl, pyIndex, hcn, hcg,
              hrtf, hF]
          · refine ⟨[], extF, [], [], ?_, by simp, hFr, Or.inl rfl, by simp⟩
            simp [PM.bind_eq, PM.bind, PM.pure_eq, PM.pure, hc, hcl, pyIndex, hcn, hcg,
              hrtf, hF]

theorem dlookup_cons (k k2 : String) (v : PyVal) (d : Dict) :
    dlookup ((k2, v) :: d) k = if k2 == k then Option.some v else dlookup d k := by
  unfold dlookup
  by_cases h : k2 == k <;> simp [List.find?, h]

theorem dlookup_map_set_same (d : Dict) (k : String) (v : PyVal)
    (hp : (dlookup d k).isSome = true) :
    dlookup (List.map (fun kv => if kv.1 == k then (kv.1, v) else kv) d) k =
      Option.some v := by
  induction d with
  | nil => simp [dlookup, List.find?] at hp
  | cons kv rest ih =>
    cases hk : kv.1 == k with
    | true =>
      simp only [List.map_cons, hk, if_true, ite_true]
      rw [dlookup_cons]
      simp [hk]
    | false =>
      simp only [List.map_cons, hk, Bool.false_eq_true, if_false, ite_false]
      rw [dlookup_cons]
      simp only [hk, Bool.false_eq_true, if_false, ite_false]
      apply ih
      rw [dlookup_cons] at hp
      simp only [hk, Bool.false_eq_true, if_false, ite_false] at hp
      exact hp

theorem dictSet_lookup_same (d : Dict) (k : String) (v : PyVal) :
    dlookup (dictSet d k v) k = Option.some v := by
  unfold dictSet
  by_cases hp : (dlookup d k).isSome
  · simp only [hp, if_true, ite_true]
    exact dlookup_map_set_same d k v hp
  · simp only [hp, Bool.false_eq_true, if_false, ite_false]
    unfold dlookup
    rw [List.find?_append]
    have hnone : List.find? (fun kv => kv.1 == k) d = Option.none := by
      unfold dlookup at hp
      cases hf : List.find? (fun kv => kv.1 == k) d
      · rfl
      · rw [hf] at hp
        simp at hp
    simp [hnone, List.find?]

theorem dlookup_map_set_ne (d : Dict) (k k2 : String) (v : PyVal) (h : ¬(k2 = k)) :
    dlookup (List.map (fun kv => if kv.1 == k then (kv.1, v) else kv) d) k2 =
      dlookup d k2 := by
  induction d with
  | nil => simp
  | cons kv rest ih =>
    cases hk : kv.1 == k with
    | true =>
      have hkk : kv.1 = k := by simpa using hk
      have hne2 : (kv.1 == k2) = false := by
        rw [beq_eq_false_iff_ne, hkk]
        intro hc
        exact absurd hc.symm h
      simp only [List.map_cons, hk, if_true, ite_true]
      rw [dlookup_cons, dlookup_cons]
      simp only [hne2, Bool.false_eq_true, if_false, ite_false]
      exact ih
    | false =>
      simp only [List.map_cons, hk, Bool.false_eq_true, if_false, ite_false]
      rw [dlookup_cons, dlookup_cons]
      cases hv : kv.1 == k2 with
      | true => simp [hv]
      | false =>
        simp only [hv, Bool.false_eq_true, if_false, ite_false]
        exact ih

theorem dictSet_lookup_ne (d : Dict) (k k2 : String) (v : PyVal) (h : ¬(k2 = k)) :
    dlookup (dictSet d k v) k2 = dlookup d k2 := by
  unfold dictSet
  by_cases hp : (dlookup d k).isSome
  · simp only [hp, if_true, ite_true]
    exact dlookup_map_set_ne d k k2 v h
  · simp only [hp, Bool.false_eq_true, if_false, ite_false]
    unfold dlookup
    rw [List.find?_append]
    have hne : (k == k2) = false := by
      rw [beq_eq_false_iff_ne]
      intro hc
      exact absurd hc.symm h
    have hsingle : List.find? (fun kv => kv.1 == k2) [(k, v)] = Option.none := by
      simp [List.find?, hne]
    cases hf : List.find? (fun kv => kv.1 == k2) d <;> simp [hf, hsingle]

theorem applyUpdates_expand (d : Dict) (nmv rpoV rsidV alertV : PyVal) :
    applyUpdates d (modifyArgsDict nmv rpoV rsidV alertV) =
      (fun x => if alertV = PyVal.none then x else dictSet x "alert_threshold" alertV)
      ((fun x => if rsidV = PyVal.none then x else dictSet x "remote_system_id" rsidV)
      ((fun x => if rpoV = PyVal.none then x else dictSet x "rpo" rpoV)
      ((fun x => if nmv = PyVal.none then x else dictSet x "name" nmv) d))) := by
  rfl

theorem applyUpdates_lookup_other (d : Dict) (nmv rpoV rsidV alertV : PyVal) (k : String)
    (h1 : ¬(k = "name")) (h2 : ¬(k = "rpo")) (h3 : ¬(k = "remote_system_id"))
    (h4 : ¬(k = "alert_threshold")) :
    dlookup (applyUpdates d (modifyArgsDict nmv rpoV rsidV alertV)) k = dlookup d k := by
  rw [applyUpdates_expand]
  by_cases hz1 : nmv = PyVal.none <;> by_cases hz2 : rpoV = PyVal.none <;>
    by_cases hz3 : rsidV = PyVal.none <;> by_cases hz4 : alertV = PyVal.none <;>
    simp [hz1, hz2, hz3, hz4, dictSet_lookup_ne _ _ _ _ h1, dictSet_lookup_ne _ _ _ _ h2,
      dictSet_lookup_ne _ _ _ _ h3, dictSet_lookup_ne _ _ _ _ h4]

theorem applyUpdates_lookup_name (d : Dict) (nmv rpoV rsidV alertV : PyVal) :
    dlookup (applyUpdates d (modifyArgsDict nmv rpoV rsidV alertV)) "name" =
      (if nmv = PyVal.none then dlookup d "name" else Option.some nmv) := by
  rw [applyUpdates_expand]
  by_cases hz1 : nmv = PyVal.none <;> by_cases hz2 : rpoV = PyVal.none <;>
    by_cases hz3 : rsidV = PyVal.none <;> by_cases hz4 : alertV = PyVal.none <;>
    simp [hz1, hz2, hz3, hz4, dictSet_lookup_same,
      dictSet_lookup_ne _ "rpo" "name" _ (by decide),
      dictSet_lookup_ne _ "remote_system_id" "name" _ (by decide),
      dictSet_lookup_ne _ "alert_threshold" "name" _ (by decide)]

theorem applyUpdates_lookup_rpo (d : Dict) (nmv rpoV rsidV alertV : PyVal) :
    dlookup (applyUpdates d (modifyArgsDict nmv rpoV rsidV alertV)) "rpo" =
      (if rpoV = PyVal.none then dlookup d "rpo" else Option.some rpoV) := by
  rw [applyUpdates_expand]
  by_cases hz1 : nmv = PyVal.none <;> by_cases hz2 : rpoV = PyVal.none <;>
    by_cases hz3 : rsidV = PyVal.none <;> by_cases hz4 : alertV = PyVal.none <;>
    simp [hz1, hz2, hz3, hz4, dictSet_lookup_same,
      dictSet_lookup_ne _ "name" "rpo" _ (by decide),
      dictSet_lookup_ne _ "remote_system_id" "rpo" _ (by decide),
      dictSet_lookup_ne _ "alert_threshold" "rpo" _ (by decide)]

theorem applyUpdates_lookup_rsid (d : Dict) (nmv rpoV rsidV alertV : PyVal) :
    dlookup (applyUpdates d (modifyArgsDict nmv rpoV rsidV alertV)) "remote_system_id" =
      (if rsidV = PyVal.none then dlookup d "remote_system_id" else Option.some rsidV) := by
  rw [applyUpdates_expand]
  by_cases hz1 : nmv = PyVal.none <;> by_cases hz2 : rpoV = PyVal.none <;>
    by_cases hz3 : rsidV = PyVal.none <;> by_cases hz4 : alertV = PyVal.none <;>
    simp [hz1, hz2, hz3, hz4, dictSet_lookup_same,
      dictSet_lookup_ne _ "name" "remote_system_id" _ (by decide),
      dictSet_lookup_ne _ "rpo" "remote_system_id" _ (by decide),
      dictSet_lookup_ne _ "alert_threshold" "remote_system_id" _ (by decide)]

theorem applyUpdates_lookup_alert (d : Dict) (nmv rpoV rsidV alertV : PyVal) :
    dlookup (applyUpdates d (modifyArgsDict nmv rpoV rsidV alertV)) "alert_threshold" =
      (if alertV = PyVal.none then dlookup d "alert_threshold" else Option.some alertV) := by
  rw [applyUpdates_expand]
  by_cases hz1 : nmv = PyVal.none <;> by_cases hz2 : rpoV = PyVal.none <;>
    by_cases hz3 : rsidV = PyVal.none <;> by_cases hz4 : alertV = PyVal.none <;>
    simp [hz1, hz2, hz3, hz4, dictSet_lookup_same,
      dictSet_lookup_ne _ "name" "alert_threshold" _ (by decide),
      dictSet_lookup_ne _ "rpo" "alert_threshold" _ (by decide),
      dictSet_lookup_ne _ "remote_system_id" "alert_threshold" _ (by decide)]

theorem mem_nodup_lookup (d : Dict) (kv : String × PyVal)
    (hnodup : (List.map Prod.fst d).Nodup) (hkv : kv ∈ d) :
    dlookup d kv.1 = Option.some kv.2 := by
  induction d with
  | nil => cases hkv
  | cons hd tl ih =>
    rcases List.mem_cons.mp hkv with h | h
    · subst h
      rw [show (kv :: tl) = ((kv.1, kv.2) :: tl) by rfl, dlookup_cons]
      simp
    · have hne : ¬(hd.1 = kv.1) := by
        intro hc
        have hk1 : kv.1 ∈ List.map Prod.fst tl := List.mem_map_of_mem Prod.fst h
        rw [List.map_cons] at hnodup
        rw [hc] at hnodup
        exact (List.nodup_cons.mp hnodup).1 hk1
      rw [show (hd :: tl) = ((hd.1, hd.2) :: tl) by rfl, dlookup_cons]
      have hneb : (hd.1 == kv.1) = false := beq_eq_false_iff_ne.mpr hne
      simp only [hneb, Bool.false_eq_true, if_false, ite_false]
      exact ih (List.nodup_cons.mp (by rw [List.map_cons] at hnodup; exact hnodup)).2 h

theorem satisfied_no_modify (d2 : Dict) (nmv rpoV rsidV alertV : PyVal)
    (hnodup : (List.map Prod.fst d2).Nodup)
    (hn : nmv ≠ PyVal.none → dlookup d2 "name" = Option.some nmv)
    (hr : rpoV ≠ PyVal.none → dlookup d2 "rpo" = Option.some rpoV)
    (hs : rsidV ≠ PyVal.none → dlookup d2 "remote_system_id" = Option.some rsidV)
    (ha : alertV ≠ PyVal.none → dlookup d2 "alert_threshold" = Option.some alertV) :
    modify_replication_rule_required d2 (modifyArgsDict nmv rpoV rsidV alertV) = false := by
  unfold modify_replication_rule_required
  rw [List.any_eq_false]
  intro kv hkv
  have hlk := mem_nodup_lookup d2 kv hnodup hkv
  by_cases h1 : kv.1 = "name"
  · have hm : dlookup (modifyArgsDict nmv rpoV rsidV alertV) kv.1 = Option.some nmv := by
      rw [h1]
      rfl
    rw [hm]
    by_cases hz : nmv = PyVal.none
    · simp [hz]
    · have := hn hz
      rw [h1] at hlk
      rw [this] at hlk
      have : kv.2 = nmv := by injection hlk.symm
      simp [hz, this]
  · by_cases h2 : kv.1 = "rpo"
    · have hm : dlookup (modifyArgsDict nmv rpoV rsidV alertV) kv.1 = Option.some rpoV := by
        rw [h2]
        rfl
      rw [hm]
      by_cases hz : rpoV = PyVal.none
      · simp [hz]
      · have := hr hz
        rw [h2] at hlk
        rw [this] at hlk
        have : kv.2 = rpoV := by injection hlk.symm
        simp [hz, this]
    · by_cases h3 : kv.1 = "remote_system_id"
      · have hm : dlookup (modifyArgsDict nmv rpoV rsidV alertV) kv.1 =
            Option.some rsidV := by
          rw [h3]
          rfl
        rw [hm]
        by_cases hz : rsidV = PyVal.none
        · simp [hz]
        · have := hs hz
          rw [h3] at hlk
          rw [this] at hlk
          have : kv.2 = rsidV := by injection hlk.symm
          simp [hz, this]
      · by_cases h4 : kv.1 = "alert_threshold"
        · have hm : dlookup (modifyArgsDict nmv rpoV rsidV alertV) kv.1 =
              Option.some alertV := by
            rw [h4]
            rfl
          rw [hm]
          by_cases hz : alertV = PyVal.none
          · simp [hz]
          · have := ha hz
            rw [h4] at hlk
            rw [this] at hlk
            have : kv.2 = alertV := by injection hlk.symm
            simp [hz, this]
        · have hm : dlookup (modifyArgsDict nmv rpoV rsidV alertV) kv.1 = Option.none := by
            unfold modifyArgsDict
            rw [dlookup_cons, dlookup_cons, dlookup_cons, dlookup_cons]
            have e1 : ("name" == kv.1) = false :=
              beq_eq_false_iff_ne.mpr (fun hc => h1 hc.symm)
            have e2 : ("rpo" == kv.1) = false :=
              beq_eq_false_iff_ne.mpr (fun hc => h2 hc.symm)
            have e3 : ("remote_system_id" == kv.1) = false :=
              beq_eq_false_iff_ne.mpr (fun hc => h3 hc.symm)
            have e4 : ("alert_threshold" == kv.1) = false :=
              beq_eq_false_iff_ne.mpr (fun hc => h4 hc.symm)
            simp [e1, e2, e3, e4, dlookup]
          rw [hm]
          simp

theorem dlookup_none_not_key (d : Dict) (k : String)
    (h : dlookup d k = Option.none) : ¬(k ∈ List.map Prod.fst d) := by
  induction d with
  | nil => simp
  | cons hd tl ih =>
    rw [show (hd :: tl) = ((hd.1, hd.2) :: tl) by rfl, dlookup_cons] at h
    by_cases hk : (hd.1 == k) = true
    · rw [hk] at h
      simp at h
    · rw [List.map_cons]
      intro hmem
      rcases List.mem_cons.mp hmem with hh | hh
      · exact hk (beq_iff_eq.mpr hh.symm)
      · have hkf : (hd.1 == k) = false := by
          cases hx : (hd.1 == k)
          · rfl
          · exact absurd hx hk
        rw [hkf] at h
        simp only [Bool.false_eq_true, if_false, ite_false] at h
        exact ih h hh

theorem isEmpty_false_of_ne (d : Dict) (h : ¬(d = [])) : d.isEmpty = false := by
  cases d
  · exact absurd rfl h
  · rfl

theorem dictSet_keys_nodup (d : Dict) (k : String) (v : PyVal)
    (h : (List.map Prod.fst d).Nodup) :
    (List.map Prod.fst (dictSet d k v)).Nodup := by
  unfold dictSet
  by_cases hk : (dlookup d k).isSome = true
  · rw [hk]
    simp only [if_true, ite_true, List.map_map]
    have he : (Prod.fst ∘ fun kv : String × PyVal =>
        if kv.1 == k then (kv.1, v) else kv) = Prod.fst := by
      funext kv
      by_cases hc : kv.1 = k <;> simp [hc]
    rw [he]
    exact h
  · have hkf : (dlookup d k).isSome = false := by
      cases hx : (dlookup d k).isSome
      · rfl
      · exact absurd hx hk
    have hnone : dlookup d k = Option.none := by
      cases hx : dlookup d k
      · rfl
      · rw [hx] at hkf
        simp at hkf
    rw [hkf]
    simp only [Bool.false_eq_true, if_false, ite_false, List.map_append, List.map_cons,
      List.map_nil]
    rw [List.nodup_append]
    exact ⟨h, List.nodup_singleton k,
      by
        intro a ha hb
        simp only [List.mem_singleton] at hb
        subst hb
        exact dlookup_none_not_key d _ hnone ha⟩

theorem applyUpdates_keys_nodup (d : Dict) (nmv rpoV rsidV alertV : PyVal)
    (h : (List.map Prod.fst d).Nodup) :
    (List.map Prod.fst (applyUpdates d (modifyArgsDict nmv rpoV rsidV alertV))).Nodup := by
  rw [applyUpdates_expand]
  by_cases hz1 : nmv = PyVal.none <;> by_cases hz2 : rpoV = PyVal.none <;>
    by_cases hz3 : rsidV = PyVal.none <;> by_cases hz4 : alertV = PyVal.none <;>
    simp only [hz1, hz2, hz3, hz4, if_true, if_false, ite_true, ite_false,
      eq_self_iff_true, if_neg, if_pos] <;>
    (repeat (first | exact h | apply dictSet_keys_nodup))

theorem upd_lookup_id (rid nm rpo rsid al : PyVal) (r : Dict) :
    dlookup (if decide (dlookup r "id" = Option.some rid) then
      applyUpdates r (modifyArgsDict nm rpo rsid al) else r) "id" = dlookup r "id" := by
  by_cases h : dlookup r "id" = Option.some rid <;>
    simp [h, applyUpdates_lookup_other r nm rpo rsid al "id"
      (by decide) (by decide) (by decide) (by decide)]

theorem upd_lookup_name (rid rpo rsid al : PyVal) (r : Dict) :
    dlookup (if decide (dlookup r "id" = Option.some rid) then
      applyUpdates r (modifyArgsDict PyVal.none rpo rsid al) else r) "name" =
      dlookup r "name" := by
  by_cases h : dlookup r "id" = Option.some rid <;>
    simp [h, applyUpdates_lookup_name]

theorem findRuleById_upd (l : List Dict) (rid nm rpo rsid al v : PyVal) :
    findRuleById (List.map (fun r2 => if decide (dlookup r2 "id" = Option.some rid) then
      applyUpdates r2 (modifyArgsDict nm rpo rsid al) else r2) l) v =
    Option.map (fun r2 => if decide (dlookup r2 "id" = Option.some rid) then
      applyUpdates r2 (modifyArgsDict nm rpo rsid al) else r2) (findRuleById l v) := by
  induction l with
  | nil => rfl
  | cons hd tl ih =>
    have hid := upd_lookup_id rid nm rpo rsid al hd
    unfold findRuleById at ih ⊢
    rw [List.map_cons]
    simp only [List.find?]
    rw [hid]
    cases hdec : decide (dlookup hd "id" = Option.some v) with
    | true => simp
    | false => simpa using ih

theorem filter_name_upd (l : List Dict) (rid rpo rsid al n : PyVal) :
    List.filter (fun r => decide (dlookup r "name" = Option.some n))
      (List.map (fun r2 => if decide (dlookup r2 "id" = Option.some rid) then
        applyUpdates r2 (modifyArgsDict PyVal.none rpo rsid al) else r2) l) =
    List.map (fun r2 => if decide (dlookup r2 "id" = Option.some rid) then
      applyUpdates r2 (modifyArgsDict PyVal.none rpo rsid al) else r2)
      (List.filter (fun r => decide (dlookup r "name" = Option.some n)) l) := by
  induction l with
  | nil => rfl
  | cons hd tl ih =>
    have hnm := upd_lookup_name rid rpo rsid al hd
    rw [List.map_cons]
    simp only [List.filter]
    rw [hnm]
    cases hdec : decide (dlookup hd "name" = Option.some n) with
    | true => simpa using ih
    | false => simpa using ih

theorem resolve_store_congr (rs : PyVal) (addr : Option String) (s s2 : Store)
    (hr : s2.remotes = s.remotes) (hnl : s2.nameLike = s.nameLike) :
    get_remote_system_details_m storeBackend rs addr s2 =
      ((get_remote_system_details_m storeBackend rs addr s).1, s2,
       (get_remote_system_details_m storeBackend rs addr s).2.2) := by
  have hrn : ∀ n, remotesNamed s2 n = remotesNamed s n := by
    intro n
    unfold remotesNamed
    rw [hr]
  have hrna : ∀ n a, remotesNamedAddr s2 n a = remotesNamedAddr s n a := by
    intro n a
    unfold remotesNamedAddr
    rw [hr]
  have hfb : ∀ v, findRemoteById s2 v = findRemoteById s v := by
    intro v
    unfold findRemoteById
    rw [hr]
  have hnl2 : ∀ v, s2.nameLike v = s.nameLike v := by
    intro v
    rw [hnl]
  by_cases h0 : rs = PyVal.none
  · subst h0
    rw [resolve_skip s addr, resolve_skip s2 addr]
  · by_cases h2 : rs.truthy = true
    · by_cases h1 : s.nameLike rs = true
      · have h1b : s2.nameLike rs = true := by rw [hnl2]; exact h1
        rcases hL : remotesNamed s rs with _ | ⟨d, _ | ⟨d2, rest⟩⟩
        · rw [resolve_name_zero s rs addr h0 h1 h2 hL,
            resolve_name_zero s2 rs addr h0 h1b h2 (by rw [hrn]; exact hL)]
        · rw [resolve_name_unique s rs addr d h0 h1 h2 hL,
            resolve_name_unique s2 rs addr d h0 h1b h2 (by rw [hrn]; exact hL)]
        · by_cases ha : (optStr addr).truthy = true
          · rcases addr with _ | a
            · simp [optStr, truthy_none] at ha
            · have hane : ¬(a = "") := by
                intro hh
                subst hh
                simp [optStr, truthy_str] at ha
              rcases hL2 : remotesNamedAddr s rs (PyVal.str a) with _ | ⟨e, _ | ⟨e2, rest2⟩⟩
              · rw [resolve_name_ambig_addr_bad s rs a d d2 rest [] h0 h1 h2 hane hL hL2
                    (by simp),
                  resolve_name_ambig_addr_bad s2 rs a d d2 rest [] h0 h1b h2 hane
                    (by rw [hrn]; exact hL) (by rw [hrna]; exact hL2) (by simp)]
              · rw [resolve_name_ambig_addr_one s rs a d d2 e rest h0 h1 h2 hane hL hL2,
                  resolve_name_ambig_addr_one s2 rs a d d2 e rest h0 h1b h2 hane
                    (by rw [hrn]; exact hL) (by rw [hrna]; exact hL2)]
              · rw [resolve_name_ambig_addr_bad s rs a d d2 rest (e :: e2 :: rest2) h0 h1 h2
                    hane hL hL2 (by simp),
                  resolve_name_ambig_addr_bad s2 rs a d d2 rest (e :: e2 :: rest2) h0 h1b h2
                    hane (by rw [hrn]; exact hL) (by rw [hrna]; exact hL2) (by simp)]
          · have ha2 : (optStr addr).truthy = false := by
              cases h : (optStr addr).truthy
              · rfl
              · exact absurd h ha
            rw [resolve_name_ambig_noaddr2 s rs addr d d2 rest h0 h1 h2 ha2 hL,
              resolve_name_ambig_noaddr2 s2 rs addr d d2 rest h0 h1b h2 ha2
                (by rw [hrn]; exact hL)]
      · have h1f : s.nameLike rs = false := by
          cases h : s.nameLike rs
          · rfl
          · exact absurd h h1
        have h1fb : s2.nameLike rs = false := by rw [hnl2]; exact h1f
        rcases hfind : findRemoteById s rs with _ | d
        · rw [resolve_id_missing s rs addr h0 h1f h2 hfind,
            resolve_id_missing s2 rs addr h0 h1fb h2 (by rw [hfb]; exact hfind)]
        · rw [resolve_id_found s rs addr d h0 h1f h2 hfind,
            resolve_id_found s2 rs addr d h0 h1fb h2 (by rw [hfb]; exact hfind)]
    · have h2f : rs.truthy = false := by
        cases h : rs.truthy
        · rfl
        · exact absurd h h2
      rw [resolve_nottruthy s rs addr h0 h2f, resolve_nottruthy s2 rs addr h0 h2f]

theorem ResolveOK_congr (p : Params) (s s2 : Store) (rsid : PyVal) (trRS : List Call)
    (hr : s2.remotes = s.remotes) (hnl : s2.nameLike = s.nameLike)
    (h : ResolveOK p s rsid trRS) : ResolveOK p s2 rsid trRS := by
  rcases h with ⟨h1, h2, h3⟩ | ⟨h1, rsd, heq, hsub⟩
  · exact Or.inl ⟨h1, h2, h3⟩
  · refine Or.inr ⟨h1, rsd, ?_, hsub⟩
    rw [resolve_store_congr _ _ s s2 hr hnl, heq]

theorem idem_noop (p : Params) (s : Store) (c0 : Dict) (crest : List Dict)
    (cnv cgv rsid : PyVal) (trRS trF : List Call) (d d2 rd : Dict)
    (didv dnmv ridv rsid2 nmv : PyVal)
    (hst : p.state = "present")
    (hcl : s.clusters = c0 :: crest)
    (hcn : dlookup c0 "name" = Option.some cnv)
    (hcg : dlookup c0 "id" = Option.some cgv)
    (hres : ResolveOK p s rsid trRS)
    (hfetch : get_replication_rule_details_m storeBackend (pyRepr cnv)
      (optStr p.replication_rule_name) (optStr p.replication_rule_id) s =
      (MStep.ok (Option.some d), s, trF))
    (hdne : d.isEmpty = false)
    (hdid : dlookup d "id" = Option.some didv)
    (hdnm : dlookup d "name" = Option.some dnmv)
    (hrid : ridv = (if (optStr p.replication_rule_id).truthy = true
      then optStr p.replication_rule_id else didv))
    (hmod : modify_replication_rule_required d
      (modifyArgsDict (if optStr p.new_name = PyVal.none then dnmv else optStr p.new_name)
        (optStr p.rpo) rsid (optInt p.alert_threshold)) = false)
    (hfind2 : findRuleById s.rules ridv = Option.some d2)
    (hrs2 : dlookup d2 "remote_system_id" = Option.some rsid2)
    (hne2 : rsid2 ≠ PyVal.none) (hcls2 : s.nameLike rsid2 = false) (htr2 : rsid2.truthy = true)
    (hrfind2 : findRemoteById s rsid2 = Option.some rd)
    (hnm2 : dlookup rd "name" = Option.some nmv) :
    moduleOutcome storeBackend p s =
      MStep.ok (ModuleResult.mk false (Option.some (dictSet d2 "remote_system_name" nmv))) ∧
    moduleStore storeBackend p s = s ∧
    moduleOutcome storeBackend p (moduleStore storeBackend p s) =
      MStep.ok (ModuleResult.mk false (Option.some (dictSet d2 "remote_system_name" nmv))) := by
  have hrest := rest_noop p s (pyRepr cnv) (pyRepr cgv) rsid d d2 rd didv dnmv ridv rsid2 nmv
    hst hdne hdid hdnm hrid hmod hfind2 hrs2 hne2 hcls2 htr2 hrfind2 hnm2
  have hpre := run_prefix p s c0 crest cnv cgv rsid trRS (Option.some d) trF
    hcl hcn hcg hres hfetch
  have hout : moduleOutcome storeBackend p s =
      MStep.ok (ModuleResult.mk false (Option.some (dictSet d2 "remote_system_name" nmv))) := by
    unfold moduleOutcome
    rw [hpre, hrest]
  have hsto : moduleStore storeBackend p s = s := by
    unfold moduleStore
    rw [hpre, hrest]
  exact ⟨hout, hsto, by rw [hsto]; exact hout⟩

theorem idem_create (p : Params) (s : Store) (c0 : Dict) (crest : List Dict)
    (cnv cgv rsid : PyVal) (trRS : List Call) (rd : Dict) (nmv : PyVal)
    (hst : p.state = "present")
    (hnn : p.new_name = Option.none)
    (hcl : s.clusters = c0 :: crest)
    (hcn : dlookup c0 "name" = Option.some cnv)
    (hcg : dlookup c0 "id" = Option.some cgv)
    (hres : ResolveOK p s rsid trRS)
    (hidf : (optStr p.replication_rule_id).truthy = false)
    (hnmt : (optStr p.replication_rule_name).truthy = true)
    (hnmok : invalidRuleName (optStr p.replication_rule_name) = false)
    (hnone : rulesNamed s (optStr p.replication_rule_name) = [])
    (hrem : (optStr p.remote_system).truthy = true)
    (hrpo : (optStr p.rpo).truthy = true)
    (hne : rsid ≠ PyVal.none) (hcls : s.nameLike rsid = false) (htr : rsid.truthy = true)
    (hrfind : findRemoteById s rsid = Option.some rd)
    (hnm : dlookup rd "name" = Option.some nmv) :
    moduleOutcome storeBackend p s =
      MStep.ok (ModuleResult.mk true (Option.some
        (dictSet (mkRule (freshRuleId s.rules) (optStr p.replication_rule_name)
          (optStr p.rpo) rsid (optInt p.alert_threshold)) "remote_system_name" nmv))) ∧
    moduleOutcome storeBackend p (moduleStore storeBackend p s) =
      MStep.ok (ModuleResult.mk false (Option.some
        (dictSet (mkRule (freshRuleId s.rules) (optStr p.replication_rule_name)
          (optStr p.rpo) rsid (optInt p.alert_threshold)) "remote_system_name" nmv))) := by
  have hnn2 : optStr p.new_name = PyVal.none := by
    rw [hnn]
    rfl
  have hfetch1 := fetch_name_none s (pyRepr cnv) (optStr p.replication_rule_name)
    (optStr p.replication_rule_id) hnmt hnone
  have hrest1 := rest_create p s (pyRepr cnv) (pyRepr cgv) rsid Option.none rd nmv
    hst rfl hidf hnmok hrem hnn2 hrpo hne hcls htr hrfind hnm
  have hpre1 := run_prefix p s c0 crest cnv cgv rsid trRS Option.none
    [Call.ruleByName (optStr p.replication_rule_name)] hcl hcn hcg hres hfetch1
  have hout1 : moduleOutcome storeBackend p s =
      MStep.ok (ModuleResult.mk true (Option.some
        (dictSet (mkRule (freshRuleId s.rules) (optStr p.replication_rule_name)
          (optStr p.rpo) rsid (optInt p.alert_threshold)) "remote_system_name" nmv))) := by
    unfold moduleOutcome
    rw [hpre1, hrest1]
  have hsto : moduleStore storeBackend p s =
      Store.mk s.clusters
        (s.rules ++ [mkRule (freshRuleId s.rules) (optStr p.replication_rule_name)
          (optStr p.rpo) rsid (optInt p.alert_threshold)]) s.remotes s.nameLike := by
    unfold moduleStore
    rw [hpre1, hrest1]
  refine ⟨hout1, ?_⟩
  rw [hsto]
  have hres2 : ResolveOK p
      (Store.mk s.clusters
        (s.rules ++ [mkRule (freshRuleId s.rules) (optStr p.replication_rule_name)
          (optStr p.rpo) rsid (optInt p.alert_threshold)]) s.remotes s.nameLike)
      rsid trRS :=
    ResolveOK_congr p s _ rsid trRS rfl rfl hres
  have hpn : dlookup (mkRule (freshRuleId s.rules) (optStr p.replication_rule_name)
      (optStr p.rpo) rsid (optInt p.alert_threshold)) "name" =
      Option.some (optStr p.replication_rule_name) := rfl
  have hf2 : List.filter (fun r => decide (dlookup r "name" =
      Option.some (optStr p.replication_rule_name)))
      (s.rules ++ [mkRule (freshRuleId s.rules) (optStr p.replication_rule_name)
        (optStr p.rpo) rsid (optInt p.alert_threshold)]) =
      [mkRule (freshRuleId s.rules) (optStr p.replication_rule_name)
        (optStr p.rpo) rsid (optInt p.alert_threshold)] := by
    rw [List.filter_append]
    unfold rulesNamed at hnone
    rw [hnone]
    simp [List.filter, hpn]
  have hfind2 : findRuleById
      (s.rules ++ [mkRule (freshRuleId s.rules) (optStr p.replication_rule_name)
        (optStr p.rpo) rsid (optInt p.alert_threshold)])
      (PyVal.str (freshRuleId s.rules)) =
      Option.some (mkRule (freshRuleId s.rules) (optStr p.replication_rule_name)
        (optStr p.rpo) rsid (optInt p.alert_threshold)) :=
    find_fresh s.rules (optStr p.replication_rule_name) (optStr p.rpo) rsid
      (optInt p.alert_threshold)
  have hfetch2 := fetch_name_found
    (Store.mk s.clusters
      (s.rules ++ [mkRule (freshRuleId s.rules) (optStr p.replication_rule_name)
        (optStr p.rpo) rsid (optInt p.alert_threshold)]) s.remotes s.nameLike)
    (pyRepr cnv) (optStr p.replication_rule_name) (optStr p.replication_rule_id)
    (PyVal.str (freshRuleId s.rules))
    (mkRule (freshRuleId s.rules) (optStr p.replication_rule_name)
      (optStr p.rpo) rsid (optInt p.alert_threshold))
    (mkRule (freshRuleId s.rules) (optStr p.replication_rule_name)
      (optStr p.rpo) rsid (optInt p.alert_threshold))
    [] hnmt hf2 rfl hfind2
  have hmodf : modify_replication_rule_required
      (mkRule (freshRuleId s.rules) (optStr p.replication_rule_name)
        (optStr p.rpo) rsid (optInt p.alert_threshold))
      (modifyArgsDict
        (if optStr p.new_name = PyVal.none then optStr p.replication_rule_name
          else optStr p.new_name)
        (optStr p.rpo) rsid (optInt p.alert_threshold)) = false := by
    rw [if_pos hnn2]
    exact create_no_modify (freshRuleId s.rules) (optStr p.replication_rule_name)
      (optStr p.rpo) rsid (optInt p.alert_threshold)
  have hrest2 := rest_noop p
    (Store.mk s.clusters
      (s.rules ++ [mkRule (freshRuleId s.rules) (optStr p.replication_rule_name)
        (optStr p.rpo) rsid (optInt p.alert_threshold)]) s.remotes s.nameLike)
    (pyRepr cnv) (pyRepr cgv) rsid
    (mkRule (freshRuleId s.rules) (optStr p.replication_rule_name)
      (optStr p.rpo) rsid (optInt p.alert_threshold))
    (mkRule (freshRuleId s.rules) (optStr p.replication_rule_name)
      (optStr p.rpo) rsid (optInt p.alert_threshold))
    rd (PyVal.str (freshRuleId s.rules)) (optStr p.replication_rule_name)
    (PyVal.str (freshRuleId s.rules)) rsid nmv
    hst rfl rfl rfl (by simp [hidf]) hmodf hfind2 rfl hne hcls htr hrfind hnm
  have hpre2 := run_prefix p
    (Store.mk s.clusters
      (s.rules ++ [mkRule (freshRuleId s.rules) (optStr p.replication_rule_name)
        (optStr p.rpo) rsid (optInt p.alert_threshold)]) s.remotes s.nameLike)
    c0 crest cnv cgv rsid trRS
    (Option.some (mkRule (freshRuleId s.rules) (optStr p.replication_rule_name)
      (optStr p.rpo) rsid (optInt p.alert_threshold)))
    [Call.ruleByName (optStr p.replication_rule_name),
     Call.ruleDetails (PyVal.str (freshRuleId s.rules))]
    hcl hcn hcg hres2 hfetch2
  unfold moduleOutcome
  rw [hpre2, hrest2]

theorem idem_modify_id (p : Params) (s : Store) (c0 : Dict) (crest : List Dict)
    (cnv cgv rsid : PyVal) (trRS : List Call) (rm rd : Dict)
    (dnmv rsid2 nmv : PyVal)
    (hst : p.state = "present")
    (hnn : p.new_name = Option.none)
    (hcl : s.clusters = c0 :: crest)
    (hcn : dlookup c0 "name" = Option.some cnv)
    (hcg : dlookup c0 "id" = Option.some cgv)
    (hres : ResolveOK p s rsid trRS)
    (hidt : (optStr p.replication_rule_id).truthy = true)
    (hnmf : (optStr p.replication_rule_name).truthy = false)
    (hfindm : findRuleById s.rules (optStr p.replication_rule_id) = Option.some rm)
    (hrmne : ¬(rm = []))
    (hrmnd : (List.map Prod.fst rm).Nodup)
    (hdnm : dlookup rm "name" = Option.some dnmv)
    (hmod : modify_replication_rule_required rm
      (modifyArgsDict dnmv (optStr p.rpo) rsid (optInt p.alert_threshold)) = true)
    (hrs2 : dlookup (applyUpdates rm (modifyArgsDict PyVal.none (optStr p.rpo) rsid
      (optInt p.alert_threshold))) "remote_system_id" = Option.some rsid2)
    (hne2 : rsid2 ≠ PyVal.none) (hcls2 : s.nameLike rsid2 = false) (htr2 : rsid2.truthy = true)
    (hrfind2 : findRemoteById s rsid2 = Option.some rd)
    (hnm2 : dlookup rd "name" = Option.some nmv) :
    moduleOutcome storeBackend p s =
      MStep.ok (ModuleResult.mk true (Option.some
        (dictSet (applyUpdates rm (modifyArgsDict PyVal.none (optStr p.rpo) rsid
          (optInt p.alert_threshold))) "remote_system_name" nmv))) ∧
    moduleOutcome storeBackend p (moduleStore storeBackend p s) =
      MStep.ok (ModuleResult.mk false (Option.some
        (dictSet (applyUpdates rm (modifyArgsDict PyVal.none (optStr p.rpo) rsid
          (optInt p.alert_threshold))) "remote_system_name" nmv))) := by
  have hnn2 : optStr p.new_name = PyVal.none := by
    rw [hnn]
    rfl
  have hfindm2 : List.find? (fun r => decide (dlookup r "id" =
      Option.some (optStr p.replication_rule_id))) s.rules = Option.some rm := hfindm
  have hpm : (fun r => decide (dlookup r "id" =
      Option.some (optStr p.replication_rule_id))) rm = true :=
    @List.find?_some Dict (fun r => decide (dlookup r "id" =
      Option.some (optStr p.replication_rule_id))) rm s.rules hfindm2
  have hrmid : dlookup rm "id" = Option.some (optStr p.replication_rule_id) :=
    of_decide_eq_true hpm
  have hupdn : updRules s (optStr p.replication_rule_id) (optStr p.new_name) (optStr p.rpo)
      rsid (optInt p.alert_threshold) =
      updRules s (optStr p.replication_rule_id) PyVal.none (optStr p.rpo)
        rsid (optInt p.alert_threshold) := by
    rw [hnn2]
  have hfind2 : findRuleById
      (updRules s (optStr p.replication_rule_id) (optStr p.new_name) (optStr p.rpo)
        rsid (optInt p.alert_threshold)) (optStr p.replication_rule_id) =
      Option.some (applyUpdates rm (modifyArgsDict PyVal.none (optStr p.rpo) rsid
        (optInt p.alert_threshold))) := by
    rw [hupdn]
    unfold updRules
    rw [findRuleById_upd s.rules (optStr p.replication_rule_id) PyVal.none (optStr p.rpo)
      rsid (optInt p.alert_threshold) (optStr p.replication_rule_id), hfindm]
    simp [hrmid]
  have hfetch1 := fetch_id_found s (pyRepr cnv) (optStr p.replication_rule_name)
    (optStr p.replication_rule_id) rm hnmf hfindm
  have hmod1 : modify_replication_rule_required rm
      (modifyArgsDict (if optStr p.new_name = PyVal.none then dnmv else optStr p.new_name)
        (optStr p.rpo) rsid (optInt p.alert_threshold)) = true := by
    rw [if_pos hnn2]
    exact hmod
  have hrest1 := rest_modify p s
    (Store.mk s.clusters
      (updRules s (optStr p.replication_rule_id) (optStr p.new_name) (optStr p.rpo)
        rsid (optInt p.alert_threshold)) s.remotes s.nameLike)
    (pyRepr cnv) (pyRepr cgv) rsid rm rm
    (applyUpdates rm (modifyArgsDict PyVal.none (optStr p.rpo) rsid
      (optInt p.alert_threshold)))
    rd (optStr p.replication_rule_id) dnmv (optStr p.replication_rule_id) rsid2 nmv
    hst (isEmpty_false_of_ne rm hrmne) hrmid hdnm (by simp [hidt]) hmod1 hfindm hrmne rfl
    hfind2 hrs2 hne2 hcls2 htr2 hrfind2 hnm2
  have hpre1 := run_prefix p s c0 crest cnv cgv rsid trRS (Option.some rm)
    [Call.ruleDetails (optStr p.replication_rule_id)] hcl hcn hcg hres hfetch1
  have hout1 : moduleOutcome storeBackend p s =
      MStep.ok (ModuleResult.mk true (Option.some
        (dictSet (applyUpdates rm (modifyArgsDict PyVal.none (optStr p.rpo) rsid
          (optInt p.alert_threshold))) "remote_system_name" nmv))) := by
    unfold moduleOutcome
    rw [hpre1, hrest1]
  have hsto : moduleStore storeBackend p s =
      Store.mk s.clusters
        (updRules s (optStr p.replication_rule_id) (optStr p.new_name) (optStr p.rpo)
          rsid (optInt p.alert_threshold)) s.remotes s.nameLike := by
    unfold moduleStore
    rw [hpre1, hrest1]
  refine ⟨hout1, ?_⟩
  rw [hsto]
  have hres2 : ResolveOK p
      (Store.mk s.clusters
        (updRules s (optStr p.replication_rule_id) (optStr p.new_name) (optStr p.rpo)
          rsid (optInt p.alert_threshold)) s.remotes s.nameLike) rsid trRS :=
    ResolveOK_congr p s _ rsid trRS rfl rfl hres
  have hfetch2 := fetch_id_found
    (Store.mk s.clusters
      (updRules s (optStr p.replication_rule_id) (optStr p.new_name) (optStr p.rpo)
        rsid (optInt p.alert_threshold)) s.remotes s.nameLike)
    (pyRepr cnv) (optStr p.replication_rule_name) (optStr p.replication_rule_id)
    (applyUpdates rm (modifyArgsDict PyVal.none (optStr p.rpo) rsid
      (optInt p.alert_threshold)))
    hnmf hfind2
  have hdne2 : (applyUpdates rm (modifyArgsDict PyVal.none (optStr p.rpo) rsid
      (optInt p.alert_threshold))).isEmpty = false :=
    isEmpty_false_of_ne _ (applyUpdates_ne_nil _ rm hrmne)
  have hdid2 : dlookup (applyUpdates rm (modifyArgsDict PyVal.none (optStr p.rpo) rsid
      (optInt p.alert_threshold))) "id" = Option.some (optStr p.replication_rule_id) := by
    rw [applyUpdates_lookup_other rm PyVal.none (optStr p.rpo) rsid
      (optInt p.alert_threshold) "id" (by decide) (by decide) (by decide) (by decide)]
    exact hrmid
  have hdnm2 : dlookup (applyUpdates rm (modifyArgsDict PyVal.none (optStr p.rpo) rsid
      (optInt p.alert_threshold))) "name" = Option.some dnmv := by
    rw [applyUpdates_lookup_name]
    simp [hdnm]
  have hmod2 : modify_replication_rule_required
      (applyUpdates rm (modifyArgsDict PyVal.none (optStr p.rpo) rsid
        (optInt p.alert_threshold)))
      (modifyArgsDict (if optStr p.new_name = PyVal.none then dnmv else optStr p.new_name)
        (optStr p.rpo) rsid (optInt p.alert_threshold)) = false := by
    rw [if_pos hnn2]
    refine satisfied_no_modify _ dnmv (optStr p.rpo) rsid (optInt p.alert_threshold)
      (applyUpdates_keys_nodup rm PyVal.none (optStr p.rpo) rsid
        (optInt p.alert_threshold) hrmnd)
      (fun _ => hdnm2) ?_ ?_ ?_
    · intro h
      rw [applyUpdates_lookup_rpo, if_neg h]
    · intro h
      rw [applyUpdates_lookup_rsid, if_neg h]
    · intro h
      rw [applyUpdates_lookup_alert, if_neg h]
  have hrest2 := rest_noop p
    (Store.mk s.clusters
      (updRules s (optStr p.replication_rule_id) (optStr p.new_name) (optStr p.rpo)
        rsid (optInt p.alert_threshold)) s.remotes s.nameLike)
    (pyRepr cnv) (pyRepr cgv) rsid
    (applyUpdates rm (modifyArgsDict PyVal.none (optStr p.rpo) rsid
      (optInt p.alert_threshold)))
    (applyUpdates rm (modifyArgsDict PyVal.none (optStr p.rpo) rsid
      (optInt p.alert_threshold)))
    rd (optStr p.replication_rule_id) dnmv (optStr p.replication_rule_id) rsid2 nmv
    hst hdne2 hdid2 hdnm2 (by simp [hidt]) hmod2 hfind2 hrs2 hne2 hcls2 htr2 hrfind2 hnm2
  have hpre2 := run_prefix p
    (Store.mk s.clusters
      (updRules s (optStr p.replication_rule_id) (optStr p.new_name) (optStr p.rpo)
        rsid (optInt p.alert_threshold)) s.remotes s.nameLike)
    c0 crest cnv cgv rsid trRS
    (Option.some (applyUpdates rm (modifyArgsDict PyVal.none (optStr p.rpo) rsid
      (optInt p.alert_threshold))))
    [Call.ruleDetails (optStr p.replication_rule_id)] hcl hcn hcg hres2 hfetch2
  unfold moduleOutcome
  rw [hpre2, hrest2]

theorem idem_modify_name (p : Params) (s : Store) (c0 : Dict) (crest : List Dict)
    (cnv cgv rsid ridv : PyVal) (trRS : List Call) (rr rm rd : Dict) (rrest : List Dict)
    (dnmv rsid2 nmv : PyVal)
    (hst : p.state = "present")
    (hnn : p.new_name = Option.none)
    (hcl : s.clusters = c0 :: crest)
    (hcn : dlookup c0 "name" = Option.some cnv)
    (hcg : dlookup c0 "id" = Option.some cgv)
    (hres : ResolveOK p s rsid trRS)
    (hidf : (optStr p.replication_rule_id).truthy = false)
    (hnmt : (optStr p.replication_rule_name).truthy = true)
    (hfilter : rulesNamed s (optStr p.replication_rule_name) = rr :: rrest)
    (hrrid : dlookup rr "id" = Option.some ridv)
    (hfindm : findRuleById s.rules ridv = Option.some rm)
    (hrmne : ¬(rm = []))
    (hrmnd : (List.map Prod.fst rm).Nodup)
    (hdnm : dlookup rm "name" = Option.some dnmv)
    (hmod : modify_replication_rule_required rm
      (modifyArgsDict dnmv (optStr p.rpo) rsid (optInt p.alert_threshold)) = true)
    (hrs2 : dlookup (applyUpdates rm (modifyArgsDict PyVal.none (optStr p.rpo) rsid
      (optInt p.alert_threshold))) "remote_system_id" = Option.some rsid2)
    (hne2 : rsid2 ≠ PyVal.none) (hcls2 : s.nameLike rsid2 = false) (htr2 : rsid2.truthy = true)
    (hrfind2 : findRemoteById s rsid2 = Option.some rd)
    (hnm2 : dlookup rd "name" = Option.some nmv) :
    moduleOutcome storeBackend p s =
      MStep.ok (ModuleResult.mk true (Option.some
        (dictSet (applyUpdates rm (modifyArgsDict PyVal.none (optStr p.rpo) rsid
          (optInt p.alert_threshold))) "remote_system_name" nmv))) ∧
    moduleOutcome storeBackend p (moduleStore storeBackend p s) =
      MStep.ok (ModuleResult.mk false (Option.some
        (dictSet (applyUpdates rm (modifyArgsDict PyVal.none (optStr p.rpo) rsid
          (optInt p.alert_threshold))) "remote_system_name" nmv))) := by
  have hnn2 : optStr p.new_name = PyVal.none := by
    rw [hnn]
    rfl
  have hfindm2 : List.find? (fun r => decide (dlookup r "id" =
      Option.some ridv)) s.rules = Option.some rm := hfindm
  have hpm : (fun r => decide (dlookup r "id" = Option.some ridv)) rm = true :=
    @List.find?_some Dict (fun r => decide (dlookup r "id" = Option.some ridv))
      rm s.rules hfindm2
  have hrmid : dlookup rm "id" = Option.some ridv := of_decide_eq_true hpm
  have hupdn : updRules s ridv (optStr p.new_name) (optStr p.rpo)
      rsid (optInt p.alert_threshold) =
      updRules s ridv PyVal.none (optStr p.rpo) rsid (optInt p.alert_threshold) := by
    rw [hnn2]
  have hfind2 : findRuleById
      (updRules s ridv (optStr p.new_name) (optStr p.rpo)
        rsid (optInt p.alert_threshold)) ridv =
      Option.some (applyUpdates rm (modifyArgsDict PyVal.none (optStr p.rpo) rsid
        (optInt p.alert_threshold))) := by
    rw [hupdn]
    unfold updRules
    rw [findRuleById_upd s.rules ridv PyVal.none (optStr p.rpo)
      rsid (optInt p.alert_threshold) ridv, hfindm]
    simp [hrmid]
  have hfetch1 := fetch_name_found s (pyRepr cnv) (optStr p.replication_rule_name)
    (optStr p.replication_rule_id) ridv rr rm rrest hnmt hfilter hrrid hfindm
  have hmod1 : modify_replication_rule_required rm
      (modifyArgsDict (if optStr p.new_name = PyVal.none then dnmv else optStr p.new_name)
        (optStr p.rpo) rsid (optInt p.alert_threshold)) = true := by
    rw [if_pos hnn2]
    exact hmod
  have hrest1 := rest_modify p s
    (Store.mk s.clusters
      (updRules s ridv (optStr p.new_name) (optStr p.rpo)
        rsid (optInt p.alert_threshold)) s.remotes s.nameLike)
    (pyRepr cnv) (pyRepr cgv) rsid rm rm
    (applyUpdates rm (modifyArgsDict PyVal.none (optStr p.rpo) rsid
      (optInt p.alert_threshold)))
    rd ridv dnmv ridv rsid2 nmv
    hst (isEmpty_false_of_ne rm hrmne) hrmid hdnm (by simp [hidf]) hmod1 hfindm hrmne rfl
    hfind2 hrs2 hne2 hcls2 htr2 hrfind2 hnm2
  have hpre1 := run_prefix p s c0 crest cnv cgv rsid trRS (Option.some rm)
    [Call.ruleByName (optStr p.replication_rule_name), Call.ruleDetails ridv]
    hcl hcn hcg hres hfetch1
  have hout1 : moduleOutcome storeBackend p s =
      MStep.ok (ModuleResult.mk true (Option.some
        (dictSet (applyUpdates rm (modifyArgsDict PyVal.none (optStr p.rpo) rsid
          (optInt p.alert_threshold))) "remote_system_name" nmv))) := by
    unfold moduleOutcome
    rw [hpre1, hrest1]
  have hsto : moduleStore storeBackend p s =
      Store.mk s.clusters
        (updRules s ridv (optStr p.new_name) (optStr p.rpo)
          rsid (optInt p.alert_threshold)) s.remotes s.nameLike := by
    unfold moduleStore
    rw [hpre1, hrest1]
  refine ⟨hout1, ?_⟩
  rw [hsto]
  have hres2 : ResolveOK p
      (Store.mk s.clusters
        (updRules s ridv (optStr p.new_name) (optStr p.rpo)
          rsid (optInt p.alert_threshold)) s.remotes s.nameLike) rsid trRS :=
    ResolveOK_congr p s _ rsid trRS rfl rfl hres
  have hf2 : List.filter (fun r => decide (dlookup r "name" =
      Option.some (optStr p.replication_rule_name)))
      (updRules s ridv (optStr p.new_name) (optStr p.rpo)
        rsid (optInt p.alert_threshold)) =
      applyUpdates rr (modifyArgsDict PyVal.none (optStr p.rpo) rsid
        (optInt p.alert_threshold)) ::
      List.map (fun r2 => if decide (dlookup r2 "id" = Option.some ridv) then
        applyUpdates r2 (modifyArgsDict PyVal.none (optStr p.rpo) rsid
          (optInt p.alert_threshold)) else r2) rrest := by
    rw [hupdn]
    unfold updRules
    rw [filter_name_upd s.rules ridv (optStr p.rpo) rsid (optInt p.alert_threshold)
      (optStr p.replication_rule_name)]
    unfold rulesNamed at hfilter
    rw [hfilter, List.map_cons]
    simp [hrrid]
  have hid2 : dlookup (applyUpdates rr (modifyArgsDict PyVal.none (optStr p.rpo) rsid
      (optInt p.alert_threshold))) "id" = Option.some ridv := by
    rw [applyUpdates_lookup_other rr PyVal.none (optStr p.rpo) rsid
      (optInt p.alert_threshold) "id" (by decide) (by decide) (by decide) (by decide)]
    exact hrrid
  have hfetch2 := fetch_name_found
    (Store.mk s.clusters
      (updRules s ridv (optStr p.new_name) (optStr p.rpo)
        rsid (optInt p.alert_threshold)) s.remotes s.nameLike)
    (pyRepr cnv) (optStr p.replication_rule_name) (optStr p.replication_rule_id) ridv
    (applyUpdates rr (modifyArgsDict PyVal.none (optStr p.rpo) rsid
      (optInt p.alert_threshold)))
    (applyUpdates rm (modifyArgsDict PyVal.none (optStr p.rpo) rsid
      (optInt p.alert_threshold)))
    (List.map (fun r2 => if decide (dlookup r2 "id" = Option.some ridv) then
      applyUpdates r2 (modifyArgsDict PyVal.none (optStr p.rpo) rsid
        (optInt p.alert_threshold)) else r2) rrest)
    hnmt hf2 hid2 hfind2
  have hdne2 : (applyUpdates rm (modifyArgsDict PyVal.none (optStr p.rpo) rsid
      (optInt p.alert_threshold))).isEmpty = false :=
    isEmpty_false_of_ne _ (applyUpdates_ne_nil _ rm hrmne)
  have hdid2 : dlookup (applyUpdates rm (modifyArgsDict PyVal.none (optStr p.rpo) rsid
      (optInt p.alert_threshold))) "id" = Option.some ridv := by
    rw [applyUpdates_lookup_other rm PyVal.none (optStr p.rpo) rsid
      (optInt p.alert_threshold) "id" (by decide) (by decide) (by decide) (by decide)]
    exact hrmid
  have hdnm2 : dlookup (applyUpdates rm (modifyArgsDict PyVal.none (optStr p.rpo) rsid
      (optInt p.alert_threshold))) "name" = Option.some dnmv := by
    rw [applyUpdates_lookup_name]
    simp [hdnm]
  have hmod2 : modify_replication_rule_required
      (applyUpdates rm (modifyArgsDict PyVal.none (optStr p.rpo) rsid
        (optInt p.alert_threshold)))
      (modifyArgsDict (if optStr p.new_name = PyVal.none then dnmv else optStr p.new_name)
        (optStr p.rpo) rsid (optInt p.alert_threshold)) = false := by
    rw [if_pos hnn2]
    refine satisfied_no_modify _ dnmv (optStr p.rpo) rsid (optInt p.alert_threshold)
      (applyUpdates_keys_nodup rm PyVal.none (optStr p.rpo) rsid
        (optInt p.alert_threshold) hrmnd)
      (fun _ => hdnm2) ?_ ?_ ?_
    · intro h
      rw [applyUpdates_lookup_rpo, if_neg h]
    · intro h
      rw [applyUpdates_lookup_rsid, if_neg h]
    · intro h
      rw [applyUpdates_lookup_alert, if_neg h]
  have hrest2 := rest_noop p
    (Store.mk s.clusters
      (updRules s ridv (optStr p.new_name) (optStr p.rpo)
        rsid (optInt p.alert_threshold)) s.remotes s.nameLike)
    (pyRepr cnv) (pyRepr cgv) rsid
    (applyUpdates rm (modifyArgsDict PyVal.none (optStr p.rpo) rsid
      (optInt p.alert_threshold)))
    (applyUpdates rm (modifyArgsDict PyVal.none (optStr p.rpo) rsid
      (optInt p.alert_threshold)))
    rd ridv dnmv ridv rsid2 nmv
    hst hdne2 hdid2 hdnm2 (by simp [hidf]) hmod2 hfind2 hrs2 hne2 hcls2 htr2 hrfind2 hnm2
  have hpre2 := run_prefix p
    (Store.mk s.clusters
      (updRules s ridv (optStr p.new_name) (optStr p.rpo)
        rsid (optInt p.alert_threshold)) s.remotes s.nameLike)
    c0 crest cnv cgv rsid trRS
    (Option.some (applyUpdates rm (modifyArgsDict PyVal.none (optStr p.rpo) rsid
      (optInt p.alert_threshold))))
    [Call.ruleByName (optStr p.replication_rule_name), Call.ruleDetails ridv]
    hcl hcn hcg hres2 hfetch2
  unfold moduleOutcome
  rw [hpre2, hrest2]

/-- C2: idempotence of state=present reconciliation when new_name is not
supplied: in each outcome class of a first successful run (create of a
missing rule, modify of an existing rule located by id or by name, and
no-op), re-running the very same request against the store left by the
first run reports changed=false. The four conjuncts cover the four
classes; the unamended claim (idempotence for every request) is refuted by
C2_counterexample, where a new_name request fails on the second run. -/
theorem C2_thm :
    (∀ (p : Params) (s : Store) (c0 : Dict) (crest : List Dict)
       (cnv cgv rsid : PyVal) (trRS : List Call) (rd : Dict) (nmv : PyVal),
      p.state = "present" → p.new_name = Option.none →
      s.clusters = c0 :: crest →
      dlookup c0 "name" = Option.some cnv →
      dlookup c0 "id" = Option.some cgv →
      ResolveOK p s rsid trRS →
      (optStr p.replication_rule_id).truthy = false →
      (optStr p.replication_rule_name).truthy = true →
      invalidRuleName (optStr p.replication_rule_name) = false →
      rulesNamed s (optStr p.replication_rule_name) = [] →
      (optStr p.remote_system).truthy = true →
      (optStr p.rpo).truthy = true →
      rsid ≠ PyVal.none → s.nameLike rsid = false → rsid.truthy = true →
      findRemoteById s rsid = Option.some rd →
      dlookup rd "name" = Option.some nmv →
      (∃ d1, moduleOutcome storeBackend p s = MStep.ok (ModuleResult.mk true d1)) ∧
      (∃ d2, moduleOutcome storeBackend p (moduleStore storeBackend p s) =
        MStep.ok (ModuleResult.mk false d2))) ∧
    (∀ (p : Params) (s : Store) (c0 : Dict) (crest : List Dict)
       (cnv cgv rsid : PyVal) (trRS : List Call) (rm rd : Dict)
       (dnmv rsid2 nmv : PyVal),
      p.state = "present" → p.new_name = Option.none →
      s.clusters = c0 :: crest →
      dlookup c0 "name" = Option.some cnv →
      dlookup c0 "id" = Option.some cgv →
      ResolveOK p s rsid trRS →
      (optStr p.replication_rule_id).truthy = true →
      (optStr p.replication_rule_name).truthy = false →
      findRuleById s.rules (optStr p.replication_rule_id) = Option.some rm →
      ¬(rm = []) →
      (List.map Prod.fst rm).Nodup →
      dlookup rm "name" = Option.some dnmv →
      modify_replication_rule_required rm
        (modifyArgsDict dnmv (optStr p.rpo) rsid (optInt p.alert_threshold)) = true →
      dlookup (applyUpdates rm (modifyArgsDict PyVal.none (optStr p.rpo) rsid
        (optInt p.alert_threshold))) "remote_system_id" = Option.some rsid2 →
      rsid2 ≠ PyVal.none → s.nameLike rsid2 = false → rsid2.truthy = true →
      findRemoteById s rsid2 = Option.some rd →
      dlookup rd "name" = Option.some nmv →
      (∃ d1, moduleOutcome storeBackend p s = MStep.ok (ModuleResult.mk true d1)) ∧
      (∃ d2, moduleOutcome storeBackend p (moduleStore storeBackend p s) =
        MStep.ok (ModuleResult.mk false d2))) ∧
    (∀ (p : Params) (s : Store) (c0 : Dict) (crest : List Dict)
       (cnv cgv rsid ridv : PyVal) (trRS : List Call) (rr rm rd : Dict)
       (rrest : List Dict) (dnmv rsid2 nmv : PyVal),
      p.state = "present" → p.new_name = Option.none →
      s.clusters = c0 :: crest →
      dlookup c0 "name" = Option.some cnv →
      dlookup c0 "id" = Option.some cgv →
      ResolveOK p s rsid trRS →
      (optStr p.replication_rule_id).truthy = false →
      (optStr p.replication_rule_name).truthy = true →
      rulesNamed s (optStr p.replication_rule_name) = rr :: rrest →
      dlookup rr "id" = Option.some ridv →
      findRuleById s.rules ridv = Option.some rm →
      ¬(rm = []) →
      (List.map Prod.fst rm).Nodup →
      dlookup rm "name" = Option.some dnmv →
      modify_replication_rule_required rm
        (modifyArgsDict dnmv (optStr p.rpo) rsid (optInt p.alert_threshold)) = true →
      dlookup (applyUpdates rm (modifyArgsDict PyVal.none (optStr p.rpo) rsid
        (optInt p.alert_threshold))) "remote_system_id" = Option.some rsid2 →
      rsid2 ≠ PyVal.none → s.nameLike rsid2 = false → rsid2.truthy = true →
      findRemoteById s rsid2 = Option.some rd →
      dlookup rd "name" = Option.some nmv →
      (∃ d1, moduleOutcome storeBackend p s = MStep.ok (ModuleResult.mk true d1)) ∧
      (∃ d2, moduleOutcome storeBackend p (moduleStore storeBackend p s) =
        MStep.ok (ModuleResult.mk false d2))) ∧
    (∀ (p : Params) (s : Store) (c0 : Dict) (crest : List Dict)
       (cnv cgv rsid : PyVal) (trRS trF : List Call) (d d2 rd : Dict)
       (didv dnmv ridv rsid2 nmv : PyVal),
      p.state = "present" →
      s.clusters = c0 :: crest →
      dlookup c0 "name" = Option.some cnv →
      dlookup c0 "id" = Option.some cgv →
      ResolveOK p s rsid trRS →
      get_replication_rule_details_m storeBackend (pyRepr cnv)
        (optStr p.replication_rule_name) (optStr p.replication_rule_id) s =
        (MStep.ok (Option.some d), s, trF) →
      d.isEmpty = false →
      dlookup d "id" = Option.some didv →
      dlookup d "name" = Option.some dnmv →
      ridv = (if (optStr p.replication_rule_id).truthy = true
        then optStr p.replication_rule_id else didv) →
      modify_replication_rule_required d
        (modifyArgsDict (if optStr p.new_name = PyVal.none then dnmv else optStr p.new_name)
          (optStr p.rpo) rsid (optInt p.alert_threshold)) = false →
      findRuleById s.rules ridv = Option.some d2 →
      dlookup d2 "remote_system_id" = Option.some rsid2 →
      rsid2 ≠ PyVal.none → s.nameLike rsid2 = false → rsid2.truthy = true →
      findRemoteById s rsid2 = Option.some rd →
      dlookup rd "name" = Option.some nmv →
      (∃ d1, moduleOutcome storeBackend p s = MStep.ok (ModuleResult.mk false d1)) ∧
      (∃ d3, moduleOutcome storeBackend p (moduleStore storeBackend p s) =
        MStep.ok (ModuleResult.mk false d3))) := by
  refine ⟨?_, ?_, ?_, ?_⟩
  · intro p s c0 crest cnv cgv rsid trRS rd nmv hst hnn hcl hcn hcg hres hidf hnmt hnmok
      hnone hrem hrpo hne hcls htr hrfind hnm
    obtain ⟨h1, h2⟩ := idem_create p s c0 crest cnv cgv rsid trRS rd nmv hst hnn hcl hcn
      hcg hres hidf hnmt hnmok hnone hrem hrpo hne hcls htr hrfind hnm
    exact ⟨⟨_, h1⟩, ⟨_, h2⟩⟩
  · intro p s c0 crest cnv cgv rsid trRS rm rd dnmv rsid2 nmv hst hnn hcl hcn hcg hres
      hidt hnmf hfindm hrmne hrmnd hdnm hmod hrs2 hne2 hcls2 htr2 hrfind2 hnm2
    obtain ⟨h1, h2⟩ := idem_modify_id p s c0 crest cnv cgv rsid trRS rm rd dnmv rsid2 nmv
      hst hnn hcl hcn hcg hres hidt hnmf hfindm hrmne hrmnd hdnm hmod hrs2 hne2 hcls2
      htr2 hrfind2 hnm2
    exact ⟨⟨_, h1⟩, ⟨_, h2⟩⟩
  · intro p s c0 crest cnv cgv rsid ridv trRS rr rm rd rrest dnmv rsid2 nmv hst hnn hcl
      hcn hcg hres hidf hnmt hfilter hrrid hfindm hrmne hrmnd hdnm hmod hrs2 hne2 hcls2
      htr2 hrfind2 hnm2
    obtain ⟨h1, h2⟩ := idem_modify_name p s c0 crest cnv cgv rsid ridv trRS rr rm rd rrest
      dnmv rsid2 nmv hst hnn hcl hcn hcg hres hidf hnmt hfilter hrrid hfindm hrmne hrmnd
      hdnm hmod hrs2 hne2 hcls2 htr2 hrfind2 hnm2
    exact ⟨⟨_, h1⟩, ⟨_, h2⟩⟩
  · intro p s c0 crest cnv cgv rsid trRS trF d d2 rd didv dnmv ridv rsid2 nmv hst hcl hcn
      hcg hres hfetch hdne hdid hdnm hrid hmod hfind2 hrs2 hne2 hcls2 htr2 hrfind2 hnm2
    obtain ⟨h1, _, h3⟩ := idem_noop p s c0 crest cnv cgv rsid trRS trF d d2 rd didv dnmv
      ridv rsid2 nmv hst hcl hcn hcg hres hfetch hdne hdid hdnm hrid hmod hfind2 hrs2
      hne2 hcls2 htr2 hrfind2 hnm2
    exact ⟨⟨_, h1⟩, ⟨_, h3⟩⟩

def pC2c : Params := Params.mk Option.none (Option.some "NewRule") Option.none
  (Option.some "One_Hour") (Option.some 30) (Option.some "RS1") Option.none "present"
def pC2mi : Params := Params.mk (Option.some "1") Option.none Option.none
  (Option.some "Five_Minutes") Option.none Option.none Option.none "present"
def pC2mn : Params := Params.mk Option.none (Option.some "A") Option.none
  Option.none (Option.some 30) Option.none Option.none "present"

/-- Witness: the four conjuncts of C2_thm instantiated on a concrete
array state: a create request, a modify-by-id request, a modify-by-name
request and a no-op request, each re-run after its own first run. -/
theorem C2_witness :
    ((∃ d1, moduleOutcome storeBackend pC2c exStore = MStep.ok (ModuleResult.mk true d1)) ∧
     (∃ d2, moduleOutcome storeBackend pC2c (moduleStore storeBackend pC2c exStore) =
       MStep.ok (ModuleResult.mk false d2))) ∧
    ((∃ d1, moduleOutcome storeBackend pC2mi exStore = MStep.ok (ModuleResult.mk true d1)) ∧
     (∃ d2, moduleOutcome storeBackend pC2mi (moduleStore storeBackend pC2mi exStore) =
       MStep.ok (ModuleResult.mk false d2))) ∧
    ((∃ d1, moduleOutcome storeBackend pC2mn exStore = MStep.ok (ModuleResult.mk true d1)) ∧
     (∃ d2, moduleOutcome storeBackend pC2mn (moduleStore storeBackend pC2mn exStore) =
       MStep.ok (ModuleResult.mk false d2))) ∧
    ((∃ d1, moduleOutcome storeBackend exNoopParams exStore =
       MStep.ok (ModuleResult.mk false d1)) ∧
     (∃ d2, moduleOutcome storeBackend exNoopParams
         (moduleStore storeBackend exNoopParams exStore) =
       MStep.ok (ModuleResult.mk false d2))) :=
  ⟨C2_thm.1 pC2c exStore exCluster [] (PyVal.str "cluster0") (PyVal.str "cg0")
      (PyVal.str "rs1") [Call.remoteSystemByName (PyVal.str "RS1") PyVal.none] exRemote
      (PyVal.str "RS1")
      rfl rfl rfl rfl rfl
      (Or.inr ⟨rfl, Option.some exRemote, rfl, Or.inr ⟨exRemote, rfl, rfl, rfl⟩⟩)
      rfl rfl (by decide) (by decide) rfl rfl (by decide) (by decide) rfl rfl rfl,
   C2_thm.2.1 pC2mi exStore exCluster [] (PyVal.str "cluster0") (PyVal.str "cg0")
      PyVal.none [] exRule exRemote (PyVal.str "A") (PyVal.str "rs1") (PyVal.str "RS1")
      rfl rfl rfl rfl rfl (Or.inl ⟨rfl, rfl, rfl⟩)
      rfl rfl (by decide) (by decide) (by decide) rfl (by decide) (by decide) (by decide)
      (by decide) (by decide) rfl rfl,
   C2_thm.2.2.1 pC2mn exStore exCluster [] (PyVal.str "cluster0") (PyVal.str "cg0")
      PyVal.none (PyVal.str "1") [] exRule exRule exRemote [] (PyVal.str "A")
      (PyVal.str "rs1") (PyVal.str "RS1")
      rfl rfl rfl rfl rfl (Or.inl ⟨rfl, rfl, rfl⟩)
      rfl rfl (by decide) rfl (by decide) (by decide) (by decide) rfl (by decide)
      (by decide) (by decide) (by decide) (by decide) rfl rfl,
   C2_thm.2.2.2 exNoopParams exStore exCluster [] (PyVal.str "cluster0") (PyVal.str "cg0")
      (PyVal.str "rs1") [Call.remoteSystemByName (PyVal.str "RS1") PyVal.none]
      [Call.ruleByName (PyVal.str "A"), Call.ruleDetails (PyVal.str "1")]
      exRule exRule exRemote (PyVal.str "1") (PyVal.str "A") (PyVal.str "1")
      (PyVal.str "rs1") (PyVal.str "RS1")
      rfl rfl rfl rfl
      (Or.inr ⟨rfl, Option.some exRemote, rfl, Or.inr ⟨exRemote, rfl, rfl, rfl⟩⟩)
      rfl rfl rfl rfl (by decide) (by decide) (by decide) rfl (by decide) (by decide)
      rfl rfl rfl⟩
